import Mathlib

/-!
# VCINSStaggeredConservativeConvectiveOperator

A shallow embedding of `src/src/navier_stokes/VCINSStaggeredConservativeConvectiveOperator.cpp`:
the constructor, the lifecycle flags and `applyConvectiveOperator`, with the
numerical kernels the C++ file only declares (`extern "C"`) taken as
parameters or modelled from the specification.

Conventions.
* `double` values are exact rationals (`ℚ`); descriptor indices and level
  numbers are `Int` as in the C++.
* `TBOX_ERROR` and a failed `TBOX_ASSERT` abort the call; an abort is an
  `Except.error` carrying a `Failure`.
* Code between `#if !defined(NDEBUG)` and `#endif` is present exactly when
  `Build.NDEBUG = false`.
-/

namespace IBAMR

/-! ## Build parameters and enumerations -/

/-- Compile-time parameters of the translation unit: the `NDEBUG` macro and
the spatial dimension `NDIM`. -/
structure Build where
  NDEBUG : Bool
  NDIM : Nat
  deriving DecidableEq, Repr

/-- Values of `ConvectiveDifferencingType` (declared in `ibamr_enums.h`). The
constructor accepts `CONSERVATIVE` only. -/
inductive ConvectiveDifferencingType where
  | ADVECTIVE
  | CONSERVATIVE
  | SKEW_SYMMETRIC
  | UNKNOWN_CONVECTIVE_DIFFERENCING_TYPE
  deriving DecidableEq, Repr

/-- Values of `VCConvectiveLimiter` (declared in `ibamr_enums.h`); the
`default:` labels of the switches over it catch the unknown value. -/
inductive VCConvectiveLimiter where
  | VC_UPWIND
  | VC_CUI
  | VC_FBICS
  | VC_MGAMMA
  | UNKNOWN_VC_CONVECTIVE_LIMITER
  deriving DecidableEq, Repr

/-- Values of `VCDensityTimeSteppingType` (declared in `ibamr_enums.h`). -/
inductive VCDensityTimeSteppingType where
  | VC_FORWARD_EULER
  | VC_SSPRK2
  | UNKNOWN_VC_DENSITY_TIME_STEPPING_TYPE
  deriving DecidableEq, Repr

/-- The `string_to_enum` specialisations of `ibamr_enums.h`, which the source
file calls but does not define: taken as parameters. -/
structure Enums where
  limiterOfString : String → VCConvectiveLimiter
  timeSteppingOfString : String → VCDensityTimeSteppingType

/-- Reasons for which a call aborts. -/
inductive Failure where
  | unsupportedDifferencingForm
  | unsupportedVelocityLimiter
  | unsupportedDensityLimiter
  | unsupportedTimeStepping
  | unsupportedLimiter
  | notInitialized
  | densityNotSet
  | timeStepNotSet
  | assertionFailed (expr : String)
  | nullPointer (what : String)
  deriving DecidableEq, Repr

/-! ## Ghost cell widths (file-static constants, lines 984-990) -/

def GUPWINDG : Int := 2
def GCUIG : Int := 3
def GFBICSG : Int := 3
def GMGAMMAG : Int := 3
def NOGHOSTS : Int := 0

/-! ## The input database (`tbox::Database`) -/

/-- A `tbox::Database` as the constructor reads it: string-valued keys. -/
structure Database where
  entries : List (String × String)
  deriving DecidableEq, Repr

def Database.keyExists (db : Database) (key : String) : Bool :=
  db.entries.any (fun e => e.1 == key)

def Database.getString (db : Database) (key : String) : String :=
  match db.entries.find? (fun e => e.1 == key) with
  | some e => e.2
  | none => ""

/-! ## The variable database (`hier::VariableDatabase`)

The process-wide registry of (variable, context) pairs. A pair is registered
once, with a ghost cell width, and keeps its descriptor index and ghost width
from then on. -/

/-- One registered (variable, context) pair and the ghost cell width its patch
data was registered with. -/
structure Registration where
  var : String
  ctx : String
  gcw : Int
  deriving DecidableEq, Repr

/-- The registry; the descriptor index of a pair is its position. -/
structure VariableDatabase where
  registrations : List Registration
  deriving DecidableEq, Repr

/-- `getVariable(name)` is non-null exactly when a variable of that name is
in the database. -/
def VariableDatabase.getVariable (db : VariableDatabase) (name : String) : Bool :=
  db.registrations.any (fun r => r.var == name)

/-- `mapVariableAndContextToIndex`: the descriptor index of the pair, `-1`
when the pair is not registered. -/
def VariableDatabase.mapVariableAndContextToIndex (db : VariableDatabase)
    (name ctx : String) : Int :=
  let k := db.registrations.findIdx (fun r => r.var == name && r.ctx == ctx)
  if k < db.registrations.length then (k : Int) else -1

/-- `registerVariableAndContext`: a pair already registered keeps its index
(and its ghost width); a new pair is appended with the requested ghost
width. -/
def VariableDatabase.registerVariableAndContext (db : VariableDatabase)
    (name ctx : String) (ghosts : Int) : Int × VariableDatabase :=
  let k := db.registrations.findIdx (fun r => r.var == name && r.ctx == ctx)
  if k < db.registrations.length then ((k : Int), db)
  else ((db.registrations.length : Int),
        { registrations := db.registrations ++ [{ var := name, ctx := ctx, gcw := ghosts }] })

/-- Ghost cell width of the patch data behind a descriptor index. -/
def VariableDatabase.ghostCellWidth (db : VariableDatabase) (idx : Int) : Option Int :=
  if idx < 0 then none else (db.registrations.get? idx.toNat).map (fun r => r.gcw)

/-! ## Halo-fill plan objects (`IBTK::HierarchyGhostCellInterpolation`) -/

/-- A boundary-coefficient object pointer (`RobinBcCoefStrategy<NDIM>*`):
`none` is `NULL`, `some k` the object with identity `k`. -/
abbrev BcCoefPtr := Option Nat

/-- The arguments of an `InterpolationTransactionComponent`, in the order of
its constructor. -/
structure InterpolationTransactionComponent where
  dst_data_idx : Int
  src_data_idx : Int
  refine_op_name : String
  use_cf_bdry_interpolation : Bool
  coarsen_op_name : String
  phys_bdry_extrap_type : String
  consistent_type_2_bdry : Bool
  robin_bc_coefs : List BcCoefPtr
  deriving DecidableEq, Repr

/-! ## The grid -/

/-- A point of index space; component `d` is meaningful for `d < NDIM`. -/
abbrev Index := Nat → Int

/-- An index-space box. -/
structure Box where
  lower : Index
  upper : Index

/-- A patch: its cell box and the grid spacing `dx` of its level. -/
structure Patch where
  box : Box
  dx : Nat → ℚ

/-- A patch hierarchy as the operator consumes it: an identity (the pointee
of the `Pointer<PatchHierarchy>`), and `getPatchLevel(ln)` giving the patches
of level `ln` in patch-number order. -/
structure PatchHierarchy where
  id : Nat
  getPatchLevel : Int → List Patch

/-- State of a `HierarchyGhostCellInterpolation` object: its current
transaction components, the hierarchy it was set up for and the
homogeneous-boundary flag. -/
structure HierarchyGhostCellInterpolation where
  transaction_comps : List InterpolationTransactionComponent
  hierarchy : PatchHierarchy
  homogeneous_bc : Bool

/-! ## The operator object -/

/-- Data members of `VCINSStaggeredConservativeConvectiveOperator`, the
members inherited from `ConvectiveOperator` first. -/
structure Operator where
  d_object_name : String
  d_difference_form : ConvectiveDifferencingType
  d_is_initialized : Bool
  d_u_idx : Int
  d_solution_time : ℚ
  d_hier_math_ops : Option Nat
  d_hier_math_ops_external : Bool
  d_bc_coefs : List BcCoefPtr
  d_bdry_extrap_type : String
  d_transaction_comps : List InterpolationTransactionComponent
  d_hier_bdry_fill : Option HierarchyGhostCellInterpolation
  d_bc_helper : Option Nat
  d_hierarchy : Option PatchHierarchy
  d_coarsest_ln : Int
  d_finest_ln : Int
  d_rho_is_set : Bool
  d_dt_is_set : Bool
  d_dt : ℚ
  d_rho_interp_bc_coefs : List BcCoefPtr
  d_U_var : Option String
  d_U_scratch_idx : Int
  d_rho_interp_var : Option String
  d_rho_interp_current_idx : Int
  d_rho_interp_scratch_idx : Int
  d_rho_interp_new_idx : Int
  d_vc_velocity_convective_limiter : VCConvectiveLimiter
  d_vc_density_convective_limiter : VCConvectiveLimiter
  d_velocity_limiter_gcw : Int
  d_density_limiter_gcw : Int
  d_vc_density_time_stepping_type : VCDensityTimeSteppingType

/-! ## Construction (lines 1001-1170) -/

def U_var_name : String := "VCINSStaggeredConservativeConvectiveOperator::U"
def context_name : String := "VCINSStaggeredConservativeConvectiveOperator::CONTEXT"
def rho_interp_name : String := "VCINSStaggeredConservativeConvectiveOperator::RHO_INTERP"

/-- The member initialiser list (lines 1006-1026). The members of the base
class `ConvectiveOperator` take their initial values: not initialised,
`d_u_idx = -1`, no math-operations object; its `d_solution_time`, which this
class never assigns, is taken as 0. -/
def memberInit (b : Build) (object_name : String)
    (difference_form : ConvectiveDifferencingType) (bc_coefs : List BcCoefPtr) : Operator :=
  { d_object_name := object_name
    d_difference_form := difference_form
    d_is_initialized := false
    d_u_idx := -1
    d_solution_time := 0
    d_hier_math_ops := none
    d_hier_math_ops_external := false
    d_bc_coefs := bc_coefs
    d_bdry_extrap_type := "CONSTANT"
    d_transaction_comps := []
    d_hier_bdry_fill := none
    d_bc_helper := none
    d_hierarchy := none
    d_coarsest_ln := -1
    d_finest_ln := -1
    d_rho_is_set := false
    d_dt_is_set := false
    d_dt := -1
    d_rho_interp_bc_coefs := List.replicate b.NDIM none
    d_U_var := none
    d_U_scratch_idx := -1
    d_rho_interp_var := none
    d_rho_interp_current_idx := -1
    d_rho_interp_scratch_idx := -1
    d_rho_interp_new_idx := -1
    d_vc_velocity_convective_limiter := VCConvectiveLimiter.VC_UPWIND
    d_vc_density_convective_limiter := VCConvectiveLimiter.VC_UPWIND
    d_velocity_limiter_gcw := 1
    d_density_limiter_gcw := 1
    d_vc_density_time_stepping_type := VCDensityTimeSteppingType.VC_FORWARD_EULER }

/-- Lines 1037-1059: the options read from the input database, when there is
one, in source order (a later assignment overrides an earlier one). -/
def readInput (E : Enums) (input_db : Option Database) (op : Operator) : Operator :=
  match input_db with
  | none => op
  | some db =>
    let op := if db.keyExists "bdry_extrap_type"
      then { op with d_bdry_extrap_type := db.getString "bdry_extrap_type" } else op
    let op := if db.keyExists "vc_convective_limiter"
      then { op with
              d_vc_velocity_convective_limiter :=
                E.limiterOfString (db.getString "vc_convective_limiter")
              d_vc_density_convective_limiter :=
                E.limiterOfString (db.getString "vc_convective_limiter") }
      else op
    let op := if db.keyExists "vc_velocity_convective_limiter"
      then { op with d_vc_velocity_convective_limiter :=
              E.limiterOfString (db.getString "vc_velocity_convective_limiter") }
      else op
    let op := if db.keyExists "vc_density_convective_limiter"
      then { op with d_vc_density_convective_limiter :=
              E.limiterOfString (db.getString "vc_density_convective_limiter") }
      else op
    if db.keyExists "vc_density_time_stepping_type"
      then { op with d_vc_density_time_stepping_type :=
              E.timeSteppingOfString (db.getString "vc_density_time_stepping_type") }
      else op

/-- The body shared by the two limiter switches (lines 1061-1103): the ghost
cell width of a limiter, `none` at the `default:` label. -/
def limiterGcw : VCConvectiveLimiter → Option Int
  | VCConvectiveLimiter.VC_UPWIND => some GUPWINDG
  | VCConvectiveLimiter.VC_CUI => some GCUIG
  | VCConvectiveLimiter.VC_FBICS => some GFBICSG
  | VCConvectiveLimiter.VC_MGAMMA => some GMGAMMAG
  | VCConvectiveLimiter.UNKNOWN_VC_CONVECTIVE_LIMITER => none

/-- Lines 1122-1132: look the velocity scratch variable up, register it with
the velocity limiter's ghost width only when it is not there yet. -/
def lookupVelocityVariable (op : Operator) (var_db : VariableDatabase) :
    Operator × VariableDatabase :=
  if var_db.getVariable U_var_name then
    ({ op with d_U_var := some U_var_name
               d_U_scratch_idx := var_db.mapVariableAndContextToIndex U_var_name context_name },
     var_db)
  else
    let reg := var_db.registerVariableAndContext U_var_name context_name op.d_velocity_limiter_gcw
    ({ op with d_U_var := some U_var_name, d_U_scratch_idx := reg.1 }, reg.2)

/-- Lines 1119-1136: the lookup and the assertion after it. -/
def setupVelocityVariable (b : Build) (op : Operator) (var_db : VariableDatabase) :
    Except Failure (Operator × VariableDatabase) :=
  let r := lookupVelocityVariable op var_db
  if !b.NDEBUG && decide (r.1.d_U_scratch_idx < 0) then
    Except.error (Failure.assertionFailed "d_U_scratch_idx >= 0")
  else Except.ok r

/-- Lines 1138-1154: the same for the density variable and its two
contexts. -/
def lookupDensityVariable (op : Operator) (var_db : VariableDatabase) :
    Operator × VariableDatabase :=
  if var_db.getVariable rho_interp_name then
    ({ op with
        d_rho_interp_var := some rho_interp_name
        d_rho_interp_scratch_idx :=
          var_db.mapVariableAndContextToIndex rho_interp_name (rho_interp_name ++ "::SCRATCH")
        d_rho_interp_new_idx :=
          var_db.mapVariableAndContextToIndex rho_interp_name (rho_interp_name ++ "::NEW") },
     var_db)
  else
    let reg1 := var_db.registerVariableAndContext rho_interp_name
      (rho_interp_name ++ "::SCRATCH") op.d_density_limiter_gcw
    let reg2 := reg1.2.registerVariableAndContext rho_interp_name
      (rho_interp_name ++ "::NEW") NOGHOSTS
    ({ op with d_rho_interp_var := some rho_interp_name
               d_rho_interp_scratch_idx := reg1.1
               d_rho_interp_new_idx := reg2.1 }, reg2.2)

/-- Lines 1138-1158: the lookup and the two assertions after it. -/
def setupDensityVariable (b : Build) (op : Operator) (var_db : VariableDatabase) :
    Except Failure (Operator × VariableDatabase) :=
  let r := lookupDensityVariable op var_db
  if !b.NDEBUG && decide (r.1.d_rho_interp_scratch_idx < 0) then
    Except.error (Failure.assertionFailed "d_rho_interp_scratch_idx >= 0")
  else if !b.NDEBUG && decide (r.1.d_rho_interp_new_idx < 0) then
    Except.error (Failure.assertionFailed "d_rho_interp_new_idx >= 0")
  else Except.ok r

/-- The constructor. It returns the new object and the variable database as
the construction leaves it. -/
def construct (b : Build) (E : Enums) (object_name : String) (input_db : Option Database)
    (difference_form : ConvectiveDifferencingType) (bc_coefs : List BcCoefPtr)
    (var_db : VariableDatabase) : Except Failure (Operator × VariableDatabase) :=
  let op := memberInit b object_name difference_form bc_coefs
  if op.d_difference_form ≠ ConvectiveDifferencingType.CONSERVATIVE then
    Except.error Failure.unsupportedDifferencingForm
  else
    let op := readInput E input_db op
    match limiterGcw op.d_vc_velocity_convective_limiter with
    | none => Except.error Failure.unsupportedVelocityLimiter
    | some vg =>
      let op := { op with d_velocity_limiter_gcw := vg }
      match limiterGcw op.d_vc_density_convective_limiter with
      | none => Except.error Failure.unsupportedDensityLimiter
      | some dg =>
        let op := { op with d_density_limiter_gcw := dg }
        match op.d_vc_density_time_stepping_type with
        | VCDensityTimeSteppingType.UNKNOWN_VC_DENSITY_TIME_STEPPING_TYPE =>
          Except.error Failure.unsupportedTimeStepping
        | _ =>
          match setupVelocityVariable b op var_db with
          | Except.error e => Except.error e
          | Except.ok (op, var_db) => setupDensityVariable b op var_db

/-- The state in which a construction finds the operator's variables in the
variable database. Lines 1119-1154 register the velocity scratch variable
with the context `...::CONTEXT` and the density variable with the contexts
`...::SCRATCH` and `...::NEW`, and with no other context: when one of the two
variables is in the database, its pairs with these contexts have descriptor
indices. -/
def VariableDatabase.registeredByOperator (db : VariableDatabase) : Prop :=
  (db.getVariable U_var_name = true →
    0 ≤ db.mapVariableAndContextToIndex U_var_name context_name) ∧
  (db.getVariable rho_interp_name = true →
    0 ≤ db.mapVariableAndContextToIndex rho_interp_name (rho_interp_name ++ "::SCRATCH") ∧
    0 ≤ db.mapVariableAndContextToIndex rho_interp_name (rho_interp_name ++ "::NEW"))

instance (db : VariableDatabase) : Decidable db.registeredByOperator :=
  inferInstanceAs (Decidable
    ((db.getVariable U_var_name = true →
      0 ≤ db.mapVariableAndContextToIndex U_var_name context_name) ∧
    (db.getVariable rho_interp_name = true →
      0 ≤ db.mapVariableAndContextToIndex rho_interp_name (rho_interp_name ++ "::SCRATCH") ∧
      0 ≤ db.mapVariableAndContextToIndex rho_interp_name (rho_interp_name ++ "::NEW"))))

/-! ## Patch data and the world outside the operator -/

/-- Side-centred data on one patch: component `axis`, index `i`. Ghost
values are the values at indices outside the side box. -/
abbrev SideData := Nat → Index → ℚ

/-- Face-centred data on one box: normal direction `d`, index `i` (the lower
face of cell `i` in direction `d`). -/
abbrev FaceData := Nat → Index → ℚ

/-- All the patch data of one patch, by descriptor index. -/
abbrev PatchData := Int → SideData

/-- Calls of the operator into its collaborators, in call order. -/
inductive Event where
  | getOperationsDouble
  | setupBcCoefObjects (u_bc_coefs : List BcCoefPtr) (u_data_idx p_data_idx : Int)
      (homogeneous_bc : Bool)
  | resetBcCoefObjects (u_bc_coefs : List BcCoefPtr)
  | fillData (cached : Bool) (comps : List InterpolationTransactionComponent)
      (homogeneous_bc : Bool) (fill_time : ℚ)
  | integral (data_idx : Int)
  | computeAdvectionVelocity (ln : Int) (p : Nat) (U_idx : Int)
  | interpolateSideQuantity (ln : Int) (p : Nat) (Q_idx : Int) (limiter : VCConvectiveLimiter)
  | computeConvectiveDerivative (ln : Int) (p : Nat) (N_idx : Int)
  | updateDensity (ln : Int) (p : Nat) (axis : Nat) (R_idx R_new_idx : Int)
  | sspRk2UpdateDensity (ln : Int) (p : Nat) (axis : Nat) (R_old_idx R_new_idx : Int)
  | allocatePatchData (ln : Int) (idx : Int)
  | deallocatePatchData (ln : Int) (idx : Int)
  deriving DecidableEq, Repr

/-- The patch data of the hierarchy (`data idx ln p` is the data of
descriptor `idx` on patch number `p` of level `ln`), which descriptors are
allocated on which level, and the calls made so far. -/
structure World where
  data : Int → Int → Nat → SideData
  allocated : Int → Int → Bool
  log : List Event

def World.record (w : World) (es : List Event) : World :=
  { w with log := w.log ++ es }

def World.patchData (w : World) (ln : Int) (p : Nat) : PatchData :=
  fun idx => w.data idx ln p

def World.setPatchData (w : World) (ln : Int) (p : Nat) (pd : PatchData) : World :=
  { w with data := fun idx l q => if l = ln ∧ q = p then pd idx else w.data idx l q }

/-- Assignment through a `Pointer<SideData>`: the data of descriptor `idx`
on this patch becomes `v`. -/
def PatchData.set (pd : PatchData) (idx : Int) (v : SideData) : PatchData :=
  fun j => if j = idx then v else pd j

/-- One component of side data replaced. -/
def SideData.setAxis (s : SideData) (axis : Nat) (v : Index → ℚ) : SideData :=
  fun a => if a = axis then v else s a

/-! ## Index space -/

/-- The index `i` moved by `k` cells along direction `d`. -/
def Index.shift (i : Index) (d : Nat) (k : Int) : Index :=
  fun e => if e = d then i e + k else i e

/-- Membership of an index in a box, in the first `NDIM` directions. -/
def Box.contains (NDIM : Nat) (B : Box) (i : Index) : Prop :=
  ∀ d, d < NDIM → B.lower d ≤ i d ∧ i d ≤ B.upper d

instance Box.decidableContains (NDIM : Nat) (B : Box) (i : Index) :
    Decidable (B.contains NDIM i) :=
  Nat.decidableBallLT NDIM (fun d _ => B.lower d ≤ i d ∧ i d ≤ B.upper d)

/-- `SideGeometry<NDIM>::toSideBox(box, axis)`: the cell box grown by one at
its upper end along `axis`. -/
def toSideBox (box : Box) (axis : Nat) : Box :=
  { lower := box.lower, upper := Index.shift box.upper axis 1 }

/-! ## Numerical kernels

The Fortran routines behind the `extern "C"` declarations (lines 118-974) are
not part of the source tree. Those whose formula the specification states are
modelled from it; the others are parameters. Arrays are passed without their
ghost widths: an array is a function on all of index space. -/

/-- The kernels taken as parameters, with the arguments of the C++ call
sites, and the value the upwind kernel gives at a face whose advective
velocity is zero. -/
structure Kernels where
  navier_stokes_interp_comps : Box → SideData → (Nat → Box) → Nat → FaceData
  vc_navier_stokes_cui_quantity : Box → SideData → (Nat → Box) → (Nat → FaceData) → Nat → FaceData
  vc_navier_stokes_fbics_quantity : Box → SideData → (Nat → Box) → (Nat → FaceData) → Nat → FaceData
  vc_navier_stokes_mgamma_quantity : Box → SideData → (Nat → Box) → (Nat → FaceData) → Nat → FaceData
  vc_navier_stokes_compute_momentum : (Nat → Box) → (Nat → FaceData) → (Nat → FaceData) → Nat → FaceData
  convect_derivative : (Nat → ℚ) → Box → FaceData → FaceData → (Index → ℚ) → Index → ℚ
  upwind_at_rest : ℚ → ℚ → ℚ

/-- Modelled from the spec: the Fortran kernel `vc_navier_stokes_upwind_quantity`
is missing from the source tree. Section 4.1: Upwind "selects the upwind
neighbor by the sign of the advective velocity". The face `(d, i)` of the
control volume about a side of component `axis` separates the samples
`Q axis (i - e_d)` (upstream when the velocity is positive) and `Q axis i`
(upstream when it is negative). At zero velocity the specification names no
neighbour; the value there is the parameter `at_rest`. -/
def vc_navier_stokes_upwind_quantity (at_rest : ℚ → ℚ → ℚ) (Q : SideData)
    (U_adv : Nat → FaceData) : Nat → FaceData :=
  fun axis d i =>
    if 0 < U_adv axis d i then Q axis (Index.shift i d (-1))
    else if U_adv axis d i < 0 then Q axis i
    else at_rest (Q axis (Index.shift i d (-1))) (Q axis i)

/-- Modelled from the spec: the divergence inside the missing density-update
kernels. Section 4.2 step 3: the flux is face density times face velocity and
its divergence is taken "with a conservative finite-difference stencil": the
difference of the fluxes through the two faces of the control volume in each
direction, over the grid spacing. -/
def fluxDivergence (NDIM : Nat) (dx : Nat → ℚ) (U_adv R_half : FaceData) (i : Index) : ℚ :=
  ∑ d in Finset.range NDIM,
    (R_half d (Index.shift i d 1) * U_adv d (Index.shift i d 1) - R_half d i * U_adv d i) / dx d

/-- Modelled from the spec: the Fortran kernel `vc_update_density` is missing
from the source tree. Section 4.2 step 3: "advance density by forward Euler:
rho_new = rho_scratch − dt·div(flux)", on the faces of the side box (the
comment at line 1306 states the same update). -/
def vc_update_density (NDIM : Nat) (dx : Nat → ℚ) (dt : ℚ) (side_box : Box)
    (U_adv R_half : FaceData) (R R_new : Index → ℚ) : Index → ℚ :=
  fun i => if side_box.contains NDIM i
    then R i - dt * fluxDivergence NDIM dx U_adv R_half i else R_new i

/-- Modelled from the spec: the Fortran kernel `vc_ssp_rk2_update_density` is
missing from the source tree. Section 4.2 step 4: "combine
rho_new := 0.5·rho_old + 0.5·(stage1 − dt·div(flux₂)) per face", the stage-1
value being the content of the in/out array `R_new`. -/
def vc_ssp_rk2_update_density (NDIM : Nat) (dx : Nat → ℚ) (dt : ℚ) (side_box : Box)
    (U_adv R_half : FaceData) (R_old R_new : Index → ℚ) : Index → ℚ :=
  fun i => if side_box.contains NDIM i
    then (1 / 2) * R_old i + (1 / 2) * (R_new i - dt * fluxDivergence NDIM dx U_adv R_half i)
    else R_new i

/-! ## The halo-fill service -/

/-- What the specification leaves to the halo-fill service: the values it
puts into the ghost region of a patch, given the transaction, the
homogeneous-boundary flag, the fill time, the hierarchy and the source
data. -/
structure HaloService where
  ghost : InterpolationTransactionComponent → Bool → ℚ → PatchHierarchy →
    (Int → Nat → SideData) → Int → Nat → SideData

/-- Modelled from the spec: `HierarchyGhostCellInterpolation::fillData` is
missing from the source tree. Section 6: "an operation that, given (source
index, destination index, ...), populates a ghost region at a given
simulation time"; section 3 calls the destination a "ghost-filled working
copy". On every patch the destination takes the source values on the faces
of the patch and the service's values in the ghost region. -/
def fillComponent (NDIM : Nat) (H : HaloService) (hier : PatchHierarchy)
    (homogeneous_bc : Bool) (fill_time : ℚ) (data : Int → Int → Nat → SideData)
    (c : InterpolationTransactionComponent) : Int → Int → Nat → SideData :=
  fun idx ln p =>
    if idx = c.dst_data_idx then
      match (hier.getPatchLevel ln).get? p with
      | some patch => fun axis i =>
          if (toSideBox patch.box axis).contains NDIM i then data c.src_data_idx ln p axis i
          else H.ghost c homogeneous_bc fill_time hier (data c.src_data_idx) ln p axis i
      | none => data idx ln p
    else data idx ln p

/-- `fillData(fill_time)` on a plan: every transaction component in turn.
`cached` only labels the logged call (the operator's long-lived plan or a
plan built inside `applyConvectiveOperator`). -/
def HierarchyGhostCellInterpolation.fillData (NDIM : Nat) (H : HaloService)
    (plan : HierarchyGhostCellInterpolation) (cached : Bool) (fill_time : ℚ) (w : World) : World :=
  { w with
    data := plan.transaction_comps.foldl
      (fillComponent NDIM H plan.hierarchy plan.homogeneous_bc fill_time) w.data
    log := w.log ++ [Event.fillData cached plan.transaction_comps plan.homogeneous_bc fill_time] }

/-! ## Private member functions (lines 1656-2330) -/

/-- `computeAdvectionVelocity` (lines 1656-1740): one kernel call. -/
def computeAdvectionVelocity (K : Kernels) (U_data : SideData) (patch_box : Box)
    (side_boxes : Nat → Box) : Nat → FaceData :=
  K.navier_stokes_interp_comps patch_box U_data side_boxes

/-- `interpolateSideQuantity` (lines 1742-2151): the kernel of the limiter,
`TBOX_ERROR` at the `default:` label. -/
def interpolateSideQuantity (K : Kernels) (U_adv : Nat → FaceData) (Q_data : SideData)
    (patch_box : Box) (side_boxes : Nat → Box) :
    VCConvectiveLimiter → Except Failure (Nat → FaceData)
  | VCConvectiveLimiter.VC_UPWIND =>
      Except.ok (vc_navier_stokes_upwind_quantity K.upwind_at_rest Q_data U_adv)
  | VCConvectiveLimiter.VC_CUI =>
      Except.ok (K.vc_navier_stokes_cui_quantity patch_box Q_data side_boxes U_adv)
  | VCConvectiveLimiter.VC_FBICS =>
      Except.ok (K.vc_navier_stokes_fbics_quantity patch_box Q_data side_boxes U_adv)
  | VCConvectiveLimiter.VC_MGAMMA =>
      Except.ok (K.vc_navier_stokes_mgamma_quantity patch_box Q_data side_boxes U_adv)
  | VCConvectiveLimiter.UNKNOWN_VC_CONVECTIVE_LIMITER => Except.error Failure.unsupportedLimiter

/-- `computeConvectiveDerivative` (lines 2153-2330): the momentum
`P_half = R_half * U_half`, then per axis the `switch` over the differencing
form, which writes component `axis` of `N_data`. -/
def computeConvectiveDerivative (b : Build) (K : Kernels) (op : Operator) (N_data : SideData)
    (U_adv R_half U_half : Nat → FaceData) (side_boxes : Nat → Box) (dx : Nat → ℚ) :
    Except Failure SideData :=
  let P_half := K.vc_navier_stokes_compute_momentum side_boxes R_half U_half
  (List.range b.NDIM).foldlM (fun (N : SideData) axis =>
    match op.d_difference_form with
    | ConvectiveDifferencingType.CONSERVATIVE =>
        Except.ok (SideData.setAxis N axis
          (K.convect_derivative dx (side_boxes axis) (U_adv axis) (P_half axis) (N axis)))
    | _ => Except.error Failure.unsupportedDifferencingForm) N_data

/-! ## `applyConvectiveOperator` (lines 1178-1514) -/

/-- Lines 1306-1361: the loop over `axis` calling `VC_UPDATE_DENSITY_FC` with
the scratch density as `R` and the new density as output. -/
def updateDensityLoop (b : Build) (op : Operator) (patch : Patch)
    (U_adv R_half : Nat → FaceData) (pd : PatchData) : PatchData :=
  (List.range b.NDIM).foldl (fun (pd : PatchData) axis =>
    PatchData.set pd op.d_rho_interp_new_idx
      (SideData.setAxis (pd op.d_rho_interp_new_idx) axis
        (vc_update_density b.NDIM patch.dx op.d_dt (toSideBox patch.box axis)
          (U_adv axis) (R_half axis)
          (pd op.d_rho_interp_scratch_idx axis) (pd op.d_rho_interp_new_idx axis)))) pd

/-- Lines 1441-1496: the loop over `axis` calling
`VC_SSP_RK2_UPDATE_DENSITY_FC` with the current density as `R_old` and the
new density as in/out array. -/
def sspRk2UpdateDensityLoop (b : Build) (op : Operator) (patch : Patch)
    (U_adv R_half : Nat → FaceData) (pd : PatchData) : PatchData :=
  (List.range b.NDIM).foldl (fun (pd : PatchData) axis =>
    PatchData.set pd op.d_rho_interp_new_idx
      (SideData.setAxis (pd op.d_rho_interp_new_idx) axis
        (vc_ssp_rk2_update_density b.NDIM patch.dx op.d_dt (toSideBox patch.box axis)
          (U_adv axis) (R_half axis)
          (pd op.d_rho_interp_current_idx axis) (pd op.d_rho_interp_new_idx axis)))) pd

/-- Line 1279: the side boxes of a patch, one per axis. -/
def sideBoxes (patch : Patch) : Nat → Box :=
  fun axis => toSideBox patch.box axis

/-- Lines 1286 and 1418: the advective velocity of a patch, from its
velocity scratch data. -/
def advectionVelocity (K : Kernels) (op : Operator) (patch : Patch) (pd : PatchData) :
    Nat → FaceData :=
  computeAdvectionVelocity K (pd op.d_U_scratch_idx) patch.box (sideBoxes patch)

/-- Lines 1289-1290 and 1421-1427: the face density of a patch, from its
density scratch data and the density limiter. -/
def faceDensity (K : Kernels) (op : Operator) (patch : Patch) (pd : PatchData) :
    Except Failure (Nat → FaceData) :=
  interpolateSideQuantity K (advectionVelocity K op patch pd) (pd op.d_rho_interp_scratch_idx)
    patch.box (sideBoxes patch) op.d_vc_density_convective_limiter

/-- Lines 1295-1301 and 1430-1436: the face velocity of a patch, from its
velocity scratch data and the velocity limiter. -/
def faceVelocity (K : Kernels) (op : Operator) (patch : Patch) (pd : PatchData) :
    Except Failure (Nat → FaceData) :=
  interpolateSideQuantity K (advectionVelocity K op patch pd) (pd op.d_U_scratch_idx)
    patch.box (sideBoxes patch) op.d_vc_velocity_convective_limiter

/-- Lines 1255-1361, the body of the first loop over patches. The patch data
is read again after every write, as the C++ reads through pointers. An abort
returns the calls made on this patch before it. -/
def firstSweepPatch (b : Build) (K : Kernels) (op : Operator) (N_idx : Int)
    (ln : Int) (p : Nat) (patch : Patch) (pd : PatchData) :
    Except (Failure × List Event) (PatchData × List Event) :=
  let U_adv := advectionVelocity K op patch pd
  let es := [Event.computeAdvectionVelocity ln p op.d_U_scratch_idx,
             Event.interpolateSideQuantity ln p op.d_rho_interp_scratch_idx
               op.d_vc_density_convective_limiter]
  match faceDensity K op patch pd with
  | Except.error e => Except.error (e, es)
  | Except.ok R_half =>
    let updates := (List.range b.NDIM).map (fun axis =>
      Event.updateDensity ln p axis op.d_rho_interp_scratch_idx op.d_rho_interp_new_idx)
    if op.d_vc_density_time_stepping_type = VCDensityTimeSteppingType.VC_FORWARD_EULER then
      let es := es ++ [Event.interpolateSideQuantity ln p op.d_U_scratch_idx
                        op.d_vc_velocity_convective_limiter]
      match faceVelocity K op patch pd with
      | Except.error e => Except.error (e, es)
      | Except.ok U_half =>
        let es := es ++ [Event.computeConvectiveDerivative ln p N_idx]
        match computeConvectiveDerivative b K op (pd N_idx) U_adv R_half U_half
            (sideBoxes patch) patch.dx with
        | Except.error e => Except.error (e, es)
        | Except.ok N =>
          Except.ok (updateDensityLoop b op patch U_adv R_half (PatchData.set pd N_idx N),
                     es ++ updates)
    else
      Except.ok (updateDensityLoop b op patch U_adv R_half pd, es ++ updates)

/-- Lines 1386-1496, the body of the second loop over patches (SSPRK2). -/
def secondSweepPatch (b : Build) (K : Kernels) (op : Operator) (N_idx : Int)
    (ln : Int) (p : Nat) (patch : Patch) (pd : PatchData) :
    Except (Failure × List Event) (PatchData × List Event) :=
  let U_adv := advectionVelocity K op patch pd
  let es := [Event.computeAdvectionVelocity ln p op.d_U_scratch_idx,
             Event.interpolateSideQuantity ln p op.d_rho_interp_scratch_idx
               op.d_vc_density_convective_limiter]
  match faceDensity K op patch pd with
  | Except.error e => Except.error (e, es)
  | Except.ok R_half =>
    let es := es ++ [Event.interpolateSideQuantity ln p op.d_U_scratch_idx
                      op.d_vc_velocity_convective_limiter]
    match faceVelocity K op patch pd with
    | Except.error e => Except.error (e, es)
    | Except.ok U_half =>
      let es := es ++ [Event.computeConvectiveDerivative ln p N_idx]
      match computeConvectiveDerivative b K op (pd N_idx) U_adv R_half U_half
          (sideBoxes patch) patch.dx with
      | Except.error e => Except.error (e, es)
      | Except.ok N =>
        Except.ok (sspRk2UpdateDensityLoop b op patch U_adv R_half (PatchData.set pd N_idx N),
                   es ++ (List.range b.NDIM).map (fun axis =>
                     Event.sspRk2UpdateDensity ln p axis op.d_rho_interp_current_idx
                       op.d_rho_interp_new_idx))

/-- The loop over the patches of one level (`PatchLevel::Iterator`), `p`
being the number of the first patch of the list. -/
def sweepPatches
    (body : Int → Nat → Patch → PatchData → Except (Failure × List Event) (PatchData × List Event))
    (ln : Int) : Nat → List Patch → World → Except (Failure × World) World
  | _, [], w => Except.ok w
  | p, patch :: rest, w =>
    match body ln p patch (w.patchData ln p) with
    | Except.error (e, es) => Except.error (e, w.record es)
    | Except.ok (pd, es) =>
      sweepPatches body ln (p + 1) rest ((w.setPatchData ln p pd).record es)

/-- The level numbers of `for (ln = coarsest_ln; ln <= finest_ln; ++ln)`. -/
def levelNumbers (coarsest_ln finest_ln : Int) : List Int :=
  (List.range (finest_ln - coarsest_ln + 1).toNat).map (fun (k : Nat) => coarsest_ln + (k : Int))

/-- The loop over levels around the loop over patches. -/
def sweepLevels
    (body : Int → Nat → Patch → PatchData → Except (Failure × List Event) (PatchData × List Event))
    (hier : PatchHierarchy) : List Int → World → Except (Failure × World) World
  | [], w => Except.ok w
  | ln :: lns, w =>
    match sweepPatches body ln 0 (hier.getPatchLevel ln) w with
    | Except.error e => Except.error e
    | Except.ok w => sweepLevels body hier lns w

/-- The transaction component built at lines 1216-1223 and 1539-1546. -/
def velocityTransaction (op : Operator) (U_idx : Int) : InterpolationTransactionComponent :=
  { dst_data_idx := op.d_U_scratch_idx
    src_data_idx := U_idx
    refine_op_name := "CONSERVATIVE_LINEAR_REFINE"
    use_cf_bdry_interpolation := false
    coarsen_op_name := "CONSERVATIVE_COARSEN"
    phys_bdry_extrap_type := op.d_bdry_extrap_type
    consistent_type_2_bdry := false
    robin_bc_coefs := op.d_bc_coefs }

/-- The transaction components built at lines 1232-1239 (source: the current
density) and 1369-1376 (source: the new density). -/
def densityTransaction (op : Operator) (src_idx : Int) : InterpolationTransactionComponent :=
  { dst_data_idx := op.d_rho_interp_scratch_idx
    src_data_idx := src_idx
    refine_op_name := "CONSERVATIVE_LINEAR_REFINE"
    use_cf_bdry_interpolation := false
    coarsen_op_name := "CONSERVATIVE_COARSEN"
    phys_bdry_extrap_type := op.d_bdry_extrap_type
    consistent_type_2_bdry := false
    robin_bc_coefs := op.d_rho_interp_bc_coefs }

/-- A plan built by `new HierarchyGhostCellInterpolation()` followed by
`initializeOperatorState(transaction, hierarchy)`; a new plan has the
homogeneous-boundary flag off. -/
def oneShotPlan (c : InterpolationTransactionComponent) (hier : PatchHierarchy) :
    HierarchyGhostCellInterpolation :=
  { transaction_comps := [c], hierarchy := hier, homogeneous_bc := false }

/-- Lines 1212-1229: the velocity fill through the cached plan. Returns the
plan as the last `resetTransactionComponents` leaves it. -/
def velocityFill (b : Build) (H : HaloService) (op : Operator)
    (plan : HierarchyGhostCellInterpolation) (U_idx : Int) (w : World) :
    HierarchyGhostCellInterpolation × World :=
  let homogeneous_bc := false
  let plan := { plan with transaction_comps := [velocityTransaction op U_idx] }
  let plan := { plan with homogeneous_bc := homogeneous_bc }
  let w := w.record [Event.setupBcCoefObjects op.d_bc_coefs op.d_U_scratch_idx (-1) homogeneous_bc]
  let w := plan.fillData b.NDIM H true op.d_solution_time w
  let w := w.record [Event.resetBcCoefObjects op.d_bc_coefs]
  ({ plan with transaction_comps := op.d_transaction_comps }, w)

/-- Lines 1231-1242: the density fill through a plan built on the spot. -/
def densityFill (b : Build) (H : HaloService) (op : Operator) (hier : PatchHierarchy)
    (w : World) : World :=
  (oneShotPlan (densityTransaction op op.d_rho_interp_current_idx) hier).fillData
    b.NDIM H false op.d_solution_time w

/-- Lines 1368-1379: the fill of the stage-1 density at `d_solution_time + d_dt`. -/
def stageFill (b : Build) (H : HaloService) (op : Operator) (hier : PatchHierarchy)
    (w : World) : World :=
  (oneShotPlan (densityTransaction op op.d_rho_interp_new_idx) hier).fillData
    b.NDIM H false (op.d_solution_time + op.d_dt) w

/-- Lines 1506-1510: "Reset select options". -/
def resetSelectOptions (op : Operator) : Operator :=
  { op with d_dt := -1, d_dt_is_set := false, d_rho_interp_current_idx := -1,
            d_rho_is_set := false }

/-- Lines 1249-1504 once the fills are done: the first sweep, under SSPRK2
the stage fill and the second sweep, and the two mass integrals. -/
def sweeps (b : Build) (K : Kernels) (H : HaloService) (op : Operator) (hier : PatchHierarchy)
    (N_idx : Int) (w : World) : Except (Failure × World) World :=
  let w := w.record [Event.integral op.d_rho_interp_current_idx]
  let lns := levelNumbers op.d_coarsest_ln op.d_finest_ln
  match sweepLevels (firstSweepPatch b K op N_idx) hier lns w with
  | Except.error e => Except.error e
  | Except.ok w =>
    if op.d_vc_density_time_stepping_type = VCDensityTimeSteppingType.VC_SSPRK2 then
      match sweepLevels (secondSweepPatch b K op N_idx) hier lns (stageFill b H op hier w) with
      | Except.error e => Except.error e
      | Except.ok w => Except.ok (w.record [Event.integral op.d_rho_interp_new_idx])
    else Except.ok (w.record [Event.integral op.d_rho_interp_new_idx])

/-- `applyConvectiveOperator(U_idx, N_idx)`. An abort returns the reason and
the world as it is at the abort; a completed call returns the operator and
the world. Dereferencing a null `Pointer` aborts. -/
def applyConvectiveOperator (b : Build) (K : Kernels) (H : HaloService) (op : Operator)
    (w : World) (U_idx N_idx : Int) : Except (Failure × World) (Operator × World) :=
  let w := w.record [Event.getOperationsDouble]
  if !b.NDEBUG && !op.d_is_initialized then Except.error (Failure.notInitialized, w)
  else if !b.NDEBUG && decide (U_idx ≠ op.d_u_idx) then
    Except.error (Failure.assertionFailed "U_idx == d_u_idx", w)
  else if !b.NDEBUG && !op.d_rho_is_set then Except.error (Failure.densityNotSet, w)
  else if !b.NDEBUG && decide (op.d_rho_interp_current_idx < 0) then
    Except.error (Failure.assertionFailed "d_rho_interp_current_idx >= 0", w)
  else if !b.NDEBUG && !op.d_dt_is_set then Except.error (Failure.timeStepNotSet, w)
  else if !b.NDEBUG && decide (op.d_dt < 0) then
    Except.error (Failure.assertionFailed "d_dt >= 0.0", w)
  else
    match op.d_hier_bdry_fill with
    | none => Except.error (Failure.nullPointer "d_hier_bdry_fill", w)
    | some plan =>
      let (plan, w) := velocityFill b H op plan U_idx w
      match op.d_hierarchy with
      | none => Except.error (Failure.nullPointer "d_hierarchy", w)
      | some hier =>
        let w := densityFill b H op hier w
        match op.d_hier_math_ops with
        | none => Except.error (Failure.nullPointer "d_hier_math_ops", w)
        | some _ =>
          match sweeps b K H op hier N_idx w with
          | Except.error e => Except.error e
          | Except.ok w =>
            Except.ok (resetSelectOptions { op with d_hier_bdry_fill := some plan }, w)

/-- The conditions checked at lines 1187-1210. -/
def preconditions (op : Operator) (U_idx : Int) : Prop :=
  op.d_is_initialized = true ∧ U_idx = op.d_u_idx ∧ op.d_rho_is_set = true ∧
  0 ≤ op.d_rho_interp_current_idx ∧ op.d_dt_is_set = true ∧ 0 ≤ op.d_dt

/-- The world when the first sweep starts: after the velocity fill and the
density fill (lines 1212-1242). -/
def afterFills (b : Build) (H : HaloService) (op : Operator)
    (plan : HierarchyGhostCellInterpolation) (hier : PatchHierarchy) (U_idx : Int)
    (w : World) : World :=
  densityFill b H op hier (velocityFill b H op plan U_idx (w.record [Event.getOperationsDouble])).2

/-- The reasons for which the body of a sweep aborts. -/
def sweepFailure (e : Failure) : Prop :=
  e = Failure.unsupportedLimiter ∨ e = Failure.unsupportedDifferencingForm

/-! ## Setters (lines 1612-1641) -/

/-- `setInterpolatedDensityPatchDataIndex`. -/
def setInterpolatedDensityPatchDataIndex (b : Build) (op : Operator) (rho_interp_idx : Int) :
    Except Failure Operator :=
  if !b.NDEBUG && decide (rho_interp_idx < 0) then
    Except.error (Failure.assertionFailed "rho_interp_idx >= 0")
  else Except.ok { op with d_rho_is_set := true, d_rho_interp_current_idx := rho_interp_idx }

/-- `setTimeStepSize`. -/
def setTimeStepSize (b : Build) (op : Operator) (dt : ℚ) : Except Failure Operator :=
  if !b.NDEBUG && decide (dt < 0) then Except.error (Failure.assertionFailed "dt >= 0.0")
  else Except.ok { op with d_dt_is_set := true, d_dt := dt }

/-- `setInterpolatedDensityBoundaryConditions`. -/
def setInterpolatedDensityBoundaryConditions (b : Build) (op : Operator)
    (rho_interp_bc_coefs : List BcCoefPtr) : Except Failure Operator :=
  if !b.NDEBUG && decide (rho_interp_bc_coefs.length ≠ b.NDIM) then
    Except.error (Failure.assertionFailed "rho_interp_bc_coefs.size() == NDIM")
  else Except.ok { op with d_rho_interp_bc_coefs := rho_interp_bc_coefs }

/-! ## Operator state (lines 1516-1610) -/

/-- A `SAMRAIVectorReal<NDIM, double>` as `initializeOperatorState` reads it:
its patch hierarchy, its level range and the descriptor indices of its
components. -/
structure SAMRAIVectorReal where
  getPatchHierarchy : PatchHierarchy
  getCoarsestLevelNumber : Int
  getFinestLevelNumber : Int
  getComponentDescriptorIndex : Nat → Int

/-- `level->allocatePatchData(idx)` on level `ln`. Levels are identified by
their number; the values of the new storage are whatever `data` holds. -/
def World.allocatePatchData (w : World) (ln : Int) (idx : Int) : World :=
  { w with
    allocated := fun j l => if j = idx ∧ l = ln then true else w.allocated j l
    log := w.log ++ [Event.allocatePatchData ln idx] }

/-- `level->deallocatePatchData(idx)` on level `ln`. -/
def World.deallocatePatchData (w : World) (ln : Int) (idx : Int) : World :=
  { w with
    allocated := fun j l => if j = idx ∧ l = ln then false else w.allocated j l
    log := w.log ++ [Event.deallocatePatchData ln idx] }

/-- `if (!level->checkAllocated(idx)) level->allocatePatchData(idx);` -/
def allocateIfNeeded (ln : Int) (idx : Int) (w : World) : World :=
  if !w.allocated idx ln then w.allocatePatchData ln idx else w

/-- `if (level->checkAllocated(idx)) level->deallocatePatchData(idx);` -/
def deallocateIfAllocated (ln : Int) (idx : Int) (w : World) : World :=
  if w.allocated idx ln then w.deallocatePatchData ln idx else w

/-- Lines 1557-1563: the body of the allocation loop, for level `ln`. -/
def allocateLevel (op : Operator) (w : World) (ln : Int) : World :=
  allocateIfNeeded ln op.d_rho_interp_new_idx
    (allocateIfNeeded ln op.d_rho_interp_scratch_idx
      (allocateIfNeeded ln op.d_U_scratch_idx w))

/-- Lines 1595-1601: the body of the deallocation loop, for level `ln`. -/
def deallocateLevel (op : Operator) (w : World) (ln : Int) : World :=
  deallocateIfAllocated ln op.d_rho_interp_new_idx
    (deallocateIfAllocated ln op.d_rho_interp_scratch_idx
      (deallocateIfAllocated ln op.d_U_scratch_idx w))

/-- `deallocateOperatorState()` (lines 1583-1610). Dereferencing a null
`d_hierarchy` inside the loop aborts. -/
def deallocateOperatorState (op : Operator) (w : World) : Except Failure (Operator × World) :=
  if !op.d_is_initialized then Except.ok (op, w)
  else
    let op := { op with d_hier_bdry_fill := none, d_bc_helper := none }
    let lns := levelNumbers op.d_coarsest_ln op.d_finest_ln
    if !lns.isEmpty && op.d_hierarchy.isNone then
      Except.error (Failure.nullPointer "d_hierarchy")
    else
      let w := lns.foldl (deallocateLevel op) w
      let op := if !op.d_hier_math_ops_external then { op with d_hier_math_ops := none } else op
      Except.ok ({ op with d_is_initialized := false }, w)

/-- Lines 1524-1577 of `initializeOperatorState`, after the deallocation of a
previous state. The objects made by `new StaggeredStokesPhysicalBoundaryHelper`
and `new HierarchyMathOps` are named by the hierarchy they are set up for. -/
def setupOperatorState (b : Build) (op : Operator) (w : World)
    (input output : SAMRAIVectorReal) : Except Failure (Operator × World) :=
  let op := { op with d_hierarchy := some input.getPatchHierarchy
                      d_coarsest_ln := input.getCoarsestLevelNumber
                      d_finest_ln := input.getFinestLevelNumber }
  if !b.NDEBUG && decide (input.getPatchHierarchy.id ≠ output.getPatchHierarchy.id) then
    Except.error (Failure.assertionFailed "d_hierarchy == out.getPatchHierarchy()")
  else if !b.NDEBUG && decide (op.d_coarsest_ln ≠ output.getCoarsestLevelNumber) then
    Except.error (Failure.assertionFailed "d_coarsest_ln == out.getCoarsestLevelNumber()")
  else if !b.NDEBUG && decide (op.d_finest_ln ≠ output.getFinestLevelNumber) then
    Except.error (Failure.assertionFailed "d_finest_ln == out.getFinestLevelNumber()")
  else
    let c := velocityTransaction op (input.getComponentDescriptorIndex 0)
    let op := { op with d_transaction_comps := [c] }
    let op := { op with d_hier_bdry_fill := some (oneShotPlan c input.getPatchHierarchy) }
    let op := { op with d_bc_helper := some input.getPatchHierarchy.id }
    let w := (levelNumbers op.d_coarsest_ln op.d_finest_ln).foldl (allocateLevel op) w
    if !op.d_hier_math_ops_external then
      Except.ok ({ op with d_hier_math_ops := some input.getPatchHierarchy.id
                           d_is_initialized := true }, w)
    else if !b.NDEBUG && op.d_hier_math_ops.isNone then
      Except.error (Failure.assertionFailed "d_hier_math_ops")
    else Except.ok ({ op with d_is_initialized := true }, w)

/-- `initializeOperatorState(in, out)` (lines 1516-1581). -/
def initializeOperatorState (b : Build) (op : Operator) (w : World)
    (input output : SAMRAIVectorReal) : Except Failure (Operator × World) :=
  if op.d_is_initialized then
    match deallocateOperatorState op w with
    | Except.error e => Except.error e
    | Except.ok (op, w) => setupOperatorState b op w input output
  else setupOperatorState b op w input output

/-- The checks a call `initializeOperatorState(in, out)` must pass (lines
1528-1531 and 1573); there are none in a build with `NDEBUG`. -/
def initializeChecks (b : Build) (op : Operator) (input output : SAMRAIVectorReal) : Prop :=
  b.NDEBUG = false →
    input.getPatchHierarchy.id = output.getPatchHierarchy.id ∧
    input.getCoarsestLevelNumber = output.getCoarsestLevelNumber ∧
    input.getFinestLevelNumber = output.getFinestLevelNumber ∧
    (op.d_hier_math_ops_external = true → op.d_hier_math_ops.isSome = true)

/-- The members as the assignments of lines 1525-1577 leave them. -/
def initializedOperator (op : Operator) (input : SAMRAIVectorReal) : Operator :=
  { op with
    d_hierarchy := some input.getPatchHierarchy
    d_coarsest_ln := input.getCoarsestLevelNumber
    d_finest_ln := input.getFinestLevelNumber
    d_transaction_comps := [velocityTransaction op (input.getComponentDescriptorIndex 0)]
    d_hier_bdry_fill := some (oneShotPlan
      (velocityTransaction op (input.getComponentDescriptorIndex 0)) input.getPatchHierarchy)
    d_bc_helper := some input.getPatchHierarchy.id
    d_hier_math_ops :=
      if op.d_hier_math_ops_external then op.d_hier_math_ops else some input.getPatchHierarchy.id
    d_is_initialized := true }

/-- The members as the assignments of lines 1591-1606 leave them. -/
def deallocatedOperator (op : Operator) : Operator :=
  { op with
    d_hier_bdry_fill := none
    d_bc_helper := none
    d_hier_math_ops := if op.d_hier_math_ops_external then op.d_hier_math_ops else none
    d_is_initialized := false }

/-- The three descriptors the operator allocates and deallocates. -/
def ownsDescriptor (op : Operator) (idx : Int) : Prop :=
  idx = op.d_U_scratch_idx ∨ idx = op.d_rho_interp_scratch_idx ∨ idx = op.d_rho_interp_new_idx

instance ownsDescriptor.decidable (op : Operator) (idx : Int) : Decidable (ownsDescriptor op idx) :=
  inferInstanceAs (Decidable (_ ∨ _ ∨ _))

/-! ## The calls of a completed `applyConvectiveOperator` -/

/-- The calls the first sweep makes on patch `p` of level `ln` (lines
1285-1361): the velocity reconstruction and the convective derivative only
under forward Euler. -/
def firstSweepEvents (b : Build) (op : Operator) (N_idx : Int) (ln : Int) (p : Nat) :
    List Event :=
  [Event.computeAdvectionVelocity ln p op.d_U_scratch_idx,
   Event.interpolateSideQuantity ln p op.d_rho_interp_scratch_idx
     op.d_vc_density_convective_limiter] ++
  (if op.d_vc_density_time_stepping_type = VCDensityTimeSteppingType.VC_FORWARD_EULER then
    [Event.interpolateSideQuantity ln p op.d_U_scratch_idx op.d_vc_velocity_convective_limiter,
     Event.computeConvectiveDerivative ln p N_idx]
   else []) ++
  (List.range b.NDIM).map (fun axis =>
    Event.updateDensity ln p axis op.d_rho_interp_scratch_idx op.d_rho_interp_new_idx)

/-- The calls the second sweep makes on patch `p` of level `ln` (lines
1417-1496). -/
def secondSweepEvents (b : Build) (op : Operator) (N_idx : Int) (ln : Int) (p : Nat) :
    List Event :=
  [Event.computeAdvectionVelocity ln p op.d_U_scratch_idx,
   Event.interpolateSideQuantity ln p op.d_rho_interp_scratch_idx
     op.d_vc_density_convective_limiter,
   Event.interpolateSideQuantity ln p op.d_U_scratch_idx op.d_vc_velocity_convective_limiter,
   Event.computeConvectiveDerivative ln p N_idx] ++
  (List.range b.NDIM).map (fun axis =>
    Event.sspRk2UpdateDensity ln p axis op.d_rho_interp_current_idx op.d_rho_interp_new_idx)

/-- The calls of a loop over `n` patches numbered from `p0`. -/
def patchLoopEvents (ev : Nat → List Event) : Nat → Nat → List Event
  | _, 0 => []
  | p0, n + 1 => ev p0 ++ patchLoopEvents ev (p0 + 1) n

/-- The calls of a loop over levels around the loop over the patches of each
level. -/
def levelLoopEvents (ev : Int → Nat → List Event) (hier : PatchHierarchy) :
    List Int → List Event
  | [] => []
  | ln :: lns =>
    patchLoopEvents (ev ln) 0 (hier.getPatchLevel ln).length ++ levelLoopEvents ev hier lns

/-- The calls of a completed `applyConvectiveOperator(U_idx, N_idx)`, in
order: the data-operations lookup, the velocity fill through the cached plan,
the density fill, the mass integral, the first sweep, under SSPRK2 the stage
fill and the second sweep, and the second mass integral. -/
def applyEvents (b : Build) (op : Operator) (hier : PatchHierarchy) (U_idx N_idx : Int) :
    List Event :=
  [Event.getOperationsDouble,
   Event.setupBcCoefObjects op.d_bc_coefs op.d_U_scratch_idx (-1) false,
   Event.fillData true [velocityTransaction op U_idx] false op.d_solution_time,
   Event.resetBcCoefObjects op.d_bc_coefs,
   Event.fillData false [densityTransaction op op.d_rho_interp_current_idx] false
     op.d_solution_time,
   Event.integral op.d_rho_interp_current_idx] ++
  levelLoopEvents (firstSweepEvents b op N_idx) hier
    (levelNumbers op.d_coarsest_ln op.d_finest_ln) ++
  (if op.d_vc_density_time_stepping_type = VCDensityTimeSteppingType.VC_SSPRK2 then
    [Event.fillData false [densityTransaction op op.d_rho_interp_new_idx] false
      (op.d_solution_time + op.d_dt)] ++
    levelLoopEvents (secondSweepEvents b op N_idx) hier
      (levelNumbers op.d_coarsest_ln op.d_finest_ln)
   else []) ++
  [Event.integral op.d_rho_interp_new_idx]

/-! ## Concrete inputs used by the evaluations below -/

namespace Examples

/-- The debug build in two dimensions (`NDEBUG` undefined). -/
def debug2d : Build := { NDEBUG := false, NDIM := 2 }

/-- The debug build in one dimension (`NDEBUG` undefined). -/
def debug1d : Build := { NDEBUG := false, NDIM := 1 }

/-- The optimised build in one dimension (`NDEBUG` defined). -/
def release1d : Build := { NDEBUG := true, NDIM := 1 }

/-- An instance of the `string_to_enum` parameters. -/
def enums : Enums :=
  { limiterOfString := fun s =>
      if s = "UPWIND" then VCConvectiveLimiter.VC_UPWIND
      else if s = "CUI" then VCConvectiveLimiter.VC_CUI
      else if s = "FBICS" then VCConvectiveLimiter.VC_FBICS
      else if s = "MGAMMA" then VCConvectiveLimiter.VC_MGAMMA
      else VCConvectiveLimiter.UNKNOWN_VC_CONVECTIVE_LIMITER
    timeSteppingOfString := fun s =>
      if s = "FORWARD_EULER" then VCDensityTimeSteppingType.VC_FORWARD_EULER
      else if s = "SSPRK2" then VCDensityTimeSteppingType.VC_SSPRK2
      else VCDensityTimeSteppingType.UNKNOWN_VC_DENSITY_TIME_STEPPING_TYPE }

/-- An input database selecting CUI for both fields. -/
def cuiInput : Database := { entries := [("vc_convective_limiter", "CUI")] }

/-- An input database selecting CUI for the velocity and UPWIND for the
density. -/
def cuiUpwindInput : Database :=
  { entries := [("vc_convective_limiter", "CUI"), ("vc_density_convective_limiter", "UPWIND")] }

/-- An input database giving CUI under the velocity key only. -/
def velocityOnlyInput : Database := { entries := [("vc_velocity_convective_limiter", "CUI")] }

/-- The variable database after a first operator was built with no input
database (both limiters UPWIND) in an empty variable database. -/
def afterFirstOperator : VariableDatabase :=
  { registrations :=
      [{ var := U_var_name, ctx := context_name, gcw := 2 },
       { var := rho_interp_name, ctx := rho_interp_name ++ "::SCRATCH", gcw := 2 },
       { var := rho_interp_name, ctx := rho_interp_name ++ "::NEW", gcw := 0 }] }

/-- The operator the constructor returns for `cuiUpwindInput` in an empty
variable database. -/
def cuiUpwindOperator : Operator :=
  { memberInit debug2d "op" ConvectiveDifferencingType.CONSERVATIVE [] with
    d_vc_velocity_convective_limiter := VCConvectiveLimiter.VC_CUI
    d_vc_density_convective_limiter := VCConvectiveLimiter.VC_UPWIND
    d_velocity_limiter_gcw := 3
    d_density_limiter_gcw := 2
    d_U_var := some U_var_name
    d_U_scratch_idx := 0
    d_rho_interp_var := some rho_interp_name
    d_rho_interp_scratch_idx := 1
    d_rho_interp_new_idx := 2 }

/-- A one-cell patch with unit spacing. -/
def patch0 : Patch := { box := { lower := fun _ => 0, upper := fun _ => 0 }, dx := fun _ => 1 }

/-- A hierarchy with the single level 0 holding `patch0`. -/
def hierarchy : PatchHierarchy :=
  { id := 0, getPatchLevel := fun ln => if ln = 0 then [patch0] else [] }

/-- An instance of the kernel parameters: unit advective velocity on every
face, the momentum as the product of its factors. -/
def kernels : Kernels :=
  { navier_stokes_interp_comps := fun _ _ _ _ _ _ => 1
    vc_navier_stokes_cui_quantity := fun _ Q _ _ axis _ i => Q axis i
    vc_navier_stokes_fbics_quantity := fun _ Q _ _ axis _ i => Q axis i
    vc_navier_stokes_mgamma_quantity := fun _ Q _ _ axis _ i => Q axis i
    vc_navier_stokes_compute_momentum := fun _ R U axis d i => R axis d i * U axis d i
    convect_derivative := fun _ _ _ _ N => N
    upwind_at_rest := fun a _ => a }

/-- A halo-fill service that puts zero into every ghost value. -/
def halo : HaloService := { ghost := fun _ _ _ _ _ _ _ _ _ => 0 }

/-- The transaction component `initializeOperatorState` records (lines
1539-1546) for velocity scratch descriptor 0 and input descriptor 3. -/
def transaction0 : InterpolationTransactionComponent :=
  { dst_data_idx := 0
    src_data_idx := 3
    refine_op_name := "CONSERVATIVE_LINEAR_REFINE"
    use_cf_bdry_interpolation := false
    coarsen_op_name := "CONSERVATIVE_COARSEN"
    phys_bdry_extrap_type := "CONSTANT"
    consistent_type_2_bdry := false
    robin_bc_coefs := [] }

/-- The cached velocity plan of `readyOperator`. -/
def plan0 : HierarchyGhostCellInterpolation :=
  { transaction_comps := [transaction0], hierarchy := hierarchy, homogeneous_bc := false }

/-- A one-dimensional operator (both limiters UPWIND) as construction in an
empty variable database and initialisation on `hierarchy` leave it
(descriptors 0, 1, 2 for velocity scratch, density scratch and new density),
with the time-stepping scheme `ts`, the velocity descriptor 3, the density
descriptor 5 and the timestep `dt` set. -/
def readyOperator (ts : VCDensityTimeSteppingType) (dt : ℚ) : Operator :=
  { memberInit release1d "op" ConvectiveDifferencingType.CONSERVATIVE [] with
    d_is_initialized := true
    d_u_idx := 3
    d_hier_math_ops := some 0
    d_transaction_comps := [transaction0]
    d_bc_helper := some 0
    d_hierarchy := some hierarchy
    d_coarsest_ln := 0
    d_finest_ln := 0
    d_velocity_limiter_gcw := 2
    d_density_limiter_gcw := 2
    d_U_var := some U_var_name
    d_U_scratch_idx := 0
    d_rho_interp_var := some rho_interp_name
    d_rho_interp_scratch_idx := 1
    d_rho_interp_new_idx := 2
    d_rho_is_set := true
    d_rho_interp_current_idx := 5
    d_dt_is_set := true
    d_dt := dt
    d_vc_density_time_stepping_type := ts
    d_hier_bdry_fill := some plan0 }

/-- Patch data in which the density of descriptor 5 is 1 at index 0 and 0
elsewhere, and every other descriptor holds zeros. -/
def world : World :=
  { data := fun idx _ _ _ i => if idx = 5 then (if i 0 = 0 then 1 else 0) else 0
    allocated := fun _ _ => true
    log := [] }

/-- `readyOperator` under forward Euler on which `setTimeStepSize` has not
been called: the flag is off and `d_dt` has its reset value. -/
def unsetTimeStep : Operator :=
  { readyOperator VCDensityTimeSteppingType.VC_FORWARD_EULER (-1) with d_dt_is_set := false }

/-- A vector on level 0 of `hierarchy` whose component 0 has descriptor 3. -/
def vector0 : SAMRAIVectorReal :=
  { getPatchHierarchy := hierarchy
    getCoarsestLevelNumber := 0
    getFinestLevelNumber := 0
    getComponentDescriptorIndex := fun _ => 3 }

/-- A vector on levels 0 to 1 of another hierarchy (identity 1). -/
def vector1 : SAMRAIVectorReal :=
  { getPatchHierarchy := { id := 1, getPatchLevel := fun _ => [] }
    getCoarsestLevelNumber := 0
    getFinestLevelNumber := 1
    getComponentDescriptorIndex := fun _ => 3 }

/-- An input database giving the boundary-extrapolation type only. -/
def linearInput : Database := { entries := [("bdry_extrap_type", "LINEAR")] }

/-- A world in which no descriptor is allocated on any level. -/
def blankWorld : World := { data := fun _ _ _ _ _ => 0, allocated := fun _ _ => false, log := [] }

/-- `kernels` with an advective velocity of zero on every face. -/
def stillKernels : Kernels :=
  { kernels with navier_stokes_interp_comps := fun _ _ _ _ _ _ => 0 }

end Examples

/-! # Theorems -/

/-! ## Construction -/

theorem setupVelocityVariable_eq {b : Build} {op : Operator} {db : VariableDatabase}
    {r : Operator × VariableDatabase} (h : setupVelocityVariable b op db = Except.ok r) :
    r = lookupVelocityVariable op db := by
  unfold setupVelocityVariable at h
  simp only at h
  split at h
  · exact absurd h (by simp)
  · injection h with h; exact h.symm

theorem setupDensityVariable_eq {b : Build} {op : Operator} {db : VariableDatabase}
    {r : Operator × VariableDatabase} (h : setupDensityVariable b op db = Except.ok r) :
    r = lookupDensityVariable op db := by
  unfold setupDensityVariable at h
  simp only at h
  split at h
  · exact absurd h (by simp)
  · split at h
    · exact absurd h (by simp)
    · injection h with h; exact h.symm

theorem setupVelocityVariable_limiters {b : Build} {op op' : Operator} {db db' : VariableDatabase}
    (h : setupVelocityVariable b op db = Except.ok (op', db')) :
    op'.d_vc_velocity_convective_limiter = op.d_vc_velocity_convective_limiter ∧
    op'.d_vc_density_convective_limiter = op.d_vc_density_convective_limiter ∧
    op'.d_velocity_limiter_gcw = op.d_velocity_limiter_gcw ∧
    op'.d_density_limiter_gcw = op.d_density_limiter_gcw := by
  have e := setupVelocityVariable_eq h
  have e1 : op' = (lookupVelocityVariable op db).1 := by rw [← e]
  subst e1
  unfold lookupVelocityVariable
  split <;> simp

theorem setupDensityVariable_limiters {b : Build} {op op' : Operator} {db db' : VariableDatabase}
    (h : setupDensityVariable b op db = Except.ok (op', db')) :
    op'.d_vc_velocity_convective_limiter = op.d_vc_velocity_convective_limiter ∧
    op'.d_vc_density_convective_limiter = op.d_vc_density_convective_limiter ∧
    op'.d_velocity_limiter_gcw = op.d_velocity_limiter_gcw ∧
    op'.d_density_limiter_gcw = op.d_density_limiter_gcw := by
  have e := setupDensityVariable_eq h
  have e1 : op' = (lookupDensityVariable op db).1 := by rw [← e]
  subst e1
  unfold lookupDensityVariable
  split <;> simp

/-- A successful construction went through both limiter switches: each ghost
width member is the one the switch assigns for the limiter of its field. -/
theorem construct_ok_limiters {b : Build} {E : Enums} {name : String} {input_db : Option Database}
    {form : ConvectiveDifferencingType} {bc : List BcCoefPtr} {db db' : VariableDatabase}
    {op : Operator} (h : construct b E name input_db form bc db = Except.ok (op, db')) :
    limiterGcw op.d_vc_velocity_convective_limiter = some op.d_velocity_limiter_gcw ∧
    limiterGcw op.d_vc_density_convective_limiter = some op.d_density_limiter_gcw := by
  unfold construct at h
  simp only at h
  split at h
  · exact absurd h (by simp)
  · split at h
    · exact absurd h (by simp)
    · rename_i vg hv
      split at h
      · exact absurd h (by simp)
      · rename_i dg hd
        split at h
        · exact absurd h (by simp)
        · split at h
          · exact absurd h (by simp)
          · rename_i op1 db1 h1
            have a := setupVelocityVariable_limiters h1
            have c := setupDensityVariable_limiters h
            simp only at a hd
            rw [c.1, c.2.1, c.2.2.1, c.2.2.2, a.1, a.2.1, a.2.2.1, a.2.2.2]
            exact ⟨hv, hd⟩

theorem ghostCellWidth_append_left (db : VariableDatabase) (extra : List Registration)
    (idx : Int) (g : Int) (h : db.ghostCellWidth idx = some g) :
    VariableDatabase.ghostCellWidth { registrations := db.registrations ++ extra } idx = some g := by
  unfold VariableDatabase.ghostCellWidth at h ⊢
  split at h
  · exact absurd h (by simp)
  · rename_i hneg
    rw [if_neg hneg]
    cases hget : db.registrations.get? idx.toNat with
    | none => rw [hget] at h; exact absurd h (by simp)
    | some r =>
      rw [hget] at h
      have hlt : idx.toNat < db.registrations.length := by
        rcases List.get?_eq_some.mp hget with ⟨hlt, _⟩
        exact hlt
      have : (db.registrations ++ extra).get? idx.toNat = some r := by
        rw [List.get?_eq_getElem?, List.getElem?_append_left hlt, ← List.get?_eq_getElem?]
        exact hget
      simp only [this]
      exact h

theorem registerVariableAndContext_fresh (db : VariableDatabase) (name ctx : String) (g : Int)
    (h : db.getVariable name = false) :
    (db.registerVariableAndContext name ctx g).2.ghostCellWidth
      (db.registerVariableAndContext name ctx g).1 = some g := by
  have hidx : db.registrations.findIdx (fun r => r.var == name && r.ctx == ctx) =
      db.registrations.length := by
    rw [List.findIdx_eq_length]
    intro r hr
    unfold VariableDatabase.getVariable at h
    rw [List.any_eq_false] at h
    have := h r hr
    simp only [Bool.not_eq_true] at this
    rw [this, Bool.false_and]
  unfold VariableDatabase.registerVariableAndContext
  simp only [hidx, lt_irrefl, if_false]
  unfold VariableDatabase.ghostCellWidth
  simp

theorem registerVariableAndContext_registrations (db : VariableDatabase) (name ctx : String)
    (g : Int) : ∃ extra, (db.registerVariableAndContext name ctx g).2.registrations =
      db.registrations ++ extra := by
  unfold VariableDatabase.registerVariableAndContext
  simp only
  split
  · exact ⟨[], by simp⟩
  · exact ⟨_, rfl⟩

theorem lookupDensityVariable_registrations (op : Operator) (db : VariableDatabase) :
    ∃ extra, (lookupDensityVariable op db).2.registrations = db.registrations ++ extra := by
  unfold lookupDensityVariable
  split
  · exact ⟨[], by simp⟩
  · obtain ⟨e1, h1⟩ := registerVariableAndContext_registrations db rho_interp_name
      (rho_interp_name ++ "::SCRATCH") op.d_density_limiter_gcw
    obtain ⟨e2, h2⟩ := registerVariableAndContext_registrations
      (db.registerVariableAndContext rho_interp_name (rho_interp_name ++ "::SCRATCH")
        op.d_density_limiter_gcw).2 rho_interp_name (rho_interp_name ++ "::NEW") NOGHOSTS
    exact ⟨e1 ++ e2, by simp only [h2, h1, List.append_assoc]⟩

theorem getVariable_register_other (db : VariableDatabase) (name ctx other : String) (g : Int)
    (hne : name ≠ other) (h : db.getVariable other = false) :
    (db.registerVariableAndContext name ctx g).2.getVariable other = false := by
  unfold VariableDatabase.registerVariableAndContext
  simp only
  split
  · exact h
  · unfold VariableDatabase.getVariable at h ⊢
    simp only [List.any_append, h, Bool.false_or, List.any_cons, List.any_nil, Bool.or_false]
    simpa using hne

/-- The two steps a successful construction ends with. -/
theorem construct_ok_steps {b : Build} {E : Enums} {name : String}
    {input_db : Option Database} {form : ConvectiveDifferencingType} {bc : List BcCoefPtr}
    {db db' : VariableDatabase} {op : Operator}
    (h : construct b E name input_db form bc db = Except.ok (op, db')) :
    ∃ op0 op1 db1, setupVelocityVariable b op0 db = Except.ok (op1, db1) ∧
      setupDensityVariable b op1 db1 = Except.ok (op, db') := by
  unfold construct at h
  simp only at h
  split at h
  · exact absurd h (by simp)
  · split at h
    · exact absurd h (by simp)
    · split at h
      · exact absurd h (by simp)
      · split at h
        · exact absurd h (by simp)
        · split at h
          · exact absurd h (by simp)
          · rename_i op1 db1 h1
            exact ⟨_, op1, db1, h1, h⟩

/-- In a variable database that holds neither of the two variables the
constructor registers them itself, and each scratch field gets the ghost
width of the limiter of its field. -/
theorem construct_fresh_ghost_widths {b : Build} {E : Enums} {name : String}
    {input_db : Option Database} {form : ConvectiveDifferencingType} {bc : List BcCoefPtr}
    {db db' : VariableDatabase} {op : Operator}
    (h : construct b E name input_db form bc db = Except.ok (op, db'))
    (hU : db.getVariable U_var_name = false) (hR : db.getVariable rho_interp_name = false) :
    db'.ghostCellWidth op.d_U_scratch_idx = some op.d_velocity_limiter_gcw ∧
    db'.ghostCellWidth op.d_rho_interp_scratch_idx = some op.d_density_limiter_gcw := by
  obtain ⟨op0, op1, db1, h1, h2⟩ := construct_ok_steps h
  have e1 := setupVelocityVariable_eq h1
  have e2 := setupDensityVariable_eq h2
  have hop1 : op1 = (lookupVelocityVariable op0 db).1 := by rw [← e1]
  have hdb1 : db1 = (lookupVelocityVariable op0 db).2 := by rw [← e1]
  have hop : op = (lookupDensityVariable op1 db1).1 := by rw [← e2]
  have hdb : db' = (lookupDensityVariable op1 db1).2 := by rw [← e2]
  unfold lookupVelocityVariable at hop1 hdb1
  simp only [hU, Bool.false_eq_true, if_false] at hop1 hdb1
  have hR1 : db1.getVariable rho_interp_name = false := by
    rw [hdb1]
    exact getVariable_register_other db _ _ _ _ (by decide) hR
  constructor
  · obtain ⟨extra, hextra⟩ := lookupDensityVariable_registrations op1 db1
    have hg := registerVariableAndContext_fresh db U_var_name context_name
      op0.d_velocity_limiter_gcw hU
    have hdb'' : db' = { registrations := db1.registrations ++ extra } := by
      rw [hdb]
      cases hx : (lookupDensityVariable op1 db1).2
      rw [hx] at hextra
      simp only at hextra
      rw [hextra]
    rw [hdb'', hop]
    have : (lookupDensityVariable op1 db1).1.d_U_scratch_idx = op1.d_U_scratch_idx ∧
        (lookupDensityVariable op1 db1).1.d_velocity_limiter_gcw =
          op1.d_velocity_limiter_gcw := by
      unfold lookupDensityVariable
      split <;> exact ⟨rfl, rfl⟩
    rw [this.1, this.2]
    apply ghostCellWidth_append_left
    rw [hop1, hdb1]
    exact hg
  · rw [hop, hdb]
    unfold lookupDensityVariable
    simp only [hR1, Bool.false_eq_true, if_false]
    obtain ⟨extra, hextra⟩ := registerVariableAndContext_registrations
      (db1.registerVariableAndContext rho_interp_name (rho_interp_name ++ "::SCRATCH")
        op1.d_density_limiter_gcw).2 rho_interp_name (rho_interp_name ++ "::NEW")
      NOGHOSTS
    have hg := registerVariableAndContext_fresh db1 rho_interp_name
      (rho_interp_name ++ "::SCRATCH") op1.d_density_limiter_gcw hR1
    have := ghostCellWidth_append_left _ extra _ _ hg
    rw [← hextra] at this
    exact this

/-- C1 (evaluation at the failing input): a second operator configured with
CUI is built in the variable database a first, UPWIND operator left behind.
Construction succeeds, both limiters are CUI with required ghost width 3,
and the velocity-scratch and density-scratch descriptors it obtains are the
ones registered with ghost width 2. -/
theorem construct_reuses_registered_ghost_width :
    ∃ op db,
      construct Examples.debug2d Examples.enums "second" (some Examples.cuiInput)
        ConvectiveDifferencingType.CONSERVATIVE [] Examples.afterFirstOperator = Except.ok (op, db) ∧
      op.d_vc_velocity_convective_limiter = VCConvectiveLimiter.VC_CUI ∧
      op.d_vc_density_convective_limiter = VCConvectiveLimiter.VC_CUI ∧
      op.d_velocity_limiter_gcw = 3 ∧ op.d_density_limiter_gcw = 3 ∧
      db.ghostCellWidth op.d_U_scratch_idx = some 2 ∧
      db.ghostCellWidth op.d_rho_interp_scratch_idx = some 2 :=
  ⟨_, _, rfl, rfl, rfl, rfl, rfl, rfl, rfl⟩

/-- The variable database of the failing input of C1 is the one a first
construction leaves behind. -/
theorem afterFirstOperator_is_constructed :
    ∃ op, construct Examples.debug2d Examples.enums "first" none
      ConvectiveDifferencingType.CONSERVATIVE [] { registrations := [] } =
        Except.ok (op, Examples.afterFirstOperator) :=
  ⟨_, rfl⟩

/-- C2: in every constructed operator the ghost width of each field is the
stencil radius of that field's limiter: 2 for UPWIND and 3 for CUI, FBICS
and MGAMMA, for the velocity limiter and, separately, for the density
limiter. -/
theorem construct_maps_limiter_to_ghost_width (b : Build) (E : Enums) (name : String)
    (input_db : Option Database) (form : ConvectiveDifferencingType) (bc : List BcCoefPtr)
    (db db' : VariableDatabase) (op : Operator)
    (h : construct b E name input_db form bc db = Except.ok (op, db')) :
    (op.d_vc_velocity_convective_limiter = VCConvectiveLimiter.VC_UPWIND →
      op.d_velocity_limiter_gcw = 2) ∧
    (op.d_vc_velocity_convective_limiter = VCConvectiveLimiter.VC_CUI ∨
     op.d_vc_velocity_convective_limiter = VCConvectiveLimiter.VC_FBICS ∨
     op.d_vc_velocity_convective_limiter = VCConvectiveLimiter.VC_MGAMMA →
      op.d_velocity_limiter_gcw = 3) ∧
    (op.d_vc_density_convective_limiter = VCConvectiveLimiter.VC_UPWIND →
      op.d_density_limiter_gcw = 2) ∧
    (op.d_vc_density_convective_limiter = VCConvectiveLimiter.VC_CUI ∨
     op.d_vc_density_convective_limiter = VCConvectiveLimiter.VC_FBICS ∨
     op.d_vc_density_convective_limiter = VCConvectiveLimiter.VC_MGAMMA →
      op.d_density_limiter_gcw = 3) := by
  obtain ⟨hv, hd⟩ := construct_ok_limiters h
  refine ⟨?_, ?_, ?_, ?_⟩
  · intro e; rw [e] at hv; simpa [limiterGcw, GUPWINDG] using hv.symm
  · rintro (e | e | e) <;> rw [e] at hv <;>
      simpa [limiterGcw, GCUIG, GFBICSG, GMGAMMAG] using hv.symm
  · intro e; rw [e] at hd; simpa [limiterGcw, GUPWINDG] using hd.symm
  · rintro (e | e | e) <;> rw [e] at hd <;>
      simpa [limiterGcw, GCUIG, GFBICSG, GMGAMMAG] using hd.symm

/-- Witness for C2: CUI for the velocity and UPWIND for the density, in an
empty variable database, give ghost widths 3 and 2. -/
theorem construct_maps_limiter_to_ghost_width_witness :
    construct Examples.debug2d Examples.enums "op" (some Examples.cuiUpwindInput)
        ConvectiveDifferencingType.CONSERVATIVE [] { registrations := [] } =
      Except.ok (Examples.cuiUpwindOperator,
        { registrations :=
            [{ var := U_var_name, ctx := context_name, gcw := 3 },
             { var := rho_interp_name, ctx := rho_interp_name ++ "::SCRATCH", gcw := 2 },
             { var := rho_interp_name, ctx := rho_interp_name ++ "::NEW", gcw := 0 }] }) ∧
    Examples.cuiUpwindOperator.d_velocity_limiter_gcw = 3 ∧
    Examples.cuiUpwindOperator.d_density_limiter_gcw = 2 :=
  have h := construct_maps_limiter_to_ghost_width Examples.debug2d Examples.enums "op"
    (some Examples.cuiUpwindInput) ConvectiveDifferencingType.CONSERVATIVE []
    { registrations := [] } _ Examples.cuiUpwindOperator rfl
  ⟨rfl, h.2.1 (Or.inl rfl), h.2.2.1 rfl⟩

/-! ## Loops over axes -/

/-- A loop over `axis` that replaces component `axis` of the data of
descriptor `dst` by a function of that component of `src` and of `dst`. -/
theorem axisLoop_apply (dst src : Int) (F : Nat → (Index → ℚ) → (Index → ℚ) → Index → ℚ)
    (pd : PatchData) (n : Nat) (idx : Int) (a : Nat) :
    (List.range n).foldl (fun (pd : PatchData) axis =>
        PatchData.set pd dst (SideData.setAxis (pd dst) axis (F axis (pd src axis) (pd dst axis))))
      pd idx a =
    if idx = dst ∧ a < n then F a (pd src a) (pd dst a) else pd idx a := by
  induction n generalizing idx a with
  | zero => simp
  | succ n ih =>
    rw [List.range_succ, List.foldl_append, List.foldl_cons, List.foldl_nil]
    generalize List.foldl _ pd (List.range n) = P at ih ⊢
    unfold PatchData.set SideData.setAxis
    by_cases h1 : idx = dst
    · subst h1
      by_cases h2 : a = n
      · subst h2
        simp [ih]
      · by_cases h3 : a < n
        · have : a < n + 1 := by omega
          simp [ih, h2, h3, this]
        · have : ¬ a < n + 1 := by omega
          simp [ih, h2, h3, this]
    · simp [ih, h1]

theorem updateDensityLoop_apply (b : Build) (op : Operator) (patch : Patch)
    (U_adv R_half : Nat → FaceData) (pd : PatchData) (idx : Int) (a : Nat) :
    updateDensityLoop b op patch U_adv R_half pd idx a =
    if idx = op.d_rho_interp_new_idx ∧ a < b.NDIM then
      vc_update_density b.NDIM patch.dx op.d_dt (toSideBox patch.box a) (U_adv a) (R_half a)
        (pd op.d_rho_interp_scratch_idx a) (pd op.d_rho_interp_new_idx a)
    else pd idx a :=
  axisLoop_apply op.d_rho_interp_new_idx op.d_rho_interp_scratch_idx
    (fun axis R R_new => vc_update_density b.NDIM patch.dx op.d_dt (toSideBox patch.box axis)
      (U_adv axis) (R_half axis) R R_new) pd b.NDIM idx a

theorem sspRk2UpdateDensityLoop_apply (b : Build) (op : Operator) (patch : Patch)
    (U_adv R_half : Nat → FaceData) (pd : PatchData) (idx : Int) (a : Nat) :
    sspRk2UpdateDensityLoop b op patch U_adv R_half pd idx a =
    if idx = op.d_rho_interp_new_idx ∧ a < b.NDIM then
      vc_ssp_rk2_update_density b.NDIM patch.dx op.d_dt (toSideBox patch.box a) (U_adv a)
        (R_half a) (pd op.d_rho_interp_current_idx a) (pd op.d_rho_interp_new_idx a)
    else pd idx a :=
  axisLoop_apply op.d_rho_interp_new_idx op.d_rho_interp_current_idx
    (fun axis R R_new => vc_ssp_rk2_update_density b.NDIM patch.dx op.d_dt
      (toSideBox patch.box axis) (U_adv axis) (R_half axis) R R_new) pd b.NDIM idx a

/-! ## The private member functions succeed on a supported configuration -/

theorem interpolateSideQuantity_ok (K : Kernels) (U_adv : Nat → FaceData) (Q : SideData)
    (box : Box) (side_boxes : Nat → Box) (lim : VCConvectiveLimiter)
    (h : lim ≠ VCConvectiveLimiter.UNKNOWN_VC_CONVECTIVE_LIMITER) :
    ∃ Q_half, interpolateSideQuantity K U_adv Q box side_boxes lim = Except.ok Q_half := by
  cases lim <;> first | exact ⟨_, rfl⟩ | exact absurd rfl h

theorem foldlM_ok {σ α : Type} (f : σ → α → Except Failure σ)
    (hf : ∀ s a, ∃ s', f s a = Except.ok s') (l : List α) (s : σ) :
    ∃ s', l.foldlM f s = Except.ok s' := by
  induction l generalizing s with
  | nil => exact ⟨s, rfl⟩
  | cons a l ih =>
    obtain ⟨s1, h1⟩ := hf s a
    obtain ⟨s2, h2⟩ := ih s1
    refine ⟨s2, ?_⟩
    rw [List.foldlM_cons, h1]
    exact h2

theorem computeConvectiveDerivative_ok (b : Build) (K : Kernels) (op : Operator) (N : SideData)
    (U_adv R_half U_half : Nat → FaceData) (side_boxes : Nat → Box) (dx : Nat → ℚ)
    (h : op.d_difference_form = ConvectiveDifferencingType.CONSERVATIVE) :
    ∃ N', computeConvectiveDerivative b K op N U_adv R_half U_half side_boxes dx = Except.ok N' := by
  unfold computeConvectiveDerivative
  apply foldlM_ok
  intro s a
  rw [h]
  exact ⟨_, rfl⟩

/-! ## The loops over patches and levels -/

theorem World.record_data (w : World) (es : List Event) : (w.record es).data = w.data := rfl

theorem World.record_patchData (w : World) (es : List Event) (ln : Int) (p : Nat) :
    (w.record es).patchData ln p = w.patchData ln p := rfl

/-- A sweep whose body never aborts completes; it leaves every patch outside
the swept list alone and gives a swept patch the data the body computes from
the data the patch had before the sweep. -/
theorem sweepPatches_spec
    (body : Int → Nat → Patch → PatchData → Except (Failure × List Event) (PatchData × List Event))
    (ln : Int) (hok : ∀ p patch pd, ∃ r, body ln p patch pd = Except.ok r)
    (patches : List Patch) (p0 : Nat) (w : World) :
    ∃ w', sweepPatches body ln p0 patches w = Except.ok w' ∧
      (∀ idx l q, (l ≠ ln ∨ q < p0 ∨ p0 + patches.length ≤ q) →
        w'.data idx l q = w.data idx l q) ∧
      (∀ q patch r, p0 ≤ q → patches.get? (q - p0) = some patch →
        body ln q patch (w.patchData ln q) = Except.ok r → ∀ idx, w'.data idx ln q = r.1 idx) := by
  induction patches generalizing p0 w with
  | nil =>
    refine ⟨w, rfl, fun _ _ _ _ => rfl, ?_⟩
    intro q patch r _ h
    simp at h
  | cons patch rest ih =>
    obtain ⟨⟨pd, es⟩, hb⟩ := hok p0 patch (w.patchData ln p0)
    obtain ⟨w', hw', hframe, hpatch⟩ := ih (p0 + 1) ((w.setPatchData ln p0 pd).record es)
    refine ⟨w', ?_, ?_, ?_⟩
    · rw [sweepPatches, hb]
      exact hw'
    · intro idx l q hq
      rw [hframe idx l q (by
        rcases hq with h | h | h
        · exact Or.inl h
        · exact Or.inr (Or.inl (by omega))
        · exact Or.inr (Or.inr (by simp only [List.length_cons] at h; omega)))]
      simp only [World.record_data, World.setPatchData]
      rw [if_neg]
      rintro ⟨h1, h2⟩
      rcases hq with h | h | h
      · exact h h1
      · omega
      · simp only [List.length_cons] at h; omega
    · intro q patch' r hq hget hbody idx
      by_cases hq0 : q = p0
      · subst hq0
        simp only [Nat.sub_self, List.get?_cons_zero, Option.some.injEq] at hget
        subst hget
        rw [hb] at hbody
        injection hbody with hbody
        subst hbody
        rw [hframe idx ln q (Or.inr (Or.inl (by omega)))]
        simp [World.record_data, World.setPatchData]
      · have hq1 : p0 + 1 ≤ q := by omega
        have hsub : q - p0 = (q - (p0 + 1)) + 1 := by omega
        rw [hsub, List.get?_cons_succ] at hget
        apply hpatch q patch' r hq1 hget
        have : ((w.setPatchData ln p0 pd).record es).patchData ln q = w.patchData ln q := by
          funext idx'
          simp [World.patchData, World.record, World.setPatchData, hq0]
        rw [this]
        exact hbody

theorem levelNumbers_nodup (c f : Int) : (levelNumbers c f).Nodup := by
  unfold levelNumbers
  refine List.Nodup.map (f := fun k : Nat => c + (k : Int)) ?_ (List.nodup_range _)
  intro x y h
  simpa using h

/-- The same for the loop over levels. -/
theorem sweepLevels_spec
    (body : Int → Nat → Patch → PatchData → Except (Failure × List Event) (PatchData × List Event))
    (hier : PatchHierarchy) (hok : ∀ ln p patch pd, ∃ r, body ln p patch pd = Except.ok r)
    (lns : List Int) (hnd : lns.Nodup) (w : World) :
    ∃ w', sweepLevels body hier lns w = Except.ok w' ∧
      (∀ idx l q, (l ∉ lns ∨ (hier.getPatchLevel l).get? q = none) →
        w'.data idx l q = w.data idx l q) ∧
      (∀ l q patch r, l ∈ lns → (hier.getPatchLevel l).get? q = some patch →
        body l q patch (w.patchData l q) = Except.ok r → ∀ idx, w'.data idx l q = r.1 idx) := by
  induction lns generalizing w with
  | nil =>
    refine ⟨w, rfl, fun _ _ _ _ => rfl, ?_⟩
    intro l q patch r h
    simp at h
  | cons ln lns ih =>
    rw [List.nodup_cons] at hnd
    obtain ⟨w1, hw1, hframe1, hpatch1⟩ :=
      sweepPatches_spec body ln (hok ln) (hier.getPatchLevel ln) 0 w
    obtain ⟨w', hw', hframe, hpatch⟩ := ih hnd.2 w1
    have hother : ∀ idx l q, l ≠ ln → w1.data idx l q = w.data idx l q :=
      fun idx l q h => hframe1 idx l q (Or.inl h)
    refine ⟨w', ?_, ?_, ?_⟩
    · rw [sweepLevels, hw1]
      exact hw'
    · intro idx l q h
      rcases h with h | h
      · rw [hframe idx l q (Or.inl (fun hm => h (List.mem_cons_of_mem _ hm)))]
        exact hother idx l q (fun e => h (e ▸ List.mem_cons_self _ _))
      · rw [hframe idx l q (Or.inr h)]
        by_cases e : l = ln
        · subst e
          apply hframe1 idx l q
          right; right
          rw [List.get?_eq_none] at h
          omega
        · exact hother idx l q e
    · intro l q patch r hl hget hbody idx
      rcases List.mem_cons.mp hl with e | hm
      · subst e
        rw [hframe idx l q (Or.inl hnd.1)]
        exact hpatch1 q patch r (Nat.zero_le _) (by simpa using hget) hbody idx
      · have hne : l ≠ ln := fun e => hnd.1 (e ▸ hm)
        apply hpatch l q patch r hm hget
        have : w1.patchData l q = w.patchData l q := by
          funext idx'
          exact hother idx' l q hne
        rw [this]
        exact hbody

/-! ## The bodies of the two sweeps -/

theorem firstSweepPatch_ok (b : Build) (K : Kernels) (op : Operator) (N_idx : Int)
    (hform : op.d_difference_form = ConvectiveDifferencingType.CONSERVATIVE)
    (hvl : op.d_vc_velocity_convective_limiter ≠ VCConvectiveLimiter.UNKNOWN_VC_CONVECTIVE_LIMITER)
    (hdl : op.d_vc_density_convective_limiter ≠ VCConvectiveLimiter.UNKNOWN_VC_CONVECTIVE_LIMITER)
    (ln : Int) (p : Nat) (patch : Patch) (pd : PatchData) :
    ∃ r, firstSweepPatch b K op N_idx ln p patch pd = Except.ok r := by
  obtain ⟨R_half, hR⟩ := interpolateSideQuantity_ok K (advectionVelocity K op patch pd)
    (pd op.d_rho_interp_scratch_idx) patch.box (sideBoxes patch) _ hdl
  obtain ⟨U_half, hU⟩ := interpolateSideQuantity_ok K (advectionVelocity K op patch pd)
    (pd op.d_U_scratch_idx) patch.box (sideBoxes patch) _ hvl
  obtain ⟨N, hN⟩ := computeConvectiveDerivative_ok b K op (pd N_idx)
    (advectionVelocity K op patch pd) R_half U_half (sideBoxes patch) patch.dx hform
  unfold firstSweepPatch faceDensity faceVelocity
  simp only [hR, hU, hN]
  split <;> exact ⟨_, rfl⟩

theorem secondSweepPatch_ok (b : Build) (K : Kernels) (op : Operator) (N_idx : Int)
    (hform : op.d_difference_form = ConvectiveDifferencingType.CONSERVATIVE)
    (hvl : op.d_vc_velocity_convective_limiter ≠ VCConvectiveLimiter.UNKNOWN_VC_CONVECTIVE_LIMITER)
    (hdl : op.d_vc_density_convective_limiter ≠ VCConvectiveLimiter.UNKNOWN_VC_CONVECTIVE_LIMITER)
    (ln : Int) (p : Nat) (patch : Patch) (pd : PatchData) :
    ∃ r, secondSweepPatch b K op N_idx ln p patch pd = Except.ok r := by
  obtain ⟨R_half, hR⟩ := interpolateSideQuantity_ok K (advectionVelocity K op patch pd)
    (pd op.d_rho_interp_scratch_idx) patch.box (sideBoxes patch) _ hdl
  obtain ⟨U_half, hU⟩ := interpolateSideQuantity_ok K (advectionVelocity K op patch pd)
    (pd op.d_U_scratch_idx) patch.box (sideBoxes patch) _ hvl
  obtain ⟨N, hN⟩ := computeConvectiveDerivative_ok b K op (pd N_idx)
    (advectionVelocity K op patch pd) R_half U_half (sideBoxes patch) patch.dx hform
  unfold secondSweepPatch faceDensity faceVelocity
  simp only [hR, hU, hN]
  exact ⟨_, rfl⟩

/-- What the first sweep leaves on a patch: some patch data `pd1` that agrees
with the old data except at the output descriptor (and only under forward
Euler), updated by the density loop. -/
theorem firstSweepPatch_result {b : Build} {K : Kernels} {op : Operator} {N_idx : Int}
    {ln : Int} {p : Nat} {patch : Patch} {pd : PatchData} {r : PatchData × List Event}
    (h : firstSweepPatch b K op N_idx ln p patch pd = Except.ok r) :
    ∃ R_half pd1, faceDensity K op patch pd = Except.ok R_half ∧
      (∀ idx, idx ≠ N_idx → pd1 idx = pd idx) ∧
      (op.d_vc_density_time_stepping_type ≠ VCDensityTimeSteppingType.VC_FORWARD_EULER →
        pd1 = pd) ∧
      r.1 = updateDensityLoop b op patch (advectionVelocity K op patch pd) R_half pd1 := by
  unfold firstSweepPatch at h
  simp only at h
  split at h
  · exact absurd h (by simp)
  · rename_i R_half hR
    split at h
    · rename_i hts
      split at h
      · exact absurd h (by simp)
      · split at h
        · exact absurd h (by simp)
        · rename_i N hN
          injection h with h
          refine ⟨R_half, PatchData.set pd N_idx N, hR, ?_, fun hne => absurd hts hne, ?_⟩
          · intro idx hidx
            simp [PatchData.set, hidx]
          · rw [← h]
    · injection h with h
      exact ⟨R_half, pd, hR, fun _ _ => rfl, fun _ => rfl, by rw [← h]⟩

/-- What the second sweep leaves on a patch. -/
theorem secondSweepPatch_result {b : Build} {K : Kernels} {op : Operator} {N_idx : Int}
    {ln : Int} {p : Nat} {patch : Patch} {pd : PatchData} {r : PatchData × List Event}
    (h : secondSweepPatch b K op N_idx ln p patch pd = Except.ok r) :
    ∃ R_half pd1, faceDensity K op patch pd = Except.ok R_half ∧
      (∀ idx, idx ≠ N_idx → pd1 idx = pd idx) ∧
      r.1 = sspRk2UpdateDensityLoop b op patch (advectionVelocity K op patch pd) R_half pd1 := by
  unfold secondSweepPatch at h
  simp only at h
  split at h
  · exact absurd h (by simp)
  · rename_i R_half hR
    split at h
    · exact absurd h (by simp)
    · split at h
      · exact absurd h (by simp)
      · rename_i N hN
        injection h with h
        refine ⟨R_half, PatchData.set pd N_idx N, hR, ?_, by rw [← h]⟩
        intro idx hidx
        simp [PatchData.set, hidx]

/-! ## The halo fills -/

theorem fillComponent_other (NDIM : Nat) (H : HaloService) (hier : PatchHierarchy) (hom : Bool)
    (t : ℚ) (data : Int → Int → Nat → SideData) (c : InterpolationTransactionComponent)
    (idx : Int) (h : idx ≠ c.dst_data_idx) :
    fillComponent NDIM H hier hom t data c idx = data idx := by
  funext ln p
  simp [fillComponent, h]

theorem fillComponent_interior (NDIM : Nat) (H : HaloService) (hier : PatchHierarchy) (hom : Bool)
    (t : ℚ) (data : Int → Int → Nat → SideData) (c : InterpolationTransactionComponent)
    (ln : Int) (p : Nat) (patch : Patch) (hp : (hier.getPatchLevel ln).get? p = some patch)
    (axis : Nat) (i : Index) (hi : (toSideBox patch.box axis).contains NDIM i) :
    fillComponent NDIM H hier hom t data c c.dst_data_idx ln p axis i =
      data c.src_data_idx ln p axis i := by
  rw [fillComponent, if_pos rfl]
  simp only [hp]
  rw [if_pos hi]

theorem fillComponent_ghost (NDIM : Nat) (H : HaloService) (hier : PatchHierarchy) (hom : Bool)
    (t : ℚ) (data : Int → Int → Nat → SideData) (c : InterpolationTransactionComponent)
    (ln : Int) (p : Nat) (patch : Patch) (hp : (hier.getPatchLevel ln).get? p = some patch)
    (axis : Nat) (i : Index) (hi : ¬ (toSideBox patch.box axis).contains NDIM i) :
    fillComponent NDIM H hier hom t data c c.dst_data_idx ln p axis i =
      H.ghost c hom t hier (data c.src_data_idx) ln p axis i := by
  rw [fillComponent, if_pos rfl]
  simp only [hp]
  rw [if_neg hi]

theorem oneShotPlan_fillData_data (NDIM : Nat) (H : HaloService)
    (c : InterpolationTransactionComponent) (hier : PatchHierarchy) (cached : Bool) (t : ℚ)
    (w : World) :
    ((oneShotPlan c hier).fillData NDIM H cached t w).data =
      fillComponent NDIM H hier false t w.data c := rfl

theorem velocityFill_data (b : Build) (H : HaloService) (op : Operator)
    (plan : HierarchyGhostCellInterpolation) (U_idx : Int) (w : World) :
    (velocityFill b H op plan U_idx w).2.data =
      fillComponent b.NDIM H plan.hierarchy false op.d_solution_time w.data
        (velocityTransaction op U_idx) := rfl

/-- The fills write the two scratch descriptors only. -/
theorem afterFills_other (b : Build) (H : HaloService) (op : Operator)
    (plan : HierarchyGhostCellInterpolation) (hier : PatchHierarchy) (U_idx : Int) (w : World)
    (idx : Int) (h1 : idx ≠ op.d_U_scratch_idx) (h2 : idx ≠ op.d_rho_interp_scratch_idx) :
    (afterFills b H op plan hier U_idx w).data idx = w.data idx := by
  unfold afterFills densityFill
  rw [oneShotPlan_fillData_data, fillComponent_other _ _ _ _ _ _ _ _ h2, velocityFill_data,
    fillComponent_other _ _ _ _ _ _ _ _ h1]
  rfl

/-- After the fills the density scratch holds the current density on the
faces of every patch. -/
theorem afterFills_scratch (b : Build) (H : HaloService) (op : Operator)
    (plan : HierarchyGhostCellInterpolation) (hier : PatchHierarchy) (U_idx : Int) (w : World)
    (hU : op.d_U_scratch_idx ≠ op.d_rho_interp_current_idx)
    (ln : Int) (p : Nat) (patch : Patch) (hp : (hier.getPatchLevel ln).get? p = some patch)
    (axis : Nat) (i : Index) (hi : (toSideBox patch.box axis).contains b.NDIM i) :
    (afterFills b H op plan hier U_idx w).data op.d_rho_interp_scratch_idx ln p axis i =
      w.data op.d_rho_interp_current_idx ln p axis i := by
  unfold afterFills densityFill
  rw [oneShotPlan_fillData_data]
  have := fillComponent_interior b.NDIM H hier false op.d_solution_time
    (velocityFill b H op plan U_idx (w.record [Event.getOperationsDouble])).2.data
    (densityTransaction op op.d_rho_interp_current_idx) ln p patch hp axis i hi
  simp only [densityTransaction] at this ⊢
  rw [this, velocityFill_data, fillComponent_other _ _ _ _ _ _ _ _ (Ne.symm hU)]
  rfl

/-- The stage fill leaves every descriptor as it was on the faces of every
patch, except the density scratch, which takes the new density there. -/
theorem stageFill_interior (b : Build) (H : HaloService) (op : Operator) (hier : PatchHierarchy)
    (w : World) (ln : Int) (p : Nat) (patch : Patch)
    (hp : (hier.getPatchLevel ln).get? p = some patch)
    (axis : Nat) (i : Index) (hi : (toSideBox patch.box axis).contains b.NDIM i) (idx : Int) :
    (stageFill b H op hier w).data idx ln p axis i =
      if idx = op.d_rho_interp_scratch_idx then w.data op.d_rho_interp_new_idx ln p axis i
      else w.data idx ln p axis i := by
  unfold stageFill
  rw [oneShotPlan_fillData_data]
  by_cases h : idx = op.d_rho_interp_scratch_idx
  · subst h
    have := fillComponent_interior b.NDIM H hier false (op.d_solution_time + op.d_dt) w.data
      (densityTransaction op op.d_rho_interp_new_idx) ln p patch hp axis i hi
    simp only [densityTransaction] at this ⊢
    rw [this]
    simp
  · rw [fillComponent_other _ _ _ _ _ _ _ _ (by simpa [densityTransaction] using h)]
    simp [h]

theorem stageFill_other (b : Build) (H : HaloService) (op : Operator) (hier : PatchHierarchy)
    (w : World) (idx : Int) (h : idx ≠ op.d_rho_interp_scratch_idx) :
    (stageFill b H op hier w).data idx = w.data idx := by
  unfold stageFill
  rw [oneShotPlan_fillData_data, fillComponent_other _ _ _ _ _ _ _ _ (by simpa [densityTransaction] using h)]

/-! ## `applyConvectiveOperator` once the checks pass -/

theorem applyConvectiveOperator_eq (b : Build) (K : Kernels) (H : HaloService) (op : Operator)
    (w : World) (U_idx N_idx : Int) (plan : HierarchyGhostCellInterpolation)
    (hier : PatchHierarchy) (m : Nat)
    (hpre : b.NDEBUG = true ∨ preconditions op U_idx)
    (hplan : op.d_hier_bdry_fill = some plan) (hhier : op.d_hierarchy = some hier)
    (hmath : op.d_hier_math_ops = some m) :
    applyConvectiveOperator b K H op w U_idx N_idx =
      match sweeps b K H op hier N_idx (afterFills b H op plan hier U_idx w) with
      | Except.error e => Except.error e
      | Except.ok w' =>
        Except.ok (resetSelectOptions
          { op with
            d_hier_bdry_fill :=
              some (velocityFill b H op plan U_idx (w.record [Event.getOperationsDouble])).1 },
          w') := by
  unfold applyConvectiveOperator
  have hchecks : (!b.NDEBUG && !op.d_is_initialized) = false ∧
      (!b.NDEBUG && decide (U_idx ≠ op.d_u_idx)) = false ∧
      (!b.NDEBUG && !op.d_rho_is_set) = false ∧
      (!b.NDEBUG && decide (op.d_rho_interp_current_idx < 0)) = false ∧
      (!b.NDEBUG && !op.d_dt_is_set) = false ∧
      (!b.NDEBUG && decide (op.d_dt < 0)) = false := by
    rcases hpre with h | ⟨h1, h2, h3, h4, h5, h6⟩
    · simp [h]
    · simp [h1, h2, h3, h5, not_lt.mpr h4, not_lt.mpr h6]
  obtain ⟨c1, c2, c3, c4, c5, c6⟩ := hchecks
  simp only [c1, c2, c3, c4, c5, c6, hplan, hhier, hmath]
  rfl

/-! ## The two sweeps over the hierarchy -/

/-- The first sweep completes on a supported configuration; on every face of
every patch of the level range the new density is the scratch density minus
`dt` times the flux divergence, and no other descriptor changes except the
output descriptor under forward Euler. -/
theorem firstSweep_spec (b : Build) (K : Kernels) (op : Operator) (hier : PatchHierarchy)
    (N_idx : Int)
    (hform : op.d_difference_form = ConvectiveDifferencingType.CONSERVATIVE)
    (hvl : op.d_vc_velocity_convective_limiter ≠ VCConvectiveLimiter.UNKNOWN_VC_CONVECTIVE_LIMITER)
    (hdl : op.d_vc_density_convective_limiter ≠ VCConvectiveLimiter.UNKNOWN_VC_CONVECTIVE_LIMITER)
    (hN : op.d_vc_density_time_stepping_type = VCDensityTimeSteppingType.VC_FORWARD_EULER →
      N_idx ≠ op.d_rho_interp_scratch_idx)
    (w : World) :
    ∃ w1, sweepLevels (firstSweepPatch b K op N_idx) hier
        (levelNumbers op.d_coarsest_ln op.d_finest_ln) w = Except.ok w1 ∧
      (∀ ln, ln ∈ levelNumbers op.d_coarsest_ln op.d_finest_ln → ∀ p patch,
        (hier.getPatchLevel ln).get? p = some patch →
        ∃ R_half, faceDensity K op patch (w.patchData ln p) = Except.ok R_half ∧
          ∀ a, a < b.NDIM → ∀ i, (toSideBox patch.box a).contains b.NDIM i →
            w1.data op.d_rho_interp_new_idx ln p a i =
              w.data op.d_rho_interp_scratch_idx ln p a i -
                op.d_dt * fluxDivergence b.NDIM patch.dx
                  (advectionVelocity K op patch (w.patchData ln p) a) (R_half a) i) ∧
      (∀ idx, idx ≠ op.d_rho_interp_new_idx →
        (op.d_vc_density_time_stepping_type ≠ VCDensityTimeSteppingType.VC_FORWARD_EULER ∨
          idx ≠ N_idx) → w1.data idx = w.data idx) := by
  obtain ⟨w1, hw1, hframe, hpatch⟩ := sweepLevels_spec (firstSweepPatch b K op N_idx) hier
    (firstSweepPatch_ok b K op N_idx hform hvl hdl) _
    (levelNumbers_nodup op.d_coarsest_ln op.d_finest_ln) w
  refine ⟨w1, hw1, ?_, ?_⟩
  · intro ln hln p patch hp
    obtain ⟨r, hr⟩ := firstSweepPatch_ok b K op N_idx hform hvl hdl ln p patch (w.patchData ln p)
    obtain ⟨R_half, pd1, hR, hpd1, hpd1', hres⟩ := firstSweepPatch_result hr
    refine ⟨R_half, hR, ?_⟩
    intro a ha i hi
    rw [hpatch ln p patch r hln hp hr, hres, updateDensityLoop_apply, if_pos ⟨rfl, ha⟩,
      vc_update_density, if_pos hi]
    have : pd1 op.d_rho_interp_scratch_idx = w.patchData ln p op.d_rho_interp_scratch_idx := by
      by_cases hts : op.d_vc_density_time_stepping_type = VCDensityTimeSteppingType.VC_FORWARD_EULER
      · exact hpd1 _ (Ne.symm (hN hts))
      · rw [hpd1' hts]
    rw [this]
    rfl
  · intro idx hidx hcase
    funext l q
    by_cases hl : l ∈ levelNumbers op.d_coarsest_ln op.d_finest_ln
    · cases hp : (hier.getPatchLevel l).get? q with
      | none => exact hframe idx l q (Or.inr hp)
      | some patch =>
        obtain ⟨r, hr⟩ := firstSweepPatch_ok b K op N_idx hform hvl hdl l q patch (w.patchData l q)
        obtain ⟨R_half, pd1, hR, hpd1, hpd1', hres⟩ := firstSweepPatch_result hr
        rw [hpatch l q patch r hl hp hr, hres]
        funext a
        rw [updateDensityLoop_apply, if_neg (fun h => hidx h.1)]
        rcases hcase with hts | hne
        · rw [hpd1' hts]; rfl
        · rw [hpd1 idx hne]; rfl
    · exact hframe idx l q (Or.inl hl)

/-- The second sweep completes on a supported configuration; on every face
of every patch of the level range it combines the current density, the new
density it finds (stage 1) and the flux divergence. -/
theorem secondSweep_spec (b : Build) (K : Kernels) (op : Operator) (hier : PatchHierarchy)
    (N_idx : Int)
    (hform : op.d_difference_form = ConvectiveDifferencingType.CONSERVATIVE)
    (hvl : op.d_vc_velocity_convective_limiter ≠ VCConvectiveLimiter.UNKNOWN_VC_CONVECTIVE_LIMITER)
    (hdl : op.d_vc_density_convective_limiter ≠ VCConvectiveLimiter.UNKNOWN_VC_CONVECTIVE_LIMITER)
    (hNnew : N_idx ≠ op.d_rho_interp_new_idx) (hNcur : N_idx ≠ op.d_rho_interp_current_idx)
    (w : World) :
    ∃ w2, sweepLevels (secondSweepPatch b K op N_idx) hier
        (levelNumbers op.d_coarsest_ln op.d_finest_ln) w = Except.ok w2 ∧
      (∀ ln, ln ∈ levelNumbers op.d_coarsest_ln op.d_finest_ln → ∀ p patch,
        (hier.getPatchLevel ln).get? p = some patch →
        ∃ R_half, faceDensity K op patch (w.patchData ln p) = Except.ok R_half ∧
          ∀ a, a < b.NDIM → ∀ i, (toSideBox patch.box a).contains b.NDIM i →
            w2.data op.d_rho_interp_new_idx ln p a i =
              (1 / 2) * w.data op.d_rho_interp_current_idx ln p a i +
              (1 / 2) * (w.data op.d_rho_interp_new_idx ln p a i -
                op.d_dt * fluxDivergence b.NDIM patch.dx
                  (advectionVelocity K op patch (w.patchData ln p) a) (R_half a) i)) := by
  obtain ⟨w2, hw2, _, hpatch⟩ := sweepLevels_spec (secondSweepPatch b K op N_idx) hier
    (secondSweepPatch_ok b K op N_idx hform hvl hdl) _
    (levelNumbers_nodup op.d_coarsest_ln op.d_finest_ln) w
  refine ⟨w2, hw2, ?_⟩
  intro ln hln p patch hp
  obtain ⟨r, hr⟩ := secondSweepPatch_ok b K op N_idx hform hvl hdl ln p patch (w.patchData ln p)
  obtain ⟨R_half, pd1, hR, hpd1, hres⟩ := secondSweepPatch_result hr
  refine ⟨R_half, hR, ?_⟩
  intro a ha i hi
  rw [hpatch ln p patch r hln hp hr, hres, sspRk2UpdateDensityLoop_apply, if_pos ⟨rfl, ha⟩,
    vc_ssp_rk2_update_density, if_pos hi, hpd1 _ (Ne.symm hNnew), hpd1 _ (Ne.symm hNcur)]
  rfl

/-! ## `applyConvectiveOperator` under each time-stepping scheme -/

/-- Forward Euler: the call completes and the new density is the filled
scratch density minus `dt` times the flux divergence. -/
theorem applyConvectiveOperator_forward_euler (b : Build) (K : Kernels) (H : HaloService)
    (op : Operator) (w : World) (U_idx N_idx : Int) (plan : HierarchyGhostCellInterpolation)
    (hier : PatchHierarchy) (m : Nat)
    (hpre : b.NDEBUG = true ∨ preconditions op U_idx)
    (hplan : op.d_hier_bdry_fill = some plan) (hhier : op.d_hierarchy = some hier)
    (hmath : op.d_hier_math_ops = some m)
    (hform : op.d_difference_form = ConvectiveDifferencingType.CONSERVATIVE)
    (hvl : op.d_vc_velocity_convective_limiter ≠ VCConvectiveLimiter.UNKNOWN_VC_CONVECTIVE_LIMITER)
    (hdl : op.d_vc_density_convective_limiter ≠ VCConvectiveLimiter.UNKNOWN_VC_CONVECTIVE_LIMITER)
    (hts : op.d_vc_density_time_stepping_type = VCDensityTimeSteppingType.VC_FORWARD_EULER)
    (hN : N_idx ≠ op.d_rho_interp_scratch_idx) :
    ∃ op' w', applyConvectiveOperator b K H op w U_idx N_idx = Except.ok (op', w') ∧
      ∀ ln, ln ∈ levelNumbers op.d_coarsest_ln op.d_finest_ln → ∀ p patch,
        (hier.getPatchLevel ln).get? p = some patch →
        ∃ R_half, faceDensity K op patch ((afterFills b H op plan hier U_idx w).patchData ln p) =
            Except.ok R_half ∧
          ∀ a, a < b.NDIM → ∀ i, (toSideBox patch.box a).contains b.NDIM i →
            w'.data op.d_rho_interp_new_idx ln p a i =
              (afterFills b H op plan hier U_idx w).data op.d_rho_interp_scratch_idx ln p a i -
                op.d_dt * fluxDivergence b.NDIM patch.dx
                  (advectionVelocity K op patch
                    ((afterFills b H op plan hier U_idx w).patchData ln p) a) (R_half a) i := by
  obtain ⟨w1, hw1, hnew, _⟩ := firstSweep_spec b K op hier N_idx hform hvl hdl (fun _ => hN)
    ((afterFills b H op plan hier U_idx w).record [Event.integral op.d_rho_interp_current_idx])
  have hne : op.d_vc_density_time_stepping_type ≠ VCDensityTimeSteppingType.VC_SSPRK2 := by
    rw [hts]; decide
  refine ⟨(resetSelectOptions
    { op with
      d_hier_bdry_fill :=
        some (velocityFill b H op plan U_idx (w.record [Event.getOperationsDouble])).1 }),
    w1.record [Event.integral op.d_rho_interp_new_idx], ?_, ?_⟩
  · rw [applyConvectiveOperator_eq b K H op w U_idx N_idx plan hier m hpre hplan hhier hmath]
    simp only [sweeps, hw1, if_neg hne]
  · intro ln hln p patch hp
    obtain ⟨R_half, hR, hval⟩ := hnew ln hln p patch hp
    exact ⟨R_half, hR, hval⟩

/-- SSPRK2: the call completes; the first sweep leaves the forward-Euler
value `w1` in the new density, the stage fill copies it to the scratch
density on the faces, and the second sweep combines the current density with
`w1` and the flux divergence of the refilled scratch. -/
theorem applyConvectiveOperator_ssprk2 (b : Build) (K : Kernels) (H : HaloService)
    (op : Operator) (w : World) (U_idx N_idx : Int) (plan : HierarchyGhostCellInterpolation)
    (hier : PatchHierarchy) (m : Nat)
    (hpre : b.NDEBUG = true ∨ preconditions op U_idx)
    (hplan : op.d_hier_bdry_fill = some plan) (hhier : op.d_hierarchy = some hier)
    (hmath : op.d_hier_math_ops = some m)
    (hform : op.d_difference_form = ConvectiveDifferencingType.CONSERVATIVE)
    (hvl : op.d_vc_velocity_convective_limiter ≠ VCConvectiveLimiter.UNKNOWN_VC_CONVECTIVE_LIMITER)
    (hdl : op.d_vc_density_convective_limiter ≠ VCConvectiveLimiter.UNKNOWN_VC_CONVECTIVE_LIMITER)
    (hts : op.d_vc_density_time_stepping_type = VCDensityTimeSteppingType.VC_SSPRK2)
    (hNnew : N_idx ≠ op.d_rho_interp_new_idx) (hNcur : N_idx ≠ op.d_rho_interp_current_idx)
    (hcn : op.d_rho_interp_current_idx ≠ op.d_rho_interp_new_idx)
    (hcs : op.d_rho_interp_current_idx ≠ op.d_rho_interp_scratch_idx) :
    ∃ w1 op' w',
      sweepLevels (firstSweepPatch b K op N_idx) hier
        (levelNumbers op.d_coarsest_ln op.d_finest_ln)
        ((afterFills b H op plan hier U_idx w).record
          [Event.integral op.d_rho_interp_current_idx]) = Except.ok w1 ∧
      applyConvectiveOperator b K H op w U_idx N_idx = Except.ok (op', w') ∧
      ∀ ln, ln ∈ levelNumbers op.d_coarsest_ln op.d_finest_ln → ∀ p patch,
        (hier.getPatchLevel ln).get? p = some patch →
        ∃ R_half1 R_half2,
          faceDensity K op patch ((afterFills b H op plan hier U_idx w).patchData ln p) =
            Except.ok R_half1 ∧
          faceDensity K op patch ((stageFill b H op hier w1).patchData ln p) =
            Except.ok R_half2 ∧
          ∀ a, a < b.NDIM → ∀ i, (toSideBox patch.box a).contains b.NDIM i →
            w1.data op.d_rho_interp_new_idx ln p a i =
              (afterFills b H op plan hier U_idx w).data op.d_rho_interp_scratch_idx ln p a i -
                op.d_dt * fluxDivergence b.NDIM patch.dx
                  (advectionVelocity K op patch
                    ((afterFills b H op plan hier U_idx w).patchData ln p) a) (R_half1 a) i ∧
            (stageFill b H op hier w1).data op.d_rho_interp_scratch_idx ln p a i =
              w1.data op.d_rho_interp_new_idx ln p a i ∧
            w'.data op.d_rho_interp_new_idx ln p a i =
              (1 / 2) * (afterFills b H op plan hier U_idx w).data
                op.d_rho_interp_current_idx ln p a i +
              (1 / 2) * (w1.data op.d_rho_interp_new_idx ln p a i -
                op.d_dt * fluxDivergence b.NDIM patch.dx
                  (advectionVelocity K op patch ((stageFill b H op hier w1).patchData ln p) a)
                  (R_half2 a) i) := by
  have hnotFE : op.d_vc_density_time_stepping_type ≠ VCDensityTimeSteppingType.VC_FORWARD_EULER := by
    rw [hts]; decide
  obtain ⟨w1, hw1, hnew1, hframe1⟩ := firstSweep_spec b K op hier N_idx hform hvl hdl
    (fun h => absurd h hnotFE)
    ((afterFills b H op plan hier U_idx w).record [Event.integral op.d_rho_interp_current_idx])
  obtain ⟨w2, hw2, hnew2⟩ := secondSweep_spec b K op hier N_idx hform hvl hdl hNnew hNcur
    (stageFill b H op hier w1)
  refine ⟨w1, (resetSelectOptions
    { op with
      d_hier_bdry_fill :=
        some (velocityFill b H op plan U_idx (w.record [Event.getOperationsDouble])).1 }),
    w2.record [Event.integral op.d_rho_interp_new_idx], hw1, ?_, ?_⟩
  · rw [applyConvectiveOperator_eq b K H op w U_idx N_idx plan hier m hpre hplan hhier hmath]
    simp only [sweeps, hw1, if_pos hts, hw2]
  · intro ln hln p patch hp
    obtain ⟨R_half1, hR1, hval1⟩ := hnew1 ln hln p patch hp
    obtain ⟨R_half2, hR2, hval2⟩ := hnew2 ln hln p patch hp
    refine ⟨R_half1, R_half2, hR1, hR2, ?_⟩
    intro a ha i hi
    refine ⟨hval1 a ha i hi, ?_, ?_⟩
    · rw [stageFill_interior b H op hier w1 ln p patch hp a i hi, if_pos rfl]
    · have e := hval2 a ha i hi
      rw [stageFill_other b H op hier w1 _ hcs, hframe1 _ hcn (Or.inl hnotFE),
        stageFill_interior b H op hier w1 ln p patch hp a i hi] at e
      rw [World.record_data, e]
      by_cases hns : op.d_rho_interp_new_idx = op.d_rho_interp_scratch_idx
      · rw [if_pos hns]; rfl
      · rw [if_neg hns]; rfl

/-! ## Preconditions and the single-use flags -/

/-- With the checks compiled in, a cleared flag aborts the call before
anything but the data-operations lookup of line 1183 has happened. -/
theorem applyConvectiveOperator_abort (b : Build) (K : Kernels) (H : HaloService)
    (op : Operator) (w : World) (U_idx N_idx : Int) (hb : b.NDEBUG = false)
    (h : op.d_is_initialized = false ∨ op.d_rho_is_set = false ∨ op.d_dt_is_set = false) :
    ∃ e, applyConvectiveOperator b K H op w U_idx N_idx =
      Except.error (e, w.record [Event.getOperationsDouble]) := by
  unfold applyConvectiveOperator
  simp only [hb, Bool.not_false, Bool.true_and]
  split
  · exact ⟨_, rfl⟩
  · split
    · exact ⟨_, rfl⟩
    · split
      · exact ⟨_, rfl⟩
      · split
        · exact ⟨_, rfl⟩
        · split
          · exact ⟨_, rfl⟩
          · rename_i h1 _ h3 _ h5
            rcases h with h | h | h
            · simp [h] at h1
            · simp [h] at h3
            · simp [h] at h5

/-- The operator a completed call returns is the old one with the cached plan
put back and the select options reset. -/
theorem applyConvectiveOperator_ok_operator {b : Build} {K : Kernels} {H : HaloService}
    {op op' : Operator} {w w' : World} {U_idx N_idx : Int}
    (h : applyConvectiveOperator b K H op w U_idx N_idx = Except.ok (op', w')) :
    ∃ plan, op' = resetSelectOptions { op with d_hier_bdry_fill := some plan } := by
  unfold applyConvectiveOperator at h
  simp only at h
  repeat' split at h
  all_goals cases h
  exact ⟨_, rfl⟩

/-- C3 (amended): in a build that compiles the checks (`NDEBUG` undefined),
`applyConvectiveOperator` aborts whenever the operator is not initialised,
or no density index is set, or no timestep is set, and at the abort no halo
fill, kernel call or density update has happened: the patch data is
untouched and the only call made is the data-operations lookup. -/
theorem apply_aborts_before_any_fill (b : Build) (K : Kernels) (H : HaloService)
    (op : Operator) (w : World) (U_idx N_idx : Int) (hb : b.NDEBUG = false)
    (h : op.d_is_initialized = false ∨ op.d_rho_is_set = false ∨ op.d_dt_is_set = false) :
    ∃ e w', applyConvectiveOperator b K H op w U_idx N_idx = Except.error (e, w') ∧
      w'.data = w.data ∧ w'.allocated = w.allocated ∧
      w'.log = w.log ++ [Event.getOperationsDouble] := by
  obtain ⟨e, he⟩ := applyConvectiveOperator_abort b K H op w U_idx N_idx hb h
  exact ⟨e, _, he, rfl, rfl, rfl⟩

/-- Witness for C3 (amended): the debug build, an operator on which
`setTimeStepSize` was not called. -/
theorem apply_aborts_before_any_fill_witness :
    ∃ e w', applyConvectiveOperator Examples.debug1d Examples.kernels Examples.halo
        Examples.unsetTimeStep Examples.world 3 4 = Except.error (e, w') ∧
      w'.data = Examples.world.data ∧ w'.allocated = Examples.world.allocated ∧
      w'.log = Examples.world.log ++ [Event.getOperationsDouble] :=
  apply_aborts_before_any_fill Examples.debug1d Examples.kernels Examples.halo
    Examples.unsetTimeStep Examples.world 3 4 rfl (Or.inr (Or.inr rfl))

/-- C3 (counterexample): in a build with `NDEBUG` defined the checks are not
compiled. An initialised operator with the density index set and no timestep
set runs to completion: the fills, the kernels and the density update are
all called (with `d_dt = -1`). -/
theorem apply_without_timestep_completes_when_NDEBUG :
    Examples.unsetTimeStep.d_dt_is_set = false ∧
    ∃ op' w', applyConvectiveOperator Examples.release1d Examples.kernels Examples.halo
        Examples.unsetTimeStep Examples.world 3 4 = Except.ok (op', w') ∧
      w'.log =
        [Event.getOperationsDouble,
         Event.setupBcCoefObjects [] 0 (-1) false,
         Event.fillData true [velocityTransaction Examples.unsetTimeStep 3] false 0,
         Event.resetBcCoefObjects [],
         Event.fillData false [densityTransaction Examples.unsetTimeStep 5] false 0,
         Event.integral 5,
         Event.computeAdvectionVelocity 0 0 0,
         Event.interpolateSideQuantity 0 0 1 VCConvectiveLimiter.VC_UPWIND,
         Event.interpolateSideQuantity 0 0 0 VCConvectiveLimiter.VC_UPWIND,
         Event.computeConvectiveDerivative 0 0 4,
         Event.updateDensity 0 0 0 1 2,
         Event.integral 2] :=
  ⟨rfl, _, _, rfl, rfl⟩

/-- C4 (amended): a completed call leaves both flags cleared and the stored
density index and timestep at `-1`; in a build that compiles the checks
(`NDEBUG` undefined) a second call aborts at its precondition check, also
when only one of the two setters was called again. -/
theorem apply_consumes_density_index_and_timestep (b : Build) (K : Kernels) (H : HaloService)
    (op op' : Operator) (w w' : World) (U_idx N_idx : Int)
    (h : applyConvectiveOperator b K H op w U_idx N_idx = Except.ok (op', w')) :
    op'.d_rho_is_set = false ∧ op'.d_dt_is_set = false ∧
    op'.d_rho_interp_current_idx = -1 ∧ op'.d_dt = -1 ∧
    (b.NDEBUG = false → ∀ (w2 : World) (U2 N2 : Int),
      (∃ e, applyConvectiveOperator b K H op' w2 U2 N2 =
        Except.error (e, w2.record [Event.getOperationsDouble])) ∧
      (∀ dt op2, setTimeStepSize b op' dt = Except.ok op2 →
        ∃ e, applyConvectiveOperator b K H op2 w2 U2 N2 =
          Except.error (e, w2.record [Event.getOperationsDouble])) ∧
      (∀ idx op2, setInterpolatedDensityPatchDataIndex b op' idx = Except.ok op2 →
        ∃ e, applyConvectiveOperator b K H op2 w2 U2 N2 =
          Except.error (e, w2.record [Event.getOperationsDouble]))) := by
  obtain ⟨plan, hop⟩ := applyConvectiveOperator_ok_operator h
  subst hop
  refine ⟨rfl, rfl, rfl, rfl, ?_⟩
  intro hb w2 U2 N2
  refine ⟨applyConvectiveOperator_abort b K H _ w2 U2 N2 hb (Or.inr (Or.inl rfl)), ?_, ?_⟩
  · intro dt op2 hset
    unfold setTimeStepSize at hset
    split at hset
    · exact absurd hset (by simp)
    · injection hset with hset
      subst hset
      exact applyConvectiveOperator_abort b K H _ w2 U2 N2 hb (Or.inr (Or.inl rfl))
  · intro idx op2 hset
    unfold setInterpolatedDensityPatchDataIndex at hset
    split at hset
    · exact absurd hset (by simp)
    · injection hset with hset
      subst hset
      exact applyConvectiveOperator_abort b K H _ w2 U2 N2 hb (Or.inr (Or.inr rfl))

theorem readyOperator_preconditions (ts : VCDensityTimeSteppingType) (dt : ℚ) (hdt : 0 ≤ dt) :
    preconditions (Examples.readyOperator ts dt) 3 :=
  ⟨rfl, rfl, rfl, show (0 : Int) ≤ 5 by decide, rfl, hdt⟩

/-- Witness for C4 (amended): a completed call in the debug build. -/
theorem apply_consumes_density_index_and_timestep_witness :
    ∃ op' w',
      applyConvectiveOperator Examples.debug1d Examples.kernels Examples.halo
        (Examples.readyOperator VCDensityTimeSteppingType.VC_FORWARD_EULER 1) Examples.world 3 4 =
          Except.ok (op', w') ∧
      op'.d_rho_is_set = false ∧ op'.d_dt_is_set = false ∧
      ∃ e, applyConvectiveOperator Examples.debug1d Examples.kernels Examples.halo op' w' 3 4 =
        Except.error (e, w'.record [Event.getOperationsDouble]) := by
  obtain ⟨op', w', h, _⟩ := applyConvectiveOperator_forward_euler Examples.debug1d
    Examples.kernels Examples.halo
    (Examples.readyOperator VCDensityTimeSteppingType.VC_FORWARD_EULER 1) Examples.world 3 4
    Examples.plan0 Examples.hierarchy 0
    (Or.inr (readyOperator_preconditions _ 1 (by norm_num))) rfl rfl rfl rfl (by decide)
    (by decide) rfl (show (4 : Int) ≠ 1 by decide)
  have c := apply_consumes_density_index_and_timestep Examples.debug1d Examples.kernels
    Examples.halo _ op' Examples.world w' 3 4 h
  exact ⟨op', w', h, c.1, c.2.1, (c.2.2.2.2 rfl w' 3 4).1⟩

/-- C4 (counterexample): with `NDEBUG` defined a second call right after a
completed one is not stopped by any check: it goes through the fills and the
sweep again, with the reset values `-1` as density index and timestep. -/
theorem second_apply_completes_when_NDEBUG :
    ∃ op' w' op'' w'',
      applyConvectiveOperator Examples.release1d Examples.kernels Examples.halo
        (Examples.readyOperator VCDensityTimeSteppingType.VC_FORWARD_EULER 1) Examples.world 3 4 =
          Except.ok (op', w') ∧
      op'.d_rho_is_set = false ∧ op'.d_dt_is_set = false ∧
      op'.d_rho_interp_current_idx = -1 ∧ op'.d_dt = -1 ∧
      applyConvectiveOperator Examples.release1d Examples.kernels Examples.halo op' w' 3 4 =
          Except.ok (op'', w'') ∧
      w''.log.length = w'.log.length + 12 ∧
      w''.log.get? 16 = some (Event.fillData false [densityTransaction op' (-1)] false 0) :=
  ⟨_, _, _, _, rfl, rfl, rfl, rfl, rfl, rfl, rfl, rfl⟩

/-! ## The density update -/

/-- C5 (amended): a call with its preconditions met completes, and on every
face of the side box of every axis of every patch of the level range the new
density is in flux form. Under FORWARD_EULER it is
`rho_old − dt·div(rho_half·u_adv)`, `rho_old` being the density behind the
density index before the call, `rho_half` the limiter reconstruction of its
ghost-filled scratch copy and `u_adv` the advective velocity of the patch.
Under SSPRK2 it is `rho_old − dt·½(div(rho_half·u_adv) + div(rho_half2·u_adv2))`,
where `rho_half2` and `u_adv2` are those of the second sweep, reconstructed
from the ghost-filled stage-1 density. -/
theorem density_update_flux_form (b : Build) (K : Kernels) (H : HaloService)
    (op : Operator) (w : World) (U_idx N_idx : Int) (plan : HierarchyGhostCellInterpolation)
    (hier : PatchHierarchy) (m : Nat)
    (hpre : preconditions op U_idx)
    (hplan : op.d_hier_bdry_fill = some plan) (hhier : op.d_hierarchy = some hier)
    (hmath : op.d_hier_math_ops = some m)
    (hform : op.d_difference_form = ConvectiveDifferencingType.CONSERVATIVE)
    (hvl : op.d_vc_velocity_convective_limiter ≠ VCConvectiveLimiter.UNKNOWN_VC_CONVECTIVE_LIMITER)
    (hdl : op.d_vc_density_convective_limiter ≠ VCConvectiveLimiter.UNKNOWN_VC_CONVECTIVE_LIMITER)
    (hNs : N_idx ≠ op.d_rho_interp_scratch_idx)
    (hNnew : N_idx ≠ op.d_rho_interp_new_idx) (hNcur : N_idx ≠ op.d_rho_interp_current_idx)
    (hcn : op.d_rho_interp_current_idx ≠ op.d_rho_interp_new_idx)
    (hcs : op.d_rho_interp_current_idx ≠ op.d_rho_interp_scratch_idx)
    (hU : op.d_U_scratch_idx ≠ op.d_rho_interp_current_idx) :
    (op.d_vc_density_time_stepping_type = VCDensityTimeSteppingType.VC_FORWARD_EULER →
      ∃ op' w', applyConvectiveOperator b K H op w U_idx N_idx = Except.ok (op', w') ∧
        ∀ ln, ln ∈ levelNumbers op.d_coarsest_ln op.d_finest_ln → ∀ p patch,
          (hier.getPatchLevel ln).get? p = some patch →
          ∃ rho_half,
            faceDensity K op patch ((afterFills b H op plan hier U_idx w).patchData ln p) =
              Except.ok rho_half ∧
            ∀ axis, axis < b.NDIM → ∀ i, (toSideBox patch.box axis).contains b.NDIM i →
              w'.data op.d_rho_interp_new_idx ln p axis i =
                w.data op.d_rho_interp_current_idx ln p axis i -
                  op.d_dt * fluxDivergence b.NDIM patch.dx
                    (advectionVelocity K op patch
                      ((afterFills b H op plan hier U_idx w).patchData ln p) axis)
                    (rho_half axis) i) ∧
    (op.d_vc_density_time_stepping_type = VCDensityTimeSteppingType.VC_SSPRK2 →
      ∃ w1 op' w',
        sweepLevels (firstSweepPatch b K op N_idx) hier
          (levelNumbers op.d_coarsest_ln op.d_finest_ln)
          ((afterFills b H op plan hier U_idx w).record
            [Event.integral op.d_rho_interp_current_idx]) = Except.ok w1 ∧
        applyConvectiveOperator b K H op w U_idx N_idx = Except.ok (op', w') ∧
        ∀ ln, ln ∈ levelNumbers op.d_coarsest_ln op.d_finest_ln → ∀ p patch,
          (hier.getPatchLevel ln).get? p = some patch →
          ∃ rho_half rho_half2,
            faceDensity K op patch ((afterFills b H op plan hier U_idx w).patchData ln p) =
              Except.ok rho_half ∧
            faceDensity K op patch ((stageFill b H op hier w1).patchData ln p) =
              Except.ok rho_half2 ∧
            ∀ axis, axis < b.NDIM → ∀ i, (toSideBox patch.box axis).contains b.NDIM i →
              w'.data op.d_rho_interp_new_idx ln p axis i =
                w.data op.d_rho_interp_current_idx ln p axis i -
                  op.d_dt * ((1 / 2) *
                    (fluxDivergence b.NDIM patch.dx
                      (advectionVelocity K op patch
                        ((afterFills b H op plan hier U_idx w).patchData ln p) axis)
                      (rho_half axis) i +
                    fluxDivergence b.NDIM patch.dx
                      (advectionVelocity K op patch
                        ((stageFill b H op hier w1).patchData ln p) axis)
                      (rho_half2 axis) i))) := by
  constructor
  · intro hts
    obtain ⟨op', w', happly, hpatch⟩ := applyConvectiveOperator_forward_euler b K H op w U_idx
      N_idx plan hier m (Or.inr hpre) hplan hhier hmath hform hvl hdl hts hNs
    refine ⟨op', w', happly, ?_⟩
    intro ln hln p patch hp
    obtain ⟨rho_half, hR, hval⟩ := hpatch ln hln p patch hp
    refine ⟨rho_half, hR, ?_⟩
    intro axis ha i hi
    rw [hval axis ha i hi, afterFills_scratch b H op plan hier U_idx w hU ln p patch hp axis i hi]
  · intro hts
    obtain ⟨w1, op', w', hw1, happly, hpatch⟩ := applyConvectiveOperator_ssprk2 b K H op w
      U_idx N_idx plan hier m (Or.inr hpre) hplan hhier hmath hform hvl hdl hts hNnew hNcur
      hcn hcs
    refine ⟨w1, op', w', hw1, happly, ?_⟩
    intro ln hln p patch hp
    obtain ⟨r1, r2, hR1, hR2, hval⟩ := hpatch ln hln p patch hp
    refine ⟨r1, r2, hR1, hR2, ?_⟩
    intro axis ha i hi
    obtain ⟨h1, _, h3⟩ := hval axis ha i hi
    rw [h3, h1, afterFills_scratch b H op plan hier U_idx w hU ln p patch hp axis i hi,
      afterFills_other b H op plan hier U_idx w op.d_rho_interp_current_idx (Ne.symm hU) hcs]
    ring

/-- Witness for C5 (amended): the one-patch example under forward Euler. -/
theorem density_update_flux_form_witness :
    ∃ op' w', applyConvectiveOperator Examples.debug1d Examples.kernels Examples.halo
        (Examples.readyOperator VCDensityTimeSteppingType.VC_FORWARD_EULER 1) Examples.world 3 4 =
          Except.ok (op', w') ∧
      ∃ rho_half, faceDensity Examples.kernels
          (Examples.readyOperator VCDensityTimeSteppingType.VC_FORWARD_EULER 1) Examples.patch0
          ((afterFills Examples.debug1d Examples.halo
            (Examples.readyOperator VCDensityTimeSteppingType.VC_FORWARD_EULER 1) Examples.plan0
            Examples.hierarchy 3 Examples.world).patchData 0 0) = Except.ok rho_half ∧
        w'.data 2 0 0 0 (fun _ => 0) =
          Examples.world.data 5 0 0 0 (fun _ => 0) -
            1 * fluxDivergence 1 Examples.patch0.dx
              (advectionVelocity Examples.kernels
                (Examples.readyOperator VCDensityTimeSteppingType.VC_FORWARD_EULER 1)
                Examples.patch0
                ((afterFills Examples.debug1d Examples.halo
                  (Examples.readyOperator VCDensityTimeSteppingType.VC_FORWARD_EULER 1)
                  Examples.plan0 Examples.hierarchy 3 Examples.world).patchData 0 0) 0)
              (rho_half 0) (fun _ => 0) := by
  obtain ⟨op', w', happly, hpatch⟩ := (density_update_flux_form Examples.debug1d
    Examples.kernels Examples.halo
    (Examples.readyOperator VCDensityTimeSteppingType.VC_FORWARD_EULER 1) Examples.world 3 4
    Examples.plan0 Examples.hierarchy 0
    (readyOperator_preconditions _ 1 (by norm_num)) rfl rfl rfl rfl (by decide)
    (by decide) (show (4 : Int) ≠ 1 by decide) (show (4 : Int) ≠ 2 by decide)
    (show (4 : Int) ≠ 5 by decide) (show (5 : Int) ≠ 2 by decide)
    (show (5 : Int) ≠ 1 by decide) (show (0 : Int) ≠ 5 by decide)).1 rfl
  obtain ⟨rho_half, hR, hval⟩ := hpatch 0 (by decide) 0 Examples.patch0 rfl
  exact ⟨op', w', happly, rho_half, hR, hval 0 (by decide) (fun _ => 0) (by decide)⟩

/-- C6: under SSPRK2 a call with its preconditions met completes, and on
every face the final density is
`0.5·rho_old + 0.5·(stage1 − dt·div(flux2))`: `rho_old` the density behind
the density index before the call, `stage1` the new density `w1` left by the
first sweep, itself the forward-Euler update of `rho_old`, and `flux2`
reconstructed from the density scratch refilled from `stage1`. -/
theorem ssprk2_density_update (b : Build) (K : Kernels) (H : HaloService)
    (op : Operator) (w : World) (U_idx N_idx : Int) (plan : HierarchyGhostCellInterpolation)
    (hier : PatchHierarchy) (m : Nat)
    (hpre : preconditions op U_idx)
    (hplan : op.d_hier_bdry_fill = some plan) (hhier : op.d_hierarchy = some hier)
    (hmath : op.d_hier_math_ops = some m)
    (hform : op.d_difference_form = ConvectiveDifferencingType.CONSERVATIVE)
    (hvl : op.d_vc_velocity_convective_limiter ≠ VCConvectiveLimiter.UNKNOWN_VC_CONVECTIVE_LIMITER)
    (hdl : op.d_vc_density_convective_limiter ≠ VCConvectiveLimiter.UNKNOWN_VC_CONVECTIVE_LIMITER)
    (hts : op.d_vc_density_time_stepping_type = VCDensityTimeSteppingType.VC_SSPRK2)
    (hNnew : N_idx ≠ op.d_rho_interp_new_idx) (hNcur : N_idx ≠ op.d_rho_interp_current_idx)
    (hcn : op.d_rho_interp_current_idx ≠ op.d_rho_interp_new_idx)
    (hcs : op.d_rho_interp_current_idx ≠ op.d_rho_interp_scratch_idx)
    (hU : op.d_U_scratch_idx ≠ op.d_rho_interp_current_idx) :
    ∃ w1 op' w',
      sweepLevels (firstSweepPatch b K op N_idx) hier
        (levelNumbers op.d_coarsest_ln op.d_finest_ln)
        ((afterFills b H op plan hier U_idx w).record
          [Event.integral op.d_rho_interp_current_idx]) = Except.ok w1 ∧
      applyConvectiveOperator b K H op w U_idx N_idx = Except.ok (op', w') ∧
      ∀ ln, ln ∈ levelNumbers op.d_coarsest_ln op.d_finest_ln → ∀ p patch,
        (hier.getPatchLevel ln).get? p = some patch →
        ∃ rho_half1 rho_half2,
          faceDensity K op patch ((afterFills b H op plan hier U_idx w).patchData ln p) =
            Except.ok rho_half1 ∧
          faceDensity K op patch ((stageFill b H op hier w1).patchData ln p) =
            Except.ok rho_half2 ∧
          ∀ axis, axis < b.NDIM → ∀ i, (toSideBox patch.box axis).contains b.NDIM i →
            w1.data op.d_rho_interp_new_idx ln p axis i =
              w.data op.d_rho_interp_current_idx ln p axis i -
                op.d_dt * fluxDivergence b.NDIM patch.dx
                  (advectionVelocity K op patch
                    ((afterFills b H op plan hier U_idx w).patchData ln p) axis)
                  (rho_half1 axis) i ∧
            (stageFill b H op hier w1).data op.d_rho_interp_scratch_idx ln p axis i =
              w1.data op.d_rho_interp_new_idx ln p axis i ∧
            w'.data op.d_rho_interp_new_idx ln p axis i =
              (1 / 2) * w.data op.d_rho_interp_current_idx ln p axis i +
              (1 / 2) * (w1.data op.d_rho_interp_new_idx ln p axis i -
                op.d_dt * fluxDivergence b.NDIM patch.dx
                  (advectionVelocity K op patch ((stageFill b H op hier w1).patchData ln p) axis)
                  (rho_half2 axis) i) := by
  obtain ⟨w1, op', w', hw1, happly, hpatch⟩ := applyConvectiveOperator_ssprk2 b K H op w U_idx
    N_idx plan hier m (Or.inr hpre) hplan hhier hmath hform hvl hdl hts hNnew hNcur hcn hcs
  refine ⟨w1, op', w', hw1, happly, ?_⟩
  intro ln hln p patch hp
  obtain ⟨r1, r2, hR1, hR2, hval⟩ := hpatch ln hln p patch hp
  refine ⟨r1, r2, hR1, hR2, ?_⟩
  intro axis ha i hi
  obtain ⟨h1, h2, h3⟩ := hval axis ha i hi
  have hs := afterFills_scratch b H op plan hier U_idx w hU ln p patch hp axis i hi
  have hc := afterFills_other b H op plan hier U_idx w op.d_rho_interp_current_idx
    (Ne.symm hU) hcs
  exact ⟨by rw [h1, hs], h2, by rw [h3, hc]⟩

/-- Witness for C6: the one-patch example under SSPRK2. -/
theorem ssprk2_density_update_witness :
    ∃ w1 op' w' rho_half2,
      applyConvectiveOperator Examples.release1d Examples.kernels Examples.halo
        (Examples.readyOperator VCDensityTimeSteppingType.VC_SSPRK2 1) Examples.world 3 4 =
          Except.ok (op', w') ∧
      faceDensity Examples.kernels (Examples.readyOperator VCDensityTimeSteppingType.VC_SSPRK2 1)
        Examples.patch0
        ((stageFill Examples.release1d Examples.halo
          (Examples.readyOperator VCDensityTimeSteppingType.VC_SSPRK2 1) Examples.hierarchy
          w1).patchData 0 0) = Except.ok rho_half2 ∧
      w'.data 2 0 0 0 (fun _ => 0) =
        (1 / 2) * Examples.world.data 5 0 0 0 (fun _ => 0) +
        (1 / 2) * (w1.data 2 0 0 0 (fun _ => 0) -
          1 * fluxDivergence 1 Examples.patch0.dx
            (advectionVelocity Examples.kernels
              (Examples.readyOperator VCDensityTimeSteppingType.VC_SSPRK2 1) Examples.patch0
              ((stageFill Examples.release1d Examples.halo
                (Examples.readyOperator VCDensityTimeSteppingType.VC_SSPRK2 1) Examples.hierarchy
                w1).patchData 0 0) 0)
            (rho_half2 0) (fun _ => 0)) := by
  obtain ⟨w1, op', w', _, happly, hpatch⟩ := ssprk2_density_update Examples.release1d
    Examples.kernels Examples.halo
    (Examples.readyOperator VCDensityTimeSteppingType.VC_SSPRK2 1) Examples.world 3 4
    Examples.plan0 Examples.hierarchy 0
    (readyOperator_preconditions _ 1 (by norm_num)) rfl rfl rfl rfl (by decide)
    (by decide) rfl (show (4 : Int) ≠ 2 by decide) (show (4 : Int) ≠ 5 by decide)
    (show (5 : Int) ≠ 2 by decide) (show (5 : Int) ≠ 1 by decide)
    (show (0 : Int) ≠ 5 by decide)
  obtain ⟨r1, r2, _, hR2, hval⟩ := hpatch 0 (by decide) 0 Examples.patch0 rfl
  exact ⟨w1, op', w', r2, happly, hR2, (hval 0 (by decide) (fun _ => 0) (by decide)).2.2⟩

/-- C7: with `dt = 0` a call with its preconditions met completes and leaves
the new density equal to the density behind the density index on every face
of every patch of the level range, under FORWARD_EULER and under SSPRK2,
for every supported limiter and every velocity. -/
theorem zero_timestep_keeps_density (b : Build) (K : Kernels) (H : HaloService)
    (op : Operator) (w : World) (U_idx N_idx : Int) (plan : HierarchyGhostCellInterpolation)
    (hier : PatchHierarchy) (m : Nat)
    (hpre : preconditions op U_idx)
    (hplan : op.d_hier_bdry_fill = some plan) (hhier : op.d_hierarchy = some hier)
    (hmath : op.d_hier_math_ops = some m)
    (hform : op.d_difference_form = ConvectiveDifferencingType.CONSERVATIVE)
    (hvl : op.d_vc_velocity_convective_limiter ≠ VCConvectiveLimiter.UNKNOWN_VC_CONVECTIVE_LIMITER)
    (hdl : op.d_vc_density_convective_limiter ≠ VCConvectiveLimiter.UNKNOWN_VC_CONVECTIVE_LIMITER)
    (hts : op.d_vc_density_time_stepping_type = VCDensityTimeSteppingType.VC_FORWARD_EULER ∨
      op.d_vc_density_time_stepping_type = VCDensityTimeSteppingType.VC_SSPRK2)
    (hNs : N_idx ≠ op.d_rho_interp_scratch_idx)
    (hNnew : N_idx ≠ op.d_rho_interp_new_idx) (hNcur : N_idx ≠ op.d_rho_interp_current_idx)
    (hcn : op.d_rho_interp_current_idx ≠ op.d_rho_interp_new_idx)
    (hcs : op.d_rho_interp_current_idx ≠ op.d_rho_interp_scratch_idx)
    (hU : op.d_U_scratch_idx ≠ op.d_rho_interp_current_idx)
    (hdt : op.d_dt = 0) :
    ∃ op' w', applyConvectiveOperator b K H op w U_idx N_idx = Except.ok (op', w') ∧
      ∀ ln, ln ∈ levelNumbers op.d_coarsest_ln op.d_finest_ln → ∀ p patch,
        (hier.getPatchLevel ln).get? p = some patch →
        ∀ axis, axis < b.NDIM → ∀ i, (toSideBox patch.box axis).contains b.NDIM i →
          w'.data op.d_rho_interp_new_idx ln p axis i =
            w.data op.d_rho_interp_current_idx ln p axis i := by
  rcases hts with hts | hts
  · obtain ⟨op', w', happly, hpatch⟩ := applyConvectiveOperator_forward_euler b K H op w U_idx
      N_idx plan hier m (Or.inr hpre) hplan hhier hmath hform hvl hdl hts hNs
    refine ⟨op', w', happly, ?_⟩
    intro ln hln p patch hp axis ha i hi
    obtain ⟨_, _, hval⟩ := hpatch ln hln p patch hp
    rw [hval axis ha i hi, hdt, zero_mul, sub_zero]
    exact afterFills_scratch b H op plan hier U_idx w hU ln p patch hp axis i hi
  · obtain ⟨w1, op', w', _, happly, hpatch⟩ := applyConvectiveOperator_ssprk2 b K H op w U_idx
      N_idx plan hier m (Or.inr hpre) hplan hhier hmath hform hvl hdl hts hNnew hNcur hcn hcs
    refine ⟨op', w', happly, ?_⟩
    intro ln hln p patch hp axis ha i hi
    obtain ⟨_, _, _, _, hval⟩ := hpatch ln hln p patch hp
    obtain ⟨h1, _, h3⟩ := hval axis ha i hi
    rw [h3, h1, hdt, zero_mul, zero_mul, sub_zero, sub_zero,
      afterFills_scratch b H op plan hier U_idx w hU ln p patch hp axis i hi,
      afterFills_other b H op plan hier U_idx w op.d_rho_interp_current_idx (Ne.symm hU) hcs]
    ring

/-- Witness for C7: the one-patch example under SSPRK2 with `dt = 0`. -/
theorem zero_timestep_keeps_density_witness :
    ∃ op' w', applyConvectiveOperator Examples.debug1d Examples.kernels Examples.halo
        (Examples.readyOperator VCDensityTimeSteppingType.VC_SSPRK2 0) Examples.world 3 4 =
          Except.ok (op', w') ∧
      w'.data 2 0 0 0 (fun _ => 0) = Examples.world.data 5 0 0 0 (fun _ => 0) := by
  obtain ⟨op', w', happly, hpatch⟩ := zero_timestep_keeps_density Examples.debug1d
    Examples.kernels Examples.halo
    (Examples.readyOperator VCDensityTimeSteppingType.VC_SSPRK2 0) Examples.world 3 4
    Examples.plan0 Examples.hierarchy 0
    (readyOperator_preconditions _ 0 (le_refl 0)) rfl rfl rfl rfl (by decide)
    (by decide) (Or.inr rfl) (show (4 : Int) ≠ 1 by decide) (show (4 : Int) ≠ 2 by decide)
    (show (4 : Int) ≠ 5 by decide) (show (5 : Int) ≠ 2 by decide)
    (show (5 : Int) ≠ 1 by decide) (show (0 : Int) ≠ 5 by decide) rfl
  exact ⟨op', w', happly, hpatch 0 (by decide) 0 Examples.patch0 rfl 0 (by decide)
    (fun _ => 0) (by decide)⟩

theorem fluxDivergence_zero_velocity (NDIM : Nat) (dx : Nat → ℚ) (U_adv R_half : FaceData)
    (i : Index) (h : ∀ d j, U_adv d j = 0) : fluxDivergence NDIM dx U_adv R_half i = 0 := by
  unfold fluxDivergence
  apply Finset.sum_eq_zero
  intro d _
  rw [h, h]
  simp

/-- C9: under FORWARD_EULER, when the advective velocity computed on a patch
is zero on every face, the new density equals the density behind the density
index on every face of that patch, for every supported limiter and every
`dt ≥ 0`. -/
theorem zero_velocity_keeps_density (b : Build) (K : Kernels) (H : HaloService)
    (op : Operator) (w : World) (U_idx N_idx : Int) (plan : HierarchyGhostCellInterpolation)
    (hier : PatchHierarchy) (m : Nat)
    (hpre : preconditions op U_idx)
    (hplan : op.d_hier_bdry_fill = some plan) (hhier : op.d_hierarchy = some hier)
    (hmath : op.d_hier_math_ops = some m)
    (hform : op.d_difference_form = ConvectiveDifferencingType.CONSERVATIVE)
    (hvl : op.d_vc_velocity_convective_limiter ≠ VCConvectiveLimiter.UNKNOWN_VC_CONVECTIVE_LIMITER)
    (hdl : op.d_vc_density_convective_limiter ≠ VCConvectiveLimiter.UNKNOWN_VC_CONVECTIVE_LIMITER)
    (hts : op.d_vc_density_time_stepping_type = VCDensityTimeSteppingType.VC_FORWARD_EULER)
    (hN : N_idx ≠ op.d_rho_interp_scratch_idx)
    (hU : op.d_U_scratch_idx ≠ op.d_rho_interp_current_idx) :
    ∃ op' w', applyConvectiveOperator b K H op w U_idx N_idx = Except.ok (op', w') ∧
      ∀ ln, ln ∈ levelNumbers op.d_coarsest_ln op.d_finest_ln → ∀ p patch,
        (hier.getPatchLevel ln).get? p = some patch →
        ∀ axis, axis < b.NDIM →
          (∀ d j, advectionVelocity K op patch
            ((afterFills b H op plan hier U_idx w).patchData ln p) axis d j = 0) →
          ∀ i, (toSideBox patch.box axis).contains b.NDIM i →
            w'.data op.d_rho_interp_new_idx ln p axis i =
              w.data op.d_rho_interp_current_idx ln p axis i := by
  obtain ⟨op', w', happly, hpatch⟩ := applyConvectiveOperator_forward_euler b K H op w U_idx
    N_idx plan hier m (Or.inr hpre) hplan hhier hmath hform hvl hdl hts hN
  refine ⟨op', w', happly, ?_⟩
  intro ln hln p patch hp axis ha hzero i hi
  obtain ⟨rho_half, _, hval⟩ := hpatch ln hln p patch hp
  rw [hval axis ha i hi, fluxDivergence_zero_velocity _ _ _ _ _ hzero, mul_zero, sub_zero]
  exact afterFills_scratch b H op plan hier U_idx w hU ln p patch hp axis i hi

/-- C10: with the UPWIND limiter `interpolateSideQuantity` returns, at every
face where the advective velocity is positive, the sample on the lower side
of the face, and at every face where it is negative, the sample on the upper
side: the upstream sample itself, with no contribution of the other one. In
particular so on every face when the velocity has one sign everywhere. -/
theorem upwind_selects_upstream_sample (K : Kernels) (U_adv : Nat → FaceData) (Q : SideData)
    (patch_box : Box) (side_boxes : Nat → Box) :
    ∃ Q_half, interpolateSideQuantity K U_adv Q patch_box side_boxes
        VCConvectiveLimiter.VC_UPWIND = Except.ok Q_half ∧
      (∀ axis d i, 0 < U_adv axis d i → Q_half axis d i = Q axis (Index.shift i d (-1))) ∧
      (∀ axis d i, U_adv axis d i < 0 → Q_half axis d i = Q axis i) ∧
      ((∀ axis d i, 0 < U_adv axis d i) →
        ∀ axis d i, Q_half axis d i = Q axis (Index.shift i d (-1))) ∧
      ((∀ axis d i, U_adv axis d i < 0) → ∀ axis d i, Q_half axis d i = Q axis i) := by
  refine ⟨_, rfl, ?_, ?_, ?_, ?_⟩
  · intro axis d i h
    simp [vc_navier_stokes_upwind_quantity, h]
  · intro axis d i h
    simp [vc_navier_stokes_upwind_quantity, h, not_lt.mpr (le_of_lt h)]
  · intro h axis d i
    simp [vc_navier_stokes_upwind_quantity, h axis d i]
  · intro h axis d i
    simp [vc_navier_stokes_upwind_quantity, h axis d i, not_lt.mpr (le_of_lt (h axis d i))]

/-- Witness for C9: the one-patch example with a velocity kernel that returns
zero on every face. -/
theorem zero_velocity_keeps_density_witness :
    ∃ op' w', applyConvectiveOperator Examples.debug1d Examples.stillKernels Examples.halo
        (Examples.readyOperator VCDensityTimeSteppingType.VC_FORWARD_EULER 1) Examples.world 3 4 =
          Except.ok (op', w') ∧
      w'.data 2 0 0 0 (fun _ => 0) = Examples.world.data 5 0 0 0 (fun _ => 0) := by
  obtain ⟨op', w', happly, hpatch⟩ := zero_velocity_keeps_density Examples.debug1d
    Examples.stillKernels Examples.halo
    (Examples.readyOperator VCDensityTimeSteppingType.VC_FORWARD_EULER 1) Examples.world 3 4
    Examples.plan0 Examples.hierarchy 0
    (readyOperator_preconditions _ 1 (by norm_num)) rfl rfl rfl rfl (by decide)
    (by decide) rfl (show (4 : Int) ≠ 1 by decide) (show (0 : Int) ≠ 5 by decide)
  exact ⟨op', w', happly, hpatch 0 (by decide) 0 Examples.patch0 rfl 0 (by decide)
    (fun _ _ => rfl) (fun _ => 0) (by decide)⟩

/-! ## Evaluation on the one-patch example -/

section
open Examples

/-- On the example the filled density scratch is the supplied density on the
faces and zero in the ghost region: 1 at index 0 and 0 elsewhere. -/
theorem example_afterFills_scratch (ts : VCDensityTimeSteppingType) (dt : ℚ) (i : Index) :
    (afterFills release1d halo (readyOperator ts dt) plan0 hierarchy 3 world).data 1 0 0 0 i =
      if i 0 = 0 then 1 else 0 := by
  by_cases hi : (toSideBox patch0.box 0).contains 1 i
  · have := afterFills_scratch release1d halo (readyOperator ts dt) plan0 hierarchy 3 world
      (show (0 : Int) ≠ 5 by decide) 0 0 patch0 rfl 0 i hi
    exact this
  · have h1 : (afterFills release1d halo (readyOperator ts dt) plan0 hierarchy 3 world).data 1 0 0 0 i = 0 :=
      fillComponent_ghost 1 halo hierarchy false _ _
        (densityTransaction (readyOperator ts dt) 5) 0 0 patch0 rfl 0 i hi
    rw [h1]
    have : i 0 ≠ 0 := by
      intro h0
      apply hi
      intro d hd
      have : d = 0 := by omega
      subst this
      simp [toSideBox, patch0, Index.shift, h0]
    simp [this]

/-- On the example the stage fill puts zero into the ghost region. -/
theorem example_stageFill_ghost (ts : VCDensityTimeSteppingType) (dt : ℚ) (w1 : World) (i : Index)
    (hi : ¬ (toSideBox patch0.box 0).contains 1 i) :
    (stageFill release1d halo (readyOperator ts dt) hierarchy w1).data 1 0 0 0 i = 0 :=
  fillComponent_ghost 1 halo hierarchy false _ _
    (densityTransaction (readyOperator ts dt) 2) 0 0 patch0 rfl 0 i hi

/-- On the example (unit velocity, UPWIND) the face density is the sample on
the lower side of the face. -/
theorem example_faceDensity (ts : VCDensityTimeSteppingType) (dt : ℚ) (pd : PatchData)
    (R_half : Nat → FaceData)
    (h : faceDensity kernels (readyOperator ts dt) patch0 pd = Except.ok R_half) (a d : Nat)
    (i : Index) : R_half a d i = pd 1 a (Index.shift i d (-1)) := by
  have e : faceDensity kernels (readyOperator ts dt) patch0 pd =
      Except.ok (vc_navier_stokes_upwind_quantity kernels.upwind_at_rest (pd 1)
        (advectionVelocity kernels (readyOperator ts dt) patch0 pd)) := rfl
  rw [e] at h
  injection h with h
  rw [← h]
  simp [vc_navier_stokes_upwind_quantity, advectionVelocity, computeAdvectionVelocity, kernels]

/-- On the example the flux divergence at `i` is the difference of the
scratch density at `i` and at its lower neighbour. -/
theorem example_fluxDivergence (ts : VCDensityTimeSteppingType) (dt : ℚ) (pd : PatchData)
    (R_half : Nat → FaceData)
    (h : faceDensity kernels (readyOperator ts dt) patch0 pd = Except.ok R_half) (i : Index) :
    fluxDivergence 1 patch0.dx (advectionVelocity kernels (readyOperator ts dt) patch0 pd 0)
      (R_half 0) i = pd 1 0 (Index.shift (Index.shift i 0 1) 0 (-1)) - pd 1 0 (Index.shift i 0 (-1)) := by
  simp [fluxDivergence, example_faceDensity ts dt pd R_half h, advectionVelocity,
    computeAdvectionVelocity, kernels, patch0]

/-- C5 (counterexample): under SSPRK2, on the one-patch example (unit
velocity, UPWIND, `dt = 1`, density 1 at index 0 and 0 elsewhere) the new
density at face 0 is `1/2`, while `rho_old − dt·div(rho_half·u_adv)` with
`rho_half` reconstructed from the supplied density is `0`. -/
theorem ssprk2_is_not_one_forward_euler_step :
    ∃ op' w' R_half,
      applyConvectiveOperator release1d kernels halo
        (readyOperator VCDensityTimeSteppingType.VC_SSPRK2 1) world 3 4 = Except.ok (op', w') ∧
      faceDensity kernels (readyOperator VCDensityTimeSteppingType.VC_SSPRK2 1) patch0
        ((afterFills release1d halo (readyOperator VCDensityTimeSteppingType.VC_SSPRK2 1)
          plan0 hierarchy 3 world).patchData 0 0) = Except.ok R_half ∧
      w'.data 2 0 0 0 (fun _ => 0) = 1 / 2 ∧
      world.data 5 0 0 0 (fun _ => 0) - 1 * fluxDivergence 1 patch0.dx
        (advectionVelocity kernels (readyOperator VCDensityTimeSteppingType.VC_SSPRK2 1) patch0
          ((afterFills release1d halo (readyOperator VCDensityTimeSteppingType.VC_SSPRK2 1)
            plan0 hierarchy 3 world).patchData 0 0) 0) (R_half 0) (fun _ => 0) = 0 := by
  obtain ⟨w1, op', w', _, happly, hpatch⟩ := applyConvectiveOperator_ssprk2 release1d kernels halo
    (readyOperator VCDensityTimeSteppingType.VC_SSPRK2 1) world 3 4 plan0 hierarchy 0
    (Or.inl rfl) rfl rfl rfl rfl (by decide) (by decide) rfl
    (show (4 : Int) ≠ 2 by decide) (show (4 : Int) ≠ 5 by decide)
    (show (5 : Int) ≠ 2 by decide) (show (5 : Int) ≠ 1 by decide)
  obtain ⟨R_half1, R_half2, hR1, hR2, hvals⟩ := hpatch 0 (by decide) 0 patch0 rfl
  have hbox : (toSideBox patch0.box 0).contains 1 (fun _ => 0) := by decide
  obtain ⟨h1, h2, h3⟩ := hvals 0 (by decide) (fun _ => 0) hbox
  have hcur : (afterFills release1d halo (readyOperator VCDensityTimeSteppingType.VC_SSPRK2 1)
      plan0 hierarchy 3 world).data 5 = world.data 5 :=
    afterFills_other _ _ _ _ _ _ _ 5 (show (5 : Int) ≠ 0 by decide) (show (5 : Int) ≠ 1 by decide)
  have hd1 := example_fluxDivergence _ _ _ _ hR1 (fun _ => 0)
  have hd2 := example_fluxDivergence _ _ _ _ hR2 (fun _ => 0)
  have hback : Index.shift (Index.shift (fun _ => (0 : Int)) 0 1) 0 (-1) = fun _ => (0 : Int) := by
    funext e
    by_cases h : e = 0 <;> simp [Index.shift, h]
  have hout : ¬ (toSideBox patch0.box 0).contains 1 (Index.shift (fun _ => (0 : Int)) 0 (-1)) := by
    decide
  have g1 : w1.data 2 0 0 0 (fun _ => 0) =
      (afterFills release1d halo (readyOperator VCDensityTimeSteppingType.VC_SSPRK2 1)
        plan0 hierarchy 3 world).data 1 0 0 0 (fun _ => 0) -
      1 * fluxDivergence 1 patch0.dx
        (advectionVelocity kernels (readyOperator VCDensityTimeSteppingType.VC_SSPRK2 1) patch0
          ((afterFills release1d halo (readyOperator VCDensityTimeSteppingType.VC_SSPRK2 1)
            plan0 hierarchy 3 world).patchData 0 0) 0) (R_half1 0) (fun _ => 0) := h1
  have g2 : (stageFill release1d halo (readyOperator VCDensityTimeSteppingType.VC_SSPRK2 1)
      hierarchy w1).data 1 0 0 0 (fun _ => 0) = w1.data 2 0 0 0 (fun _ => 0) := h2
  have g3 : w'.data 2 0 0 0 (fun _ => 0) =
      1 / 2 * (afterFills release1d halo (readyOperator VCDensityTimeSteppingType.VC_SSPRK2 1)
        plan0 hierarchy 3 world).data 5 0 0 0 (fun _ => 0) +
      1 / 2 * (w1.data 2 0 0 0 (fun _ => 0) - 1 * fluxDivergence 1 patch0.dx
        (advectionVelocity kernels (readyOperator VCDensityTimeSteppingType.VC_SSPRK2 1) patch0
          ((stageFill release1d halo (readyOperator VCDensityTimeSteppingType.VC_SSPRK2 1)
            hierarchy w1).patchData 0 0) 0) (R_half2 0) (fun _ => 0)) := h3
  have e1 : (afterFills release1d halo (readyOperator VCDensityTimeSteppingType.VC_SSPRK2 1)
      plan0 hierarchy 3 world).patchData 0 0 1 0 = (afterFills release1d halo
      (readyOperator VCDensityTimeSteppingType.VC_SSPRK2 1) plan0 hierarchy 3 world).data 1 0 0 0 :=
    rfl
  have e2 : (stageFill release1d halo (readyOperator VCDensityTimeSteppingType.VC_SSPRK2 1)
      hierarchy w1).patchData 0 0 1 0 = (stageFill release1d halo
      (readyOperator VCDensityTimeSteppingType.VC_SSPRK2 1) hierarchy w1).data 1 0 0 0 := rfl
  rw [hback, e1, example_afterFills_scratch, example_afterFills_scratch] at hd1
  rw [hback, e2, example_stageFill_ghost _ _ _ _ hout, g2] at hd2
  rw [hd1, example_afterFills_scratch] at g1
  rw [hd2, hcur, g1] at g3
  refine ⟨op', w', R_half1, happly, hR1, ?_, ?_⟩
  · rw [g3]
    simp [world, Index.shift]
  · rw [hd1]
    simp [world, Index.shift]

end

/-! ## The options read at construction -/

theorem readInput_velocity_limiter (E : Enums) (db : Database) (op : Operator) :
    (readInput E (some db) op).d_vc_velocity_convective_limiter =
      if db.keyExists "vc_velocity_convective_limiter"
        then E.limiterOfString (db.getString "vc_velocity_convective_limiter")
      else if db.keyExists "vc_convective_limiter"
        then E.limiterOfString (db.getString "vc_convective_limiter")
      else op.d_vc_velocity_convective_limiter := by
  unfold readInput
  simp only
  split_ifs <;> rfl

theorem readInput_density_limiter (E : Enums) (db : Database) (op : Operator) :
    (readInput E (some db) op).d_vc_density_convective_limiter =
      if db.keyExists "vc_density_convective_limiter"
        then E.limiterOfString (db.getString "vc_density_convective_limiter")
      else if db.keyExists "vc_convective_limiter"
        then E.limiterOfString (db.getString "vc_convective_limiter")
      else op.d_vc_density_convective_limiter := by
  unfold readInput
  simp only
  split_ifs <;> rfl

theorem lookupVelocityVariable_fields (op : Operator) (db : VariableDatabase) :
    ∃ i, (lookupVelocityVariable op db).1 =
      { op with d_U_var := some U_var_name, d_U_scratch_idx := i } := by
  unfold lookupVelocityVariable
  split
  · exact ⟨_, rfl⟩
  · exact ⟨_, rfl⟩

theorem lookupDensityVariable_fields (op : Operator) (db : VariableDatabase) :
    ∃ i j, (lookupDensityVariable op db).1 =
      { op with d_rho_interp_var := some rho_interp_name, d_rho_interp_scratch_idx := i,
                d_rho_interp_new_idx := j } := by
  unfold lookupDensityVariable
  split
  · exact ⟨_, _, rfl⟩
  · exact ⟨_, _, rfl⟩

theorem setupVelocityVariable_fields {b : Build} {op op' : Operator} {db db' : VariableDatabase}
    (h : setupVelocityVariable b op db = Except.ok (op', db')) :
    ∃ i, op' = { op with d_U_var := some U_var_name, d_U_scratch_idx := i } := by
  obtain ⟨i, hi⟩ := lookupVelocityVariable_fields op db
  have e := setupVelocityVariable_eq h
  have e1 : op' = (lookupVelocityVariable op db).1 := by rw [← e]
  exact ⟨i, e1.trans hi⟩

theorem setupDensityVariable_fields {b : Build} {op op' : Operator} {db db' : VariableDatabase}
    (h : setupDensityVariable b op db = Except.ok (op', db')) :
    ∃ i j, op' = { op with d_rho_interp_var := some rho_interp_name, d_rho_interp_scratch_idx := i,
                           d_rho_interp_new_idx := j } := by
  obtain ⟨i, j, hi⟩ := lookupDensityVariable_fields op db
  have e := setupDensityVariable_eq h
  have e1 : op' = (lookupDensityVariable op db).1 := by rw [← e]
  exact ⟨i, j, e1.trans hi⟩

/-- The options of a constructed operator are the ones read from the input
database, the differencing form is CONSERVATIVE and the time-stepping scheme
is a supported one. -/
theorem construct_ok_options {b : Build} {E : Enums} {name : String}
    {input_db : Option Database} {form : ConvectiveDifferencingType} {bc : List BcCoefPtr}
    {db db' : VariableDatabase} {op : Operator}
    (h : construct b E name input_db form bc db = Except.ok (op, db')) :
    form = ConvectiveDifferencingType.CONSERVATIVE ∧
    op.d_vc_velocity_convective_limiter =
      (readInput E input_db (memberInit b name form bc)).d_vc_velocity_convective_limiter ∧
    op.d_vc_density_convective_limiter =
      (readInput E input_db (memberInit b name form bc)).d_vc_density_convective_limiter ∧
    op.d_vc_density_time_stepping_type =
      (readInput E input_db (memberInit b name form bc)).d_vc_density_time_stepping_type ∧
    op.d_vc_density_time_stepping_type ≠
      VCDensityTimeSteppingType.UNKNOWN_VC_DENSITY_TIME_STEPPING_TYPE := by
  unfold construct at h
  simp only at h
  split at h
  · exact absurd h (by simp)
  · rename_i hform
    split at h
    · exact absurd h (by simp)
    · split at h
      · exact absurd h (by simp)
      · split at h
        · exact absurd h (by simp)
        · rename_i hts
          split at h
          · exact absurd h (by simp)
          · rename_i op1 db1 h1
            obtain ⟨i, hop1⟩ := setupVelocityVariable_fields h1
            obtain ⟨j, k, hop⟩ := setupDensityVariable_fields h
            subst hop1
            subst hop
            refine ⟨?_, rfl, rfl, rfl, ?_⟩
            · exact not_not.mp hform
            · intro hc
              exact hts hc

/-- C12 (counterexample): a configuration that gives CUI under
`vc_velocity_convective_limiter` and has no density key. The constructed
operator uses CUI for the velocity and UPWIND, the default, for the
density. -/
theorem velocity_key_leaves_density_limiter :
    Examples.velocityOnlyInput.keyExists "vc_velocity_convective_limiter" = true ∧
    Examples.velocityOnlyInput.keyExists "vc_density_convective_limiter" = false ∧
    ∃ op db,
      construct Examples.debug2d Examples.enums "op" (some Examples.velocityOnlyInput)
        ConvectiveDifferencingType.CONSERVATIVE [] { registrations := [] } = Except.ok (op, db) ∧
      op.d_vc_velocity_convective_limiter = VCConvectiveLimiter.VC_CUI ∧
      op.d_vc_density_convective_limiter = VCConvectiveLimiter.VC_UPWIND :=
  ⟨rfl, rfl, _, _, rfl, rfl, rfl⟩

/-- C12 (amended): in an operator constructed from a configuration that has the
general key `vc_convective_limiter` and neither field-specific key, both
fields use the limiter given under the general key. A limiter given under
`vc_velocity_convective_limiter` alone (no general key, no density key) is
used for the velocity, and the density keeps the default UPWIND. -/
theorem general_limiter_applies_to_both_fields (b : Build) (E : Enums) (name : String)
    (cfg : Database) (form : ConvectiveDifferencingType) (bc : List BcCoefPtr)
    (db db' : VariableDatabase) (op : Operator)
    (h : construct b E name (some cfg) form bc db = Except.ok (op, db')) :
    (cfg.keyExists "vc_convective_limiter" = true →
      cfg.keyExists "vc_velocity_convective_limiter" = false →
      cfg.keyExists "vc_density_convective_limiter" = false →
      op.d_vc_velocity_convective_limiter =
        E.limiterOfString (cfg.getString "vc_convective_limiter") ∧
      op.d_vc_density_convective_limiter =
        E.limiterOfString (cfg.getString "vc_convective_limiter")) ∧
    (cfg.keyExists "vc_velocity_convective_limiter" = true →
      cfg.keyExists "vc_convective_limiter" = false →
      cfg.keyExists "vc_density_convective_limiter" = false →
      op.d_vc_velocity_convective_limiter =
        E.limiterOfString (cfg.getString "vc_velocity_convective_limiter") ∧
      op.d_vc_density_convective_limiter = VCConvectiveLimiter.VC_UPWIND) := by
  obtain ⟨_, hv, hd, _, _⟩ := construct_ok_options h
  rw [readInput_velocity_limiter] at hv
  rw [readInput_density_limiter] at hd
  constructor
  · intro hg hvk hdk
    rw [hvk, hg] at hv
    rw [hdk, hg] at hd
    exact ⟨hv, hd⟩
  · intro hvk hg hdk
    rw [hvk] at hv
    rw [hdk, hg] at hd
    exact ⟨hv, hd⟩

theorem general_limiter_applies_to_both_fields_witness :
    ∃ op db,
      construct Examples.debug2d Examples.enums "op" (some Examples.cuiInput)
        ConvectiveDifferencingType.CONSERVATIVE [] { registrations := [] } = Except.ok (op, db) ∧
      op.d_vc_velocity_convective_limiter = VCConvectiveLimiter.VC_CUI ∧
      op.d_vc_density_convective_limiter = VCConvectiveLimiter.VC_CUI :=
  ⟨_, _, rfl,
    (general_limiter_applies_to_both_fields Examples.debug2d Examples.enums "op" Examples.cuiInput
      ConvectiveDifferencingType.CONSERVATIVE [] { registrations := [] } _ _ rfl).1 rfl rfl rfl⟩

/-- C13: in an operator constructed from a configuration that has the general
key `vc_convective_limiter`, each field uses the value of its own key
(`vc_velocity_convective_limiter`, `vc_density_convective_limiter`) when the
configuration has that key and the general value when it has not; the ghost
width members are the widths of these final limiters. -/
theorem field_specific_limiter_overrides_general (b : Build) (E : Enums) (name : String)
    (cfg : Database) (form : ConvectiveDifferencingType) (bc : List BcCoefPtr)
    (db db' : VariableDatabase) (op : Operator)
    (h : construct b E name (some cfg) form bc db = Except.ok (op, db'))
    (hg : cfg.keyExists "vc_convective_limiter" = true) :
    op.d_vc_velocity_convective_limiter =
      (if cfg.keyExists "vc_velocity_convective_limiter"
        then E.limiterOfString (cfg.getString "vc_velocity_convective_limiter")
        else E.limiterOfString (cfg.getString "vc_convective_limiter")) ∧
    op.d_vc_density_convective_limiter =
      (if cfg.keyExists "vc_density_convective_limiter"
        then E.limiterOfString (cfg.getString "vc_density_convective_limiter")
        else E.limiterOfString (cfg.getString "vc_convective_limiter")) ∧
    limiterGcw op.d_vc_velocity_convective_limiter = some op.d_velocity_limiter_gcw ∧
    limiterGcw op.d_vc_density_convective_limiter = some op.d_density_limiter_gcw := by
  obtain ⟨_, hv, hd, _, _⟩ := construct_ok_options h
  rw [readInput_velocity_limiter] at hv
  rw [readInput_density_limiter] at hd
  simp only [hg, if_true] at hv hd
  exact ⟨hv, hd, construct_ok_limiters h⟩

theorem field_specific_limiter_overrides_general_witness :
    ∃ op db,
      construct Examples.debug2d Examples.enums "op" (some Examples.cuiUpwindInput)
        ConvectiveDifferencingType.CONSERVATIVE [] { registrations := [] } = Except.ok (op, db) ∧
      op.d_vc_velocity_convective_limiter = VCConvectiveLimiter.VC_CUI ∧
      op.d_vc_density_convective_limiter = VCConvectiveLimiter.VC_UPWIND ∧
      limiterGcw VCConvectiveLimiter.VC_CUI = some op.d_velocity_limiter_gcw ∧
      limiterGcw VCConvectiveLimiter.VC_UPWIND = some op.d_density_limiter_gcw :=
  ⟨_, _, rfl,
    field_specific_limiter_overrides_general Examples.debug2d Examples.enums "op"
      Examples.cuiUpwindInput ConvectiveDifferencingType.CONSERVATIVE [] { registrations := [] }
      _ _ rfl rfl⟩

/-! ## The checks of the constructor -/

theorem limiterGcw_eq_none_iff (l : VCConvectiveLimiter) :
    limiterGcw l = none ↔
      ¬ (l = VCConvectiveLimiter.VC_UPWIND ∨ l = VCConvectiveLimiter.VC_CUI ∨
         l = VCConvectiveLimiter.VC_FBICS ∨ l = VCConvectiveLimiter.VC_MGAMMA) := by
  cases l <;> simp [limiterGcw]

theorem setupVelocityVariable_error {b : Build} {op : Operator} {db : VariableDatabase}
    {e : Failure} (h : setupVelocityVariable b op db = Except.error e) :
    b.NDEBUG = false ∧ ∃ s, e = Failure.assertionFailed s := by
  unfold setupVelocityVariable at h
  simp only at h
  split at h
  · rename_i hc
    injection h with h
    simp only [Bool.and_eq_true, Bool.not_eq_true'] at hc
    exact ⟨hc.1, _, h.symm⟩
  · exact absurd h (by simp)

theorem setupDensityVariable_error {b : Build} {op : Operator} {db : VariableDatabase}
    {e : Failure} (h : setupDensityVariable b op db = Except.error e) :
    b.NDEBUG = false ∧ ∃ s, e = Failure.assertionFailed s := by
  unfold setupDensityVariable at h
  simp only at h
  split at h
  · rename_i hc
    injection h with h
    simp only [Bool.and_eq_true, Bool.not_eq_true'] at hc
    exact ⟨hc.1, _, h.symm⟩
  · split at h
    · rename_i hc
      injection h with h
      simp only [Bool.and_eq_true, Bool.not_eq_true'] at hc
      exact ⟨hc.1, _, h.symm⟩
    · exact absurd h (by simp)

/-- The ways in which the constructor aborts, in the order of its checks. -/
theorem construct_error {b : Build} {E : Enums} {name : String}
    {input_db : Option Database} {form : ConvectiveDifferencingType} {bc : List BcCoefPtr}
    {db : VariableDatabase} {e : Failure}
    (h : construct b E name input_db form bc db = Except.error e) :
    (e = Failure.unsupportedDifferencingForm ∧ form ≠ ConvectiveDifferencingType.CONSERVATIVE) ∨
    (e = Failure.unsupportedVelocityLimiter ∧
      limiterGcw (readInput E input_db
        (memberInit b name form bc)).d_vc_velocity_convective_limiter = none) ∨
    (e = Failure.unsupportedDensityLimiter ∧
      limiterGcw (readInput E input_db
        (memberInit b name form bc)).d_vc_density_convective_limiter = none) ∨
    (e = Failure.unsupportedTimeStepping ∧
      (readInput E input_db (memberInit b name form bc)).d_vc_density_time_stepping_type =
        VCDensityTimeSteppingType.UNKNOWN_VC_DENSITY_TIME_STEPPING_TYPE) ∨
    (b.NDEBUG = false ∧ ∃ s, e = Failure.assertionFailed s) := by
  unfold construct at h
  simp only at h
  split at h
  · rename_i hform
    injection h with h
    exact Or.inl ⟨h.symm, hform⟩
  · split at h
    · rename_i hv
      injection h with h
      exact Or.inr (Or.inl ⟨h.symm, hv⟩)
    · split at h
      · rename_i hd
        injection h with h
        exact Or.inr (Or.inr (Or.inl ⟨h.symm, hd⟩))
      · split at h
        · rename_i hts
          injection h with h
          exact Or.inr (Or.inr (Or.inr (Or.inl ⟨h.symm, hts⟩)))
        · split at h
          · rename_i e1 h1
            injection h with h
            subst h
            exact Or.inr (Or.inr (Or.inr (Or.inr (setupVelocityVariable_error h1))))
          · exact Or.inr (Or.inr (Or.inr (Or.inr (setupDensityVariable_error h))))

/-- The constructor aborts at the first check that fails. -/
theorem construct_aborts (b : Build) (E : Enums) (name : String)
    (input_db : Option Database) (form : ConvectiveDifferencingType) (bc : List BcCoefPtr)
    (db : VariableDatabase) :
    (form ≠ ConvectiveDifferencingType.CONSERVATIVE →
      construct b E name input_db form bc db =
        Except.error Failure.unsupportedDifferencingForm) ∧
    (form = ConvectiveDifferencingType.CONSERVATIVE →
      (limiterGcw (readInput E input_db
        (memberInit b name form bc)).d_vc_velocity_convective_limiter = none →
        construct b E name input_db form bc db =
          Except.error Failure.unsupportedVelocityLimiter) ∧
      (limiterGcw (readInput E input_db
        (memberInit b name form bc)).d_vc_velocity_convective_limiter ≠ none →
       limiterGcw (readInput E input_db
        (memberInit b name form bc)).d_vc_density_convective_limiter = none →
        construct b E name input_db form bc db =
          Except.error Failure.unsupportedDensityLimiter) ∧
      (limiterGcw (readInput E input_db
        (memberInit b name form bc)).d_vc_velocity_convective_limiter ≠ none →
       limiterGcw (readInput E input_db
        (memberInit b name form bc)).d_vc_density_convective_limiter ≠ none →
       (readInput E input_db (memberInit b name form bc)).d_vc_density_time_stepping_type =
        VCDensityTimeSteppingType.UNKNOWN_VC_DENSITY_TIME_STEPPING_TYPE →
        construct b E name input_db form bc db =
          Except.error Failure.unsupportedTimeStepping)) := by
  refine ⟨fun hform => ?_, fun hform => ⟨fun hv => ?_, fun hv hd => ?_, fun hv hd hts => ?_⟩⟩
  · have hform1 : (memberInit b name form bc).d_difference_form ≠
        ConvectiveDifferencingType.CONSERVATIVE := hform
    unfold construct
    simp only
    rw [if_pos hform1]
  · unfold construct
    simp only
    rw [if_neg (show ¬ (memberInit b name form bc).d_difference_form ≠
        ConvectiveDifferencingType.CONSERVATIVE from not_not.mpr hform)]
    simp only [hv]
  · unfold construct
    simp only
    rw [if_neg (show ¬ (memberInit b name form bc).d_difference_form ≠
        ConvectiveDifferencingType.CONSERVATIVE from not_not.mpr hform)]
    cases hv1 : limiterGcw (readInput E input_db
        (memberInit b name form bc)).d_vc_velocity_convective_limiter with
    | none => exact absurd hv1 hv
    | some vg => simp only [hd]
  · unfold construct
    simp only
    rw [if_neg (show ¬ (memberInit b name form bc).d_difference_form ≠
        ConvectiveDifferencingType.CONSERVATIVE from not_not.mpr hform)]
    cases hv1 : limiterGcw (readInput E input_db
        (memberInit b name form bc)).d_vc_velocity_convective_limiter with
    | none => exact absurd hv1 hv
    | some vg =>
      cases hd1 : limiterGcw (readInput E input_db
          (memberInit b name form bc)).d_vc_density_convective_limiter with
      | none => exact absurd hd1 hd
      | some dg => simp only [hts]

/-! ## The ways in which `applyConvectiveOperator` aborts -/

theorem interpolateSideQuantity_error {K : Kernels} {U_adv : Nat → FaceData} {Q : SideData}
    {box : Box} {sides : Nat → Box} {l : VCConvectiveLimiter} {e : Failure}
    (h : interpolateSideQuantity K U_adv Q box sides l = Except.error e) :
    e = Failure.unsupportedLimiter ∧ l = VCConvectiveLimiter.UNKNOWN_VC_CONVECTIVE_LIMITER := by
  cases l <;> simp [interpolateSideQuantity] at h
  exact ⟨h.symm, rfl⟩

theorem foldlM_error {σ α : Type} (f : σ → α → Except Failure σ) (P : Failure → Prop)
    (hf : ∀ s a e, f s a = Except.error e → P e) :
    ∀ (l : List α) (s : σ) (e : Failure), l.foldlM f s = Except.error e → P e := by
  intro l
  induction l with
  | nil => intro s e h; simp [List.foldlM, pure, Except.pure] at h
  | cons a l ih =>
    intro s e h
    rw [List.foldlM_cons] at h
    cases hfa : f s a with
    | error e1 =>
      rw [hfa] at h
      have : e1 = e := by
        simp only [bind, Except.bind] at h
        injection h
      exact this ▸ hf s a e1 hfa
    | ok s1 =>
      rw [hfa] at h
      exact ih s1 e h

theorem computeConvectiveDerivative_error {b : Build} {K : Kernels} {op : Operator}
    {N : SideData} {U_adv R_half U_half : Nat → FaceData} {sides : Nat → Box} {dx : Nat → ℚ}
    {e : Failure}
    (h : computeConvectiveDerivative b K op N U_adv R_half U_half sides dx = Except.error e) :
    e = Failure.unsupportedDifferencingForm := by
  unfold computeConvectiveDerivative at h
  refine foldlM_error _ (fun e => e = Failure.unsupportedDifferencingForm) ?_ _ _ _ h
  intro s a e1 h1
  split at h1
  · exact absurd h1 (by simp)
  · injection h1 with h1
    exact h1.symm

theorem firstSweepPatch_error {b : Build} {K : Kernels} {op : Operator} {N_idx : Int}
    {ln : Int} {p : Nat} {patch : Patch} {pd : PatchData} {e : Failure} {es : List Event}
    (h : firstSweepPatch b K op N_idx ln p patch pd = Except.error (e, es)) :
    sweepFailure e := by
  unfold firstSweepPatch at h
  simp only at h
  split at h
  · rename_i e1 h1
    injection h with h
    injection h with h _
    exact Or.inl (h ▸ (interpolateSideQuantity_error h1).1)
  · split at h
    · split at h
      · rename_i e1 h1
        injection h with h
        injection h with h _
        exact Or.inl (h ▸ (interpolateSideQuantity_error h1).1)
      · split at h
        · rename_i e1 h1
          injection h with h
          injection h with h _
          exact Or.inr (h ▸ computeConvectiveDerivative_error h1)
        · exact absurd h (by simp)
    · exact absurd h (by simp)

theorem secondSweepPatch_error {b : Build} {K : Kernels} {op : Operator} {N_idx : Int}
    {ln : Int} {p : Nat} {patch : Patch} {pd : PatchData} {e : Failure} {es : List Event}
    (h : secondSweepPatch b K op N_idx ln p patch pd = Except.error (e, es)) :
    sweepFailure e := by
  unfold secondSweepPatch at h
  simp only at h
  split at h
  · rename_i e1 h1
    injection h with h
    injection h with h _
    exact Or.inl (h ▸ (interpolateSideQuantity_error h1).1)
  · split at h
    · rename_i e1 h1
      injection h with h
      injection h with h _
      exact Or.inl (h ▸ (interpolateSideQuantity_error h1).1)
    · split at h
      · rename_i e1 h1
        injection h with h
        injection h with h _
        exact Or.inr (h ▸ computeConvectiveDerivative_error h1)
      · exact absurd h (by simp)

theorem sweepPatches_error
    {body : Int → Nat → Patch → PatchData → Except (Failure × List Event) (PatchData × List Event)}
    {P : Failure → Prop}
    (hb : ∀ ln p patch pd e es, body ln p patch pd = Except.error (e, es) → P e) (ln : Int) :
    ∀ (l : List Patch) (p : Nat) (w : World) (e : Failure) (w' : World),
      sweepPatches body ln p l w = Except.error (e, w') → P e := by
  intro l
  induction l with
  | nil => intro p w e w' h; simp [sweepPatches] at h
  | cons patch rest ih =>
    intro p w e w' h
    unfold sweepPatches at h
    split at h
    · rename_i e1 es h1
      injection h with h
      injection h with h _
      exact h ▸ hb _ _ _ _ _ _ h1
    · exact ih _ _ _ _ h

theorem sweepLevels_error
    {body : Int → Nat → Patch → PatchData → Except (Failure × List Event) (PatchData × List Event)}
    {P : Failure → Prop}
    (hb : ∀ ln p patch pd e es, body ln p patch pd = Except.error (e, es) → P e)
    (hier : PatchHierarchy) :
    ∀ (lns : List Int) (w : World) (e : Failure) (w' : World),
      sweepLevels body hier lns w = Except.error (e, w') → P e := by
  intro lns
  induction lns with
  | nil => intro w e w' h; simp [sweepLevels] at h
  | cons ln lns ih =>
    intro w e w' h
    unfold sweepLevels at h
    split at h
    · rename_i e1 h1
      injection h with h
      subst h
      exact sweepPatches_error hb ln _ _ _ _ _ h1
    · exact ih _ _ _ h

theorem sweeps_error {b : Build} {K : Kernels} {H : HaloService} {op : Operator}
    {hier : PatchHierarchy} {N_idx : Int} {w : World} {e : Failure} {w' : World}
    (h : sweeps b K H op hier N_idx w = Except.error (e, w')) : sweepFailure e := by
  unfold sweeps at h
  simp only at h
  split at h
  · rename_i e1 h1
    injection h with h
    subst h
    exact sweepLevels_error (fun _ _ _ _ _ _ hb => firstSweepPatch_error hb) hier _ _ _ _ h1
  · split at h
    · split at h
      · rename_i e1 h1
        injection h with h
        subst h
        exact sweepLevels_error (fun _ _ _ _ _ _ hb => secondSweepPatch_error hb) hier _ _ _ _ h1
      · exact absurd h (by simp)
    · exact absurd h (by simp)

/-- An abort of `applyConvectiveOperator` is a failed precondition, a failed
assertion, a null pointer, or an unsupported limiter or differencing form met
inside a sweep. -/
theorem applyConvectiveOperator_error {b : Build} {K : Kernels} {H : HaloService}
    {op : Operator} {w : World} {U_idx N_idx : Int} {e : Failure} {w' : World}
    (h : applyConvectiveOperator b K H op w U_idx N_idx = Except.error (e, w')) :
    e = Failure.notInitialized ∨ e = Failure.densityNotSet ∨ e = Failure.timeStepNotSet ∨
    (∃ s, e = Failure.assertionFailed s) ∨ (∃ s, e = Failure.nullPointer s) ∨
    sweepFailure e := by
  unfold applyConvectiveOperator at h
  simp only at h
  repeat' split at h
  all_goals first
    | (cases h <;> simp)
    | (rename_i e1 h1; injection h with h; subst h
       exact Or.inr (Or.inr (Or.inr (Or.inr (Or.inr (sweeps_error h1))))))

/-! ## Configuration errors -/

/-- C14: the constructor aborts with the unsupported-differencing-form error
for every differencing form other than CONSERVATIVE, and never aborts with
that error when the form is CONSERVATIVE. -/
theorem construct_checks_differencing_form (b : Build) (E : Enums) (name : String)
    (input_db : Option Database) (form : ConvectiveDifferencingType) (bc : List BcCoefPtr)
    (db : VariableDatabase) :
    (form ≠ ConvectiveDifferencingType.CONSERVATIVE →
      construct b E name input_db form bc db =
        Except.error Failure.unsupportedDifferencingForm) ∧
    (form = ConvectiveDifferencingType.CONSERVATIVE →
      construct b E name input_db form bc db ≠
        Except.error Failure.unsupportedDifferencingForm) := by
  refine ⟨(construct_aborts b E name input_db form bc db).1, fun hform hc => ?_⟩
  rcases construct_error hc with ⟨_, h⟩ | ⟨h, _⟩ | ⟨h, _⟩ | ⟨h, _⟩ | ⟨_, s, h⟩
  · exact h hform
  all_goals cases h

/-- C16: when the time-stepping type the constructor read is neither
FORWARD_EULER nor SSPRK2 the construction aborts with one of the four
configuration errors; a constructed operator has one of the two schemes; and
`applyConvectiveOperator` never aborts with the time-stepping configuration
error. -/
theorem construct_checks_time_stepping (b : Build) (E : Enums) (name : String)
    (input_db : Option Database) (form : ConvectiveDifferencingType) (bc : List BcCoefPtr)
    (db : VariableDatabase) :
    (¬ ((readInput E input_db (memberInit b name form bc)).d_vc_density_time_stepping_type ∈
        [VCDensityTimeSteppingType.VC_FORWARD_EULER, VCDensityTimeSteppingType.VC_SSPRK2]) →
      ∃ e, construct b E name input_db form bc db = Except.error e ∧
        e ∈ [Failure.unsupportedDifferencingForm, Failure.unsupportedVelocityLimiter,
             Failure.unsupportedDensityLimiter, Failure.unsupportedTimeStepping]) ∧
    (∀ op db', construct b E name input_db form bc db = Except.ok (op, db') →
      (op.d_vc_density_time_stepping_type = VCDensityTimeSteppingType.VC_FORWARD_EULER ∨
       op.d_vc_density_time_stepping_type = VCDensityTimeSteppingType.VC_SSPRK2) ∧
      ∀ (K : Kernels) (H : HaloService) (w : World) (U_idx N_idx : Int) (w' : World),
        applyConvectiveOperator b K H op w U_idx N_idx ≠
          Except.error (Failure.unsupportedTimeStepping, w')) := by
  obtain ⟨hA0, hA⟩ := construct_aborts b E name input_db form bc db
  refine ⟨fun hts => ?_, fun op db' hok => ⟨?_, fun K H w U_idx N_idx w' hc => ?_⟩⟩
  · have hu : (readInput E input_db (memberInit b name form bc)).d_vc_density_time_stepping_type =
        VCDensityTimeSteppingType.UNKNOWN_VC_DENSITY_TIME_STEPPING_TYPE := by
      cases hx : (readInput E input_db (memberInit b name form bc)).d_vc_density_time_stepping_type
      all_goals first
        | rfl
        | (rw [hx] at hts; exact absurd (by simp) hts)
    by_cases hform : form = ConvectiveDifferencingType.CONSERVATIVE
    · obtain ⟨hA1, hA2, hA3⟩ := hA hform
      by_cases hv : limiterGcw (readInput E input_db
          (memberInit b name form bc)).d_vc_velocity_convective_limiter = none
      · exact ⟨_, hA1 hv, by simp⟩
      · by_cases hd : limiterGcw (readInput E input_db
            (memberInit b name form bc)).d_vc_density_convective_limiter = none
        · exact ⟨_, hA2 hv hd, by simp⟩
        · exact ⟨_, hA3 hv hd hu, by simp⟩
    · exact ⟨_, hA0 hform, by simp⟩
  · obtain ⟨_, _, _, _, hne⟩ := construct_ok_options hok
    cases hx : op.d_vc_density_time_stepping_type
    · exact Or.inl rfl
    · exact Or.inr rfl
    · exact absurd hx hne
  · rcases applyConvectiveOperator_error hc with h | h | h | ⟨s, h⟩ | ⟨s, h⟩ | h | h
    all_goals cases h

/-! ## Allocation and deallocation of the scratch data -/

theorem mem_levelNumbers (c f ln : Int) : ln ∈ levelNumbers c f ↔ c ≤ ln ∧ ln ≤ f := by
  unfold levelNumbers
  simp only [List.mem_map, List.mem_range]
  constructor
  · rintro ⟨k, hk, rfl⟩
    omega
  · rintro ⟨h1, h2⟩
    exact ⟨(ln - c).toNat, by omega, by omega⟩

theorem allocateIfNeeded_allocated (ln idx : Int) (w : World) (j l : Int) :
    (allocateIfNeeded ln idx w).allocated j l =
      if j = idx ∧ l = ln then true else w.allocated j l := by
  unfold allocateIfNeeded
  split
  · rfl
  · rename_i h
    simp only [Bool.not_eq_true', Bool.not_eq_false] at h
    split
    · rename_i hc
      rw [hc.1, hc.2, h]
    · rfl

theorem deallocateIfAllocated_allocated (ln idx : Int) (w : World) (j l : Int) :
    (deallocateIfAllocated ln idx w).allocated j l =
      if j = idx ∧ l = ln then false else w.allocated j l := by
  unfold deallocateIfAllocated
  split
  · rfl
  · rename_i h
    simp only [Bool.not_eq_true] at h
    split
    · rename_i hc
      rw [hc.1, hc.2, h]
    · rfl

theorem allocateIfNeeded_data (ln idx : Int) (w : World) :
    (allocateIfNeeded ln idx w).data = w.data := by
  unfold allocateIfNeeded
  split <;> rfl

theorem deallocateIfAllocated_data (ln idx : Int) (w : World) :
    (deallocateIfAllocated ln idx w).data = w.data := by
  unfold deallocateIfAllocated
  split <;> rfl

theorem allocateLevel_allocated (op : Operator) (w : World) (ln : Int) (j l : Int) :
    (allocateLevel op w ln).allocated j l =
      if l = ln ∧ ownsDescriptor op j then true else w.allocated j l := by
  unfold allocateLevel ownsDescriptor
  rw [allocateIfNeeded_allocated, allocateIfNeeded_allocated, allocateIfNeeded_allocated]
  by_cases h1 : j = op.d_rho_interp_new_idx <;> by_cases h2 : j = op.d_rho_interp_scratch_idx <;>
    by_cases h3 : j = op.d_U_scratch_idx <;> by_cases h4 : l = ln <;> simp [h1, h2, h3, h4]

theorem deallocateLevel_allocated (op : Operator) (w : World) (ln : Int) (j l : Int) :
    (deallocateLevel op w ln).allocated j l =
      if l = ln ∧ ownsDescriptor op j then false else w.allocated j l := by
  unfold deallocateLevel ownsDescriptor
  rw [deallocateIfAllocated_allocated, deallocateIfAllocated_allocated,
    deallocateIfAllocated_allocated]
  by_cases h1 : j = op.d_rho_interp_new_idx <;> by_cases h2 : j = op.d_rho_interp_scratch_idx <;>
    by_cases h3 : j = op.d_U_scratch_idx <;> by_cases h4 : l = ln <;> simp [h1, h2, h3, h4]

theorem allocateLevels_allocated (op : Operator) (lns : List Int) (w : World) (j l : Int) :
    (lns.foldl (allocateLevel op) w).allocated j l =
      if l ∈ lns ∧ ownsDescriptor op j then true else w.allocated j l := by
  induction lns generalizing w with
  | nil => simp
  | cons ln lns ih =>
    rw [List.foldl_cons, ih, allocateLevel_allocated]
    by_cases h1 : l ∈ lns <;> by_cases h2 : l = ln <;> by_cases h3 : ownsDescriptor op j <;>
      simp [h1, h2, h3]

theorem deallocateLevels_allocated (op : Operator) (lns : List Int) (w : World) (j l : Int) :
    (lns.foldl (deallocateLevel op) w).allocated j l =
      if l ∈ lns ∧ ownsDescriptor op j then false else w.allocated j l := by
  induction lns generalizing w with
  | nil => simp
  | cons ln lns ih =>
    rw [List.foldl_cons, ih, deallocateLevel_allocated]
    by_cases h1 : l ∈ lns <;> by_cases h2 : l = ln <;> by_cases h3 : ownsDescriptor op j <;>
      simp [h1, h2, h3]

theorem allocateLevels_data (op : Operator) (lns : List Int) (w : World) :
    (lns.foldl (allocateLevel op) w).data = w.data := by
  induction lns generalizing w with
  | nil => rfl
  | cons ln lns ih =>
    rw [List.foldl_cons, ih]
    unfold allocateLevel
    rw [allocateIfNeeded_data, allocateIfNeeded_data, allocateIfNeeded_data]

theorem deallocateLevels_data (op : Operator) (lns : List Int) (w : World) :
    (lns.foldl (deallocateLevel op) w).data = w.data := by
  induction lns generalizing w with
  | nil => rfl
  | cons ln lns ih =>
    rw [List.foldl_cons, ih]
    unfold deallocateLevel
    rw [deallocateIfAllocated_data, deallocateIfAllocated_data, deallocateIfAllocated_data]

/-! ## `deallocateOperatorState` and `initializeOperatorState` -/

theorem deallocateOperatorState_not_initialized (op : Operator) (w : World)
    (h : op.d_is_initialized = false) : deallocateOperatorState op w = Except.ok (op, w) := by
  unfold deallocateOperatorState
  simp [h]

theorem deallocateOperatorState_initialized (op : Operator) (w : World)
    (h : op.d_is_initialized = true)
    (hh : levelNumbers op.d_coarsest_ln op.d_finest_ln = [] ∨ op.d_hierarchy.isSome = true) :
    deallocateOperatorState op w =
      Except.ok (deallocatedOperator op,
        (levelNumbers op.d_coarsest_ln op.d_finest_ln).foldl (deallocateLevel op) w) := by
  have hc : (!(levelNumbers op.d_coarsest_ln op.d_finest_ln).isEmpty && op.d_hierarchy.isNone) =
      false := by
    rcases hh with hh | hh
    · rw [hh]; rfl
    · cases hx : op.d_hierarchy with
      | none => rw [hx] at hh; cases hh
      | some x => simp
  unfold deallocateOperatorState deallocatedOperator
  simp only [h, Bool.not_true, Bool.false_eq_true, if_false, hc]
  cases hx : op.d_hier_math_ops_external <;> rfl

theorem deallocatedOperator_not_initialized (op : Operator) :
    (deallocatedOperator op).d_is_initialized = false := rfl

theorem deallocateOperatorState_ok {op : Operator} {w : World} {r : Operator × World}
    (h : deallocateOperatorState op w = Except.ok r) :
    (op.d_is_initialized = false ∧ r = (op, w)) ∨
    (op.d_is_initialized = true ∧
      r = (deallocatedOperator op,
        (levelNumbers op.d_coarsest_ln op.d_finest_ln).foldl (deallocateLevel op) w)) := by
  cases hi : op.d_is_initialized with
  | false =>
    rw [deallocateOperatorState_not_initialized op w hi] at h
    injection h with h
    exact Or.inl ⟨rfl, h.symm⟩
  | true =>
    by_cases hh : levelNumbers op.d_coarsest_ln op.d_finest_ln = [] ∨ op.d_hierarchy.isSome = true
    · rw [deallocateOperatorState_initialized op w hi hh] at h
      injection h with h
      exact Or.inr ⟨rfl, h.symm⟩
    · exfalso
      simp only [not_or] at hh
      unfold deallocateOperatorState at h
      have hne : (levelNumbers op.d_coarsest_ln op.d_finest_ln).isEmpty = false := by
        cases hl : levelNumbers op.d_coarsest_ln op.d_finest_ln with
        | nil => exact absurd hl hh.1
        | cons a l => rfl
      have hnone : op.d_hierarchy.isNone = true := by
        cases hx : op.d_hierarchy with
        | none => rfl
        | some x => rw [hx] at hh; exact absurd rfl hh.2
      simp [hi, hne, hnone] at h

theorem setupOperatorState_of_checks (b : Build) (op : Operator) (w : World)
    (input output : SAMRAIVectorReal) (h : initializeChecks b op input output) :
    setupOperatorState b op w input output =
      Except.ok (initializedOperator op input,
        (levelNumbers input.getCoarsestLevelNumber input.getFinestLevelNumber).foldl
          (allocateLevel op) w) := by
  unfold initializeChecks at h
  unfold setupOperatorState initializedOperator
  simp only
  cases hb : b.NDEBUG with
  | true =>
    simp only [Bool.not_true, Bool.false_and, Bool.false_eq_true, if_false]
    cases hx : op.d_hier_math_ops_external <;> simp only [Bool.not_true, Bool.not_false,
      Bool.false_eq_true, if_false, if_true] <;> rfl
  | false =>
    obtain ⟨h1, h2, h3, h4⟩ := h hb
    simp only [h1, h2, h3, ne_eq, not_true_eq_false, decide_False, Bool.and_false,
      Bool.false_eq_true, if_false, Bool.not_false, Bool.true_and]
    cases hx : op.d_hier_math_ops_external with
    | false => simp only [Bool.not_false, if_true, Bool.false_eq_true, if_false]; rfl
    | true =>
      have h5 := h4 hx
      cases hm : op.d_hier_math_ops with
      | none => rw [hm] at h5; cases h5
      | some m => simp only [Bool.not_true, Bool.false_eq_true, if_false, Option.isNone_some,
          if_true]; rfl

theorem setupOperatorState_checks {b : Build} {op : Operator} {w : World}
    {input output : SAMRAIVectorReal} {r : Operator × World}
    (h : setupOperatorState b op w input output = Except.ok r) :
    initializeChecks b op input output := by
  intro hb
  unfold setupOperatorState at h
  simp only [hb, Bool.not_false, Bool.true_and] at h
  split at h
  · cases h
  · rename_i h1
    split at h
    · cases h
    · rename_i h2
      split at h
      · cases h
      · rename_i h3
        simp only [ne_eq, decide_not, Bool.not_eq_true', decide_eq_false_iff_not,
          not_not] at h1 h2 h3
        refine ⟨h1, h2, h3, fun hx => ?_⟩
        simp only [hx, Bool.not_true, Bool.false_eq_true, if_false] at h
        split at h
        · cases h
        · rename_i h4
          cases hm : op.d_hier_math_ops with
          | none => rw [hm] at h4; exact absurd rfl h4
          | some m => rfl

theorem setupOperatorState_ok_iff (b : Build) (op : Operator) (w : World)
    (input output : SAMRAIVectorReal) (r : Operator × World) :
    setupOperatorState b op w input output = Except.ok r ↔
      initializeChecks b op input output ∧
      r = (initializedOperator op input,
        (levelNumbers input.getCoarsestLevelNumber input.getFinestLevelNumber).foldl
          (allocateLevel op) w) := by
  constructor
  · intro h
    have hc := setupOperatorState_checks h
    rw [setupOperatorState_of_checks b op w input output hc] at h
    injection h with h
    exact ⟨hc, h.symm⟩
  · rintro ⟨hc, rfl⟩
    exact setupOperatorState_of_checks b op w input output hc

/-- C17: for every operator state and world, `deallocateOperatorState` twice
in a row is `deallocateOperatorState` once (same operator, same allocation
flags, same calls); on an operator that is not initialized the call returns
the operator and the world unchanged, so it deallocates nothing; and when an
initialized operator holds its hierarchy the call returns, leaving an
operator on which the next call changes nothing. -/
theorem deallocateOperatorState_idempotent (op : Operator) (w : World) :
    ((deallocateOperatorState op w).bind (fun s => deallocateOperatorState s.1 s.2) =
      deallocateOperatorState op w) ∧
    (op.d_is_initialized = false → deallocateOperatorState op w = Except.ok (op, w)) ∧
    ((op.d_is_initialized = true → op.d_hierarchy.isSome = true) →
      ∃ op1 w1, deallocateOperatorState op w = Except.ok (op1, w1) ∧
        op1.d_is_initialized = false ∧
        deallocateOperatorState op1 w1 = Except.ok (op1, w1)) := by
  refine ⟨?_, deallocateOperatorState_not_initialized op w, fun hh => ?_⟩
  · cases h : deallocateOperatorState op w with
    | error e => rfl
    | ok r =>
      show deallocateOperatorState r.1 r.2 = Except.ok r
      rcases deallocateOperatorState_ok h with ⟨hi, rfl⟩ | ⟨_, rfl⟩
      · exact deallocateOperatorState_not_initialized op w hi
      · exact deallocateOperatorState_not_initialized _ _ rfl
  · cases hi : op.d_is_initialized with
    | false =>
      exact ⟨op, w, deallocateOperatorState_not_initialized op w hi, hi,
        deallocateOperatorState_not_initialized op w hi⟩
    | true =>
      exact ⟨_, _, deallocateOperatorState_initialized op w hi (Or.inr (hh hi)), rfl,
        deallocateOperatorState_not_initialized _ _ rfl⟩

/-- C18: when `initializeOperatorState(in, out)` returns, the operator is
initialized, it records the level range of `in`, its three descriptors are
the ones it had, and the velocity scratch, density scratch and new density
descriptors are allocated on every level from the coarsest to the finest
level of `in`. -/
theorem initializeOperatorState_allocates (b : Build) (op : Operator) (w : World)
    (input output : SAMRAIVectorReal) (op' : Operator) (w' : World)
    (h : initializeOperatorState b op w input output = Except.ok (op', w')) :
    op'.d_is_initialized = true ∧
    op'.d_coarsest_ln = input.getCoarsestLevelNumber ∧
    op'.d_finest_ln = input.getFinestLevelNumber ∧
    op'.d_U_scratch_idx = op.d_U_scratch_idx ∧
    op'.d_rho_interp_scratch_idx = op.d_rho_interp_scratch_idx ∧
    op'.d_rho_interp_new_idx = op.d_rho_interp_new_idx ∧
    ∀ ln, input.getCoarsestLevelNumber ≤ ln → ln ≤ input.getFinestLevelNumber →
      w'.allocated op'.d_U_scratch_idx ln = true ∧
      w'.allocated op'.d_rho_interp_scratch_idx ln = true ∧
      w'.allocated op'.d_rho_interp_new_idx ln = true := by
  obtain ⟨op0, w0, h0, hidx⟩ : ∃ op0 w0, setupOperatorState b op0 w0 input output =
      Except.ok (op', w') ∧ op0.d_U_scratch_idx = op.d_U_scratch_idx ∧
      op0.d_rho_interp_scratch_idx = op.d_rho_interp_scratch_idx ∧
      op0.d_rho_interp_new_idx = op.d_rho_interp_new_idx := by
    unfold initializeOperatorState at h
    split at h
    · split at h
      · cases h
      · rename_i opd wd hd
        rcases deallocateOperatorState_ok hd with ⟨_, hr⟩ | ⟨_, hr⟩
        · injection hr with hr1 hr2
          subst hr1
          exact ⟨_, _, h, rfl, rfl, rfl⟩
        · injection hr with hr1 hr2
          subst hr1
          exact ⟨_, _, h, rfl, rfl, rfl⟩
    · exact ⟨_, _, h, rfl, rfl, rfl⟩
  obtain ⟨_, hr⟩ := (setupOperatorState_ok_iff b op0 w0 input output _).mp h0
  injection hr with hop hw
  subst hop
  subst hw
  refine ⟨rfl, rfl, rfl, hidx.1, hidx.2.1, hidx.2.2, fun ln h1 h2 => ?_⟩
  have hm := (mem_levelNumbers _ _ ln).mpr ⟨h1, h2⟩
  simp only [allocateLevels_allocated]
  refine ⟨?_, ?_, ?_⟩
  · rw [if_pos ⟨hm, Or.inl rfl⟩]
  · rw [if_pos ⟨hm, Or.inr (Or.inl rfl)⟩]
  · rw [if_pos ⟨hm, Or.inr (Or.inr rfl)⟩]

theorem initializeOperatorState_allocates_witness :
    ∃ op' w', initializeOperatorState Examples.debug2d Examples.cuiUpwindOperator
        Examples.blankWorld Examples.vector0 Examples.vector0 = Except.ok (op', w') ∧
      op'.d_is_initialized = true ∧
      w'.allocated 0 0 = true ∧ w'.allocated 1 0 = true ∧ w'.allocated 2 0 = true :=
  ⟨_, _, rfl,
    (initializeOperatorState_allocates Examples.debug2d Examples.cuiUpwindOperator
      Examples.blankWorld Examples.vector0 Examples.vector0 _ _ rfl).1,
    (initializeOperatorState_allocates Examples.debug2d Examples.cuiUpwindOperator
      Examples.blankWorld Examples.vector0 Examples.vector0 _ _ rfl).2.2.2.2.2.2 0
        (by decide) (by decide)⟩

/-- C19: on an initialized operator that holds its hierarchy
`deallocateOperatorState` returns; afterwards the operator is not
initialized and none of the velocity scratch, density scratch and new density
descriptors is allocated on any level of the recorded range. -/
theorem deallocateOperatorState_releases (op : Operator) (w : World) (hier : PatchHierarchy)
    (hinit : op.d_is_initialized = true) (hh : op.d_hierarchy = some hier) :
    ∃ op' w', deallocateOperatorState op w = Except.ok (op', w') ∧
      op'.d_is_initialized = false ∧
      ∀ ln, op.d_coarsest_ln ≤ ln → ln ≤ op.d_finest_ln →
        w'.allocated op.d_U_scratch_idx ln = false ∧
        w'.allocated op.d_rho_interp_scratch_idx ln = false ∧
        w'.allocated op.d_rho_interp_new_idx ln = false := by
  refine ⟨_, _, deallocateOperatorState_initialized op w hinit (Or.inr (by rw [hh]; rfl)), rfl,
    fun ln h1 h2 => ?_⟩
  have hm := (mem_levelNumbers _ _ ln).mpr ⟨h1, h2⟩
  simp only [deallocateLevels_allocated]
  refine ⟨?_, ?_, ?_⟩
  · rw [if_pos ⟨hm, Or.inl rfl⟩]
  · rw [if_pos ⟨hm, Or.inr (Or.inl rfl)⟩]
  · rw [if_pos ⟨hm, Or.inr (Or.inr rfl)⟩]

theorem deallocateOperatorState_releases_witness :
    (Examples.readyOperator VCDensityTimeSteppingType.VC_FORWARD_EULER 0).d_is_initialized = true ∧
    Examples.world.allocated 0 0 = true ∧
    ∃ op' w', deallocateOperatorState
        (Examples.readyOperator VCDensityTimeSteppingType.VC_FORWARD_EULER 0) Examples.world =
          Except.ok (op', w') ∧
      op'.d_is_initialized = false ∧
      w'.allocated 0 0 = false ∧ w'.allocated 1 0 = false ∧ w'.allocated 2 0 = false :=
  ⟨rfl, rfl,
    match deallocateOperatorState_releases
      (Examples.readyOperator VCDensityTimeSteppingType.VC_FORWARD_EULER 0) Examples.world
      Examples.hierarchy rfl rfl with
    | ⟨op', w', h1, h2, h3⟩ => ⟨op', w', h1, h2, h3 0 (by decide) (by decide)⟩⟩

theorem initializeOperatorState_setup {b : Build} {op : Operator} {w : World}
    {input output : SAMRAIVectorReal} {op' : Operator} {w' : World}
    (h : initializeOperatorState b op w input output = Except.ok (op', w')) :
    ∃ op0 w0, setupOperatorState b op0 w0 input output = Except.ok (op', w') ∧
      ((op.d_is_initialized = false ∧ op0 = op ∧ w0 = w) ∨
       (op.d_is_initialized = true ∧ op0 = deallocatedOperator op ∧
        w0 = (levelNumbers op.d_coarsest_ln op.d_finest_ln).foldl (deallocateLevel op) w)) := by
  unfold initializeOperatorState at h
  split at h
  · rename_i hi
    split at h
    · cases h
    · rename_i opd wd hd
      rcases deallocateOperatorState_ok hd with ⟨hn, _⟩ | ⟨_, hr⟩
      · rw [hi] at hn; cases hn
      · injection hr with hr1 hr2
        exact ⟨_, _, h, Or.inr ⟨hi, hr1, hr2⟩⟩
  · rename_i hi
    exact ⟨_, _, h, Or.inl ⟨by simpa using hi, rfl, rfl⟩⟩

theorem initializedOperator_again (op : Operator) (input : SAMRAIVectorReal) :
    initializedOperator (deallocatedOperator (initializedOperator op input)) input =
      initializedOperator op input := by
  cases hx : op.d_hier_math_ops_external <;>
    simp [initializedOperator, deallocatedOperator, velocityTransaction, hx]

theorem initializeChecks_again {b : Build} {op : Operator} {input output : SAMRAIVectorReal}
    (h : initializeChecks b op input output) :
    initializeChecks b (deallocatedOperator (initializedOperator op input)) input output := by
  intro hb
  obtain ⟨h1, h2, h3, h4⟩ := h hb
  refine ⟨h1, h2, h3, fun hx => ?_⟩
  have hx1 : op.d_hier_math_ops_external = true := hx
  have := h4 hx1
  simp [initializedOperator, deallocatedOperator, hx1, this]

/-- C20: on an initialized operator `initializeOperatorState(in, out)` is
`deallocateOperatorState()` followed by `initializeOperatorState(in, out)`;
and when a call `initializeOperatorState(in, out)` has returned, a second
call with the same arguments returns with the same operator, the same
allocation flags and the same patch data. -/
theorem initializeOperatorState_deallocates_first (b : Build) (op : Operator) (w : World)
    (input output : SAMRAIVectorReal) :
    (op.d_is_initialized = true →
      initializeOperatorState b op w input output =
        (deallocateOperatorState op w).bind
          (fun s => initializeOperatorState b s.1 s.2 input output)) ∧
    (∀ op1 w1, initializeOperatorState b op w input output = Except.ok (op1, w1) →
      ∃ w2, initializeOperatorState b op1 w1 input output = Except.ok (op1, w2) ∧
        w2.allocated = w1.allocated ∧ w2.data = w1.data) := by
  constructor
  · intro hi
    unfold initializeOperatorState
    rw [if_pos hi]
    cases h : deallocateOperatorState op w with
    | error e => rfl
    | ok r =>
      rcases deallocateOperatorState_ok h with ⟨hn, _⟩ | ⟨_, hr⟩
      · rw [hi] at hn; cases hn
      · subst hr
        show setupOperatorState b _ _ input output = _
        simp only [Except.bind, deallocatedOperator_not_initialized, Bool.false_eq_true, if_false]
  · intro op1 w1 h
    obtain ⟨op0, w0, h0, _⟩ := initializeOperatorState_setup h
    obtain ⟨hc, hr⟩ := (setupOperatorState_ok_iff b op0 w0 input output _).mp h0
    injection hr with hop hw
    subst hop
    refine ⟨(levelNumbers input.getCoarsestLevelNumber input.getFinestLevelNumber).foldl
      (allocateLevel (deallocatedOperator (initializedOperator op0 input)))
      ((levelNumbers input.getCoarsestLevelNumber input.getFinestLevelNumber).foldl
        (deallocateLevel (initializedOperator op0 input)) w1), ?_, ?_, ?_⟩
    · unfold initializeOperatorState
      rw [if_pos (show (initializedOperator op0 input).d_is_initialized = true from rfl)]
      rw [deallocateOperatorState_initialized (initializedOperator op0 input) w1 rfl
        (Or.inr (show (initializedOperator op0 input).d_hierarchy.isSome = true from rfl))]
      simp only
      rw [setupOperatorState_of_checks b _ _ input output (initializeChecks_again hc),
        initializedOperator_again]
      rfl
    · funext j l
      simp only [allocateLevels_allocated, deallocateLevels_allocated]
      subst hw
      simp only [allocateLevels_allocated]
      have e1 : ownsDescriptor (deallocatedOperator (initializedOperator op0 input)) j ↔
          ownsDescriptor op0 j := Iff.rfl
      have e2 : ownsDescriptor (initializedOperator op0 input) j ↔ ownsDescriptor op0 j := Iff.rfl
      by_cases hm : l ∈ levelNumbers input.getCoarsestLevelNumber input.getFinestLevelNumber <;>
        by_cases ho : ownsDescriptor op0 j <;> simp [hm, ho, e1, e2]
    · rw [allocateLevels_data, deallocateLevels_data]

/-! ## Upwind transport under forward Euler -/

theorem Index.shift_back (i : Index) (d : Nat) :
    Index.shift (Index.shift i d 1) d (-1) = i := by
  funext e
  by_cases h : e = d <;> simp [Index.shift, h]

/-- A convex combination of two numbers lies between them. -/
theorem convex_combination_between (a c x : ℚ) (h0 : 0 ≤ x) (h1 : x ≤ 1) :
    min a c ≤ (1 - x) * a + x * c ∧ (1 - x) * a + x * c ≤ max a c := by
  rcases le_total a c with h | h
  · rw [min_eq_left h, max_eq_right h]
    constructor <;> nlinarith
  · rw [min_eq_right h, max_eq_left h]
    constructor <;> nlinarith

/-- The flux divergence of the upwind reconstruction when the advective
velocity is the positive constant `u` across the faces of direction `d0` and
zero across the others. -/
theorem fluxDivergence_upwind_constant (NDIM : Nat) (dx : Nat → ℚ) (at_rest : ℚ → ℚ → ℚ)
    (Q : SideData) (U_adv : Nat → FaceData) (axis d0 : Nat) (u : ℚ) (hd0 : d0 < NDIM)
    (hu : 0 < u) (hU : ∀ j, U_adv axis d0 j = u)
    (h0 : ∀ d, d < NDIM → d ≠ d0 → ∀ j, U_adv axis d j = 0) (i : Index) :
    fluxDivergence NDIM dx (U_adv axis) (vc_navier_stokes_upwind_quantity at_rest Q U_adv axis) i =
      (Q axis i * u - Q axis (Index.shift i d0 (-1)) * u) / dx d0 := by
  unfold fluxDivergence
  rw [Finset.sum_eq_single d0]
  · simp only [vc_navier_stokes_upwind_quantity, hU, hu, if_true, Index.shift_back]
  · intro d hd hne
    rw [h0 d (Finset.mem_range.mp hd) hne, h0 d (Finset.mem_range.mp hd) hne]
    simp
  · intro hn
    exact absurd (Finset.mem_range.mpr hd0) hn

/-- C11: with the UPWIND density limiter under FORWARD_EULER, on a patch where
the advective velocity is the positive constant `u` across the faces of one
direction and zero across the others, and `u·dt/dx ≤ 1` for the spacing `dx`
of that direction, the call completes and on every face of the side box the
new density is `(1 − u·dt/dx)·old(i) + (u·dt/dx)·old(i − e)`, where `old` is
the ghost-filled scratch copy of the supplied density; it lies between the
minimum and the maximum of the old value at the face and the old value at its
upstream neighbour. The old value at the face, and at the neighbour when it is
a face of the patch, is the supplied density. -/
theorem upwind_forward_euler_no_new_extrema (b : Build) (K : Kernels) (H : HaloService)
    (op : Operator) (w : World) (U_idx N_idx : Int) (plan : HierarchyGhostCellInterpolation)
    (hier : PatchHierarchy) (m : Nat)
    (hpre : preconditions op U_idx)
    (hplan : op.d_hier_bdry_fill = some plan) (hhier : op.d_hierarchy = some hier)
    (hmath : op.d_hier_math_ops = some m)
    (hform : op.d_difference_form = ConvectiveDifferencingType.CONSERVATIVE)
    (hvl : op.d_vc_velocity_convective_limiter ≠ VCConvectiveLimiter.UNKNOWN_VC_CONVECTIVE_LIMITER)
    (hup : op.d_vc_density_convective_limiter = VCConvectiveLimiter.VC_UPWIND)
    (hts : op.d_vc_density_time_stepping_type = VCDensityTimeSteppingType.VC_FORWARD_EULER)
    (hN : N_idx ≠ op.d_rho_interp_scratch_idx)
    (hU : op.d_U_scratch_idx ≠ op.d_rho_interp_current_idx) :
    ∃ op' w', applyConvectiveOperator b K H op w U_idx N_idx = Except.ok (op', w') ∧
      ∀ ln, ln ∈ levelNumbers op.d_coarsest_ln op.d_finest_ln → ∀ p patch,
        (hier.getPatchLevel ln).get? p = some patch →
        ∀ axis, axis < b.NDIM → ∀ (d0 : Nat) (u : ℚ), d0 < b.NDIM → 0 < u →
          (∀ j, advectionVelocity K op patch
            ((afterFills b H op plan hier U_idx w).patchData ln p) axis d0 j = u) →
          (∀ d, d < b.NDIM → d ≠ d0 → ∀ j, advectionVelocity K op patch
            ((afterFills b H op plan hier U_idx w).patchData ln p) axis d j = 0) →
          0 < patch.dx d0 → u * op.d_dt / patch.dx d0 ≤ 1 →
          ∀ i, (toSideBox patch.box axis).contains b.NDIM i →
            (afterFills b H op plan hier U_idx w).data op.d_rho_interp_scratch_idx ln p axis i =
              w.data op.d_rho_interp_current_idx ln p axis i ∧
            ((toSideBox patch.box axis).contains b.NDIM (Index.shift i d0 (-1)) →
              (afterFills b H op plan hier U_idx w).data op.d_rho_interp_scratch_idx ln p axis
                (Index.shift i d0 (-1)) =
                  w.data op.d_rho_interp_current_idx ln p axis (Index.shift i d0 (-1))) ∧
            w'.data op.d_rho_interp_new_idx ln p axis i =
              (1 - u * op.d_dt / patch.dx d0) *
                (afterFills b H op plan hier U_idx w).data op.d_rho_interp_scratch_idx ln p axis i +
              u * op.d_dt / patch.dx d0 *
                (afterFills b H op plan hier U_idx w).data op.d_rho_interp_scratch_idx ln p axis
                  (Index.shift i d0 (-1)) ∧
            min ((afterFills b H op plan hier U_idx w).data op.d_rho_interp_scratch_idx ln p axis i)
                ((afterFills b H op plan hier U_idx w).data op.d_rho_interp_scratch_idx ln p axis
                  (Index.shift i d0 (-1))) ≤ w'.data op.d_rho_interp_new_idx ln p axis i ∧
            w'.data op.d_rho_interp_new_idx ln p axis i ≤
              max ((afterFills b H op plan hier U_idx w).data op.d_rho_interp_scratch_idx ln p axis i)
                ((afterFills b H op plan hier U_idx w).data op.d_rho_interp_scratch_idx ln p axis
                  (Index.shift i d0 (-1))) := by
  have hdl : op.d_vc_density_convective_limiter ≠
      VCConvectiveLimiter.UNKNOWN_VC_CONVECTIVE_LIMITER := by rw [hup]; decide
  obtain ⟨op', w', happly, hpatch⟩ := applyConvectiveOperator_forward_euler b K H op w U_idx
    N_idx plan hier m (Or.inr hpre) hplan hhier hmath hform hvl hdl hts hN
  refine ⟨op', w', happly, ?_⟩
  intro ln hln p patch hp axis ha d0 u hd0 hu hUc hU0 hdx hcfl i hi
  obtain ⟨rho_half, hR, hval⟩ := hpatch ln hln p patch hp
  have hR1 : rho_half = vc_navier_stokes_upwind_quantity K.upwind_at_rest
      ((afterFills b H op plan hier U_idx w).patchData ln p op.d_rho_interp_scratch_idx)
      (advectionVelocity K op patch ((afterFills b H op plan hier U_idx w).patchData ln p)) := by
    unfold faceDensity at hR
    rw [hup] at hR
    injection hR with hR
    exact hR.symm
  have hdt : 0 ≤ op.d_dt := hpre.2.2.2.2.2
  have hc0 : 0 ≤ u * op.d_dt / patch.dx d0 :=
    div_nonneg (mul_nonneg (le_of_lt hu) hdt) (le_of_lt hdx)
  have hnew : w'.data op.d_rho_interp_new_idx ln p axis i =
      (1 - u * op.d_dt / patch.dx d0) *
        (afterFills b H op plan hier U_idx w).data op.d_rho_interp_scratch_idx ln p axis i +
      u * op.d_dt / patch.dx d0 *
        (afterFills b H op plan hier U_idx w).data op.d_rho_interp_scratch_idx ln p axis
          (Index.shift i d0 (-1)) := by
    rw [hval axis ha i hi, hR1, fluxDivergence_upwind_constant b.NDIM patch.dx K.upwind_at_rest _ _
      axis d0 u hd0 hu hUc hU0 i]
    simp only [World.patchData]
    field_simp
    ring
  refine ⟨afterFills_scratch b H op plan hier U_idx w hU ln p patch hp axis i hi,
    fun hi' => afterFills_scratch b H op plan hier U_idx w hU ln p patch hp axis _ hi',
    hnew, ?_⟩
  rw [hnew]
  exact convex_combination_between _ _ _ hc0 hcfl

/-- Witness for C11: the one-patch example with unit velocity, unit spacing
and `dt = 1/2` (CFL number 1/2), at the face of index 1, whose upstream
neighbour is the face of index 0 carrying the density 1. -/
theorem upwind_forward_euler_no_new_extrema_witness :
    ∃ op' w', applyConvectiveOperator Examples.release1d Examples.kernels Examples.halo
        (Examples.readyOperator VCDensityTimeSteppingType.VC_FORWARD_EULER (1 / 2))
        Examples.world 3 4 = Except.ok (op', w') ∧
      (afterFills Examples.release1d Examples.halo
        (Examples.readyOperator VCDensityTimeSteppingType.VC_FORWARD_EULER (1 / 2))
        Examples.plan0 Examples.hierarchy 3 Examples.world).data 1 0 0 0 (fun _ => 1) = 0 ∧
      (afterFills Examples.release1d Examples.halo
        (Examples.readyOperator VCDensityTimeSteppingType.VC_FORWARD_EULER (1 / 2))
        Examples.plan0 Examples.hierarchy 3 Examples.world).data 1 0 0 0
          (Index.shift (fun _ => 1) 0 (-1)) = 1 ∧
      w'.data 2 0 0 0 (fun _ => 1) = 1 / 2 := by
  obtain ⟨op', w', happly, hpatch⟩ := upwind_forward_euler_no_new_extrema Examples.release1d
    Examples.kernels Examples.halo
    (Examples.readyOperator VCDensityTimeSteppingType.VC_FORWARD_EULER (1 / 2)) Examples.world 3 4
    Examples.plan0 Examples.hierarchy 0
    (readyOperator_preconditions _ (1 / 2) (by norm_num)) rfl rfl rfl rfl (by decide)
    rfl rfl (show (4 : Int) ≠ 1 by decide) (show (0 : Int) ≠ 5 by decide)
  have hdx : Examples.patch0.dx 0 = 1 := rfl
  have hdt : (Examples.readyOperator VCDensityTimeSteppingType.VC_FORWARD_EULER (1 / 2)).d_dt =
      1 / 2 := rfl
  obtain ⟨_, _, hnew, _, _⟩ := hpatch 0 (by decide) 0 Examples.patch0 rfl 0 (by decide) 0 1
    (by decide) (by norm_num) (fun _ => rfl)
    (fun d hd hne => absurd (Nat.lt_one_iff.mp hd) hne)
    (by rw [hdx]; norm_num) (by rw [hdx, hdt]; norm_num) (fun _ => 1) (by decide)
  have h1 := example_afterFills_scratch VCDensityTimeSteppingType.VC_FORWARD_EULER (1 / 2)
    (fun _ => 1)
  have h0 := example_afterFills_scratch VCDensityTimeSteppingType.VC_FORWARD_EULER (1 / 2)
    (Index.shift (fun _ => 1) 0 (-1))
  simp only [Index.shift, if_true, one_ne_zero, if_false] at h0 h1
  norm_num at h0
  refine ⟨op', w', happly, h1, h0, ?_⟩
  have g : w'.data 2 0 0 0 (fun _ => 1) =
      (1 - 1 * (1 / 2) / 1) *
        (afterFills Examples.release1d Examples.halo
          (Examples.readyOperator VCDensityTimeSteppingType.VC_FORWARD_EULER (1 / 2))
          Examples.plan0 Examples.hierarchy 3 Examples.world).data 1 0 0 0 (fun _ => 1) +
      1 * (1 / 2) / 1 *
        (afterFills Examples.release1d Examples.halo
          (Examples.readyOperator VCDensityTimeSteppingType.VC_FORWARD_EULER (1 / 2))
          Examples.plan0 Examples.hierarchy 3 Examples.world).data 1 0 0 0
            (Index.shift (fun _ => 1) 0 (-1)) := hnew
  rw [g, h1, h0]
  norm_num

/-! ## The calls and the frame of the two sweeps -/

theorem firstSweepPatch_events {b : Build} {K : Kernels} {op : Operator} {N_idx : Int}
    {ln : Int} {p : Nat} {patch : Patch} {pd : PatchData} {r : PatchData × List Event}
    (h : firstSweepPatch b K op N_idx ln p patch pd = Except.ok r) :
    r.2 = firstSweepEvents b op N_idx ln p := by
  unfold firstSweepPatch at h
  simp only at h
  split at h
  · cases h
  · split at h
    · rename_i hts
      split at h
      · cases h
      · split at h
        · cases h
        · injection h with h
          rw [← h]
          simp [firstSweepEvents, hts]
    · rename_i hts
      injection h with h
      rw [← h]
      simp [firstSweepEvents, hts]

theorem secondSweepPatch_events {b : Build} {K : Kernels} {op : Operator} {N_idx : Int}
    {ln : Int} {p : Nat} {patch : Patch} {pd : PatchData} {r : PatchData × List Event}
    (h : secondSweepPatch b K op N_idx ln p patch pd = Except.ok r) :
    r.2 = secondSweepEvents b op N_idx ln p := by
  unfold secondSweepPatch at h
  simp only at h
  split at h
  · cases h
  · split at h
    · cases h
    · split at h
      · cases h
      · injection h with h
        rw [← h]
        simp [secondSweepEvents]

/-- The body of the first sweep writes the new density, and under forward
Euler the output descriptor; nothing else. -/
theorem firstSweepPatch_frame {b : Build} {K : Kernels} {op : Operator} {N_idx : Int}
    {ln : Int} {p : Nat} {patch : Patch} {pd : PatchData} {r : PatchData × List Event}
    (h : firstSweepPatch b K op N_idx ln p patch pd = Except.ok r) (idx : Int)
    (hnew : idx ≠ op.d_rho_interp_new_idx)
    (hN : op.d_vc_density_time_stepping_type ≠ VCDensityTimeSteppingType.VC_FORWARD_EULER ∨
      idx ≠ N_idx) : r.1 idx = pd idx := by
  obtain ⟨R_half, pd1, _, hpd1, hpd1', hres⟩ := firstSweepPatch_result h
  rw [hres]
  funext a
  rw [updateDensityLoop_apply, if_neg (fun hc => hnew hc.1)]
  rcases hN with hts | hne
  · rw [hpd1' hts]
  · rw [hpd1 idx hne]

/-- The body of the second sweep writes the new density and the output
descriptor; nothing else. -/
theorem secondSweepPatch_frame {b : Build} {K : Kernels} {op : Operator} {N_idx : Int}
    {ln : Int} {p : Nat} {patch : Patch} {pd : PatchData} {r : PatchData × List Event}
    (h : secondSweepPatch b K op N_idx ln p patch pd = Except.ok r) (idx : Int)
    (hnew : idx ≠ op.d_rho_interp_new_idx) (hN : idx ≠ N_idx) : r.1 idx = pd idx := by
  obtain ⟨R_half, pd1, _, hpd1, hres⟩ := secondSweepPatch_result h
  rw [hres]
  funext a
  rw [sspRk2UpdateDensityLoop_apply, if_neg (fun hc => hnew hc.1), hpd1 idx hN]

/-- A completed loop over patches logs the calls of its bodies in patch
order, leaves the allocation alone and changes only the descriptors its body
changes. -/
theorem sweepPatches_trace
    {body : Int → Nat → Patch → PatchData → Except (Failure × List Event) (PatchData × List Event)}
    (ev : Int → Nat → List Event) (S : Int → Prop)
    (hb : ∀ ln p patch pd r, body ln p patch pd = Except.ok r →
      r.2 = ev ln p ∧ ∀ idx, ¬ S idx → r.1 idx = pd idx) (ln : Int) :
    ∀ (patches : List Patch) (p0 : Nat) (w w' : World),
      sweepPatches body ln p0 patches w = Except.ok w' →
      w'.log = w.log ++ patchLoopEvents (ev ln) p0 patches.length ∧
      w'.allocated = w.allocated ∧
      ∀ idx, ¬ S idx → w'.data idx = w.data idx := by
  intro patches
  induction patches with
  | nil =>
    intro p0 w w' h
    simp only [sweepPatches] at h
    injection h with h
    subst h
    simp [patchLoopEvents]
  | cons patch rest ih =>
    intro p0 w w' h
    unfold sweepPatches at h
    split at h
    · cases h
    · rename_i pd es hbody
      obtain ⟨hes, hpd⟩ := hb _ _ _ _ _ hbody
      obtain ⟨hlog, halloc, hdata⟩ := ih _ _ _ h
      simp only at hes
      refine ⟨?_, ?_, ?_⟩
      · rw [hlog]
        simp [World.record, World.setPatchData, patchLoopEvents, hes]
      · rw [halloc]
        rfl
      · intro idx hidx
        rw [hdata idx hidx]
        funext l q
        simp only [World.record_data, World.setPatchData]
        split
        · rename_i hc
          have := hpd idx hidx
          simp only at this
          rw [this, hc.1, hc.2]
          rfl
        · rfl

/-- The same for the loop over levels. -/
theorem sweepLevels_trace
    {body : Int → Nat → Patch → PatchData → Except (Failure × List Event) (PatchData × List Event)}
    (ev : Int → Nat → List Event) (S : Int → Prop)
    (hb : ∀ ln p patch pd r, body ln p patch pd = Except.ok r →
      r.2 = ev ln p ∧ ∀ idx, ¬ S idx → r.1 idx = pd idx) (hier : PatchHierarchy) :
    ∀ (lns : List Int) (w w' : World),
      sweepLevels body hier lns w = Except.ok w' →
      w'.log = w.log ++ levelLoopEvents ev hier lns ∧
      w'.allocated = w.allocated ∧
      ∀ idx, ¬ S idx → w'.data idx = w.data idx := by
  intro lns
  induction lns with
  | nil =>
    intro w w' h
    simp only [sweepLevels] at h
    injection h with h
    subst h
    simp [levelLoopEvents]
  | cons ln lns ih =>
    intro w w' h
    unfold sweepLevels at h
    split at h
    · cases h
    · rename_i w1 h1
      obtain ⟨hlog1, halloc1, hdata1⟩ := sweepPatches_trace ev S hb ln _ _ _ _ h1
      obtain ⟨hlog, halloc, hdata⟩ := ih _ _ h
      refine ⟨?_, ?_, ?_⟩
      · rw [hlog, hlog1]
        simp [levelLoopEvents]
      · rw [halloc, halloc1]
      · intro idx hidx
        rw [hdata idx hidx, hdata1 idx hidx]

/-! ## The steps of a completed `applyConvectiveOperator` -/

theorem applyConvectiveOperator_ok_steps {b : Build} {K : Kernels} {H : HaloService}
    {op op' : Operator} {w w' : World} {U_idx N_idx : Int}
    (h : applyConvectiveOperator b K H op w U_idx N_idx = Except.ok (op', w')) :
    ∃ plan hier m, op.d_hier_bdry_fill = some plan ∧ op.d_hierarchy = some hier ∧
      op.d_hier_math_ops = some m ∧
      sweeps b K H op hier N_idx (afterFills b H op plan hier U_idx w) = Except.ok w' ∧
      op' = resetSelectOptions
        { op with
          d_hier_bdry_fill :=
            some (velocityFill b H op plan U_idx (w.record [Event.getOperationsDouble])).1 } := by
  unfold applyConvectiveOperator at h
  simp only at h
  repeat' split at h
  all_goals cases h
  rename_i plan hplan _ hier hhier _ m hmath _ hs
  exact ⟨plan, hier, m, hplan, hhier, hmath, hs, rfl⟩

theorem sweeps_ok_steps {b : Build} {K : Kernels} {H : HaloService} {op : Operator}
    {hier : PatchHierarchy} {N_idx : Int} {w w' : World}
    (h : sweeps b K H op hier N_idx w = Except.ok w') :
    ∃ w1, sweepLevels (firstSweepPatch b K op N_idx) hier
        (levelNumbers op.d_coarsest_ln op.d_finest_ln)
        (w.record [Event.integral op.d_rho_interp_current_idx]) = Except.ok w1 ∧
      ((op.d_vc_density_time_stepping_type = VCDensityTimeSteppingType.VC_SSPRK2 ∧
        ∃ w2, sweepLevels (secondSweepPatch b K op N_idx) hier
          (levelNumbers op.d_coarsest_ln op.d_finest_ln) (stageFill b H op hier w1) =
            Except.ok w2 ∧
          w' = w2.record [Event.integral op.d_rho_interp_new_idx]) ∨
       (op.d_vc_density_time_stepping_type ≠ VCDensityTimeSteppingType.VC_SSPRK2 ∧
        w' = w1.record [Event.integral op.d_rho_interp_new_idx])) := by
  unfold sweeps at h
  simp only at h
  split at h
  · cases h
  · rename_i w1 h1
    refine ⟨w1, h1, ?_⟩
    split at h
    · rename_i hts
      split at h
      · cases h
      · rename_i w2 h2
        injection h with h
        exact Or.inl ⟨hts, w2, h2, h.symm⟩
    · rename_i hts
      injection h with h
      exact Or.inr ⟨hts, h.symm⟩

theorem afterFills_log (b : Build) (H : HaloService) (op : Operator)
    (plan : HierarchyGhostCellInterpolation) (hier : PatchHierarchy) (U_idx : Int) (w : World) :
    (afterFills b H op plan hier U_idx w).log = w.log ++
      [Event.getOperationsDouble,
       Event.setupBcCoefObjects op.d_bc_coefs op.d_U_scratch_idx (-1) false,
       Event.fillData true [velocityTransaction op U_idx] false op.d_solution_time,
       Event.resetBcCoefObjects op.d_bc_coefs,
       Event.fillData false [densityTransaction op op.d_rho_interp_current_idx] false
         op.d_solution_time] := by
  simp [afterFills, densityFill, velocityFill, HierarchyGhostCellInterpolation.fillData,
    World.record, oneShotPlan]

theorem stageFill_log (b : Build) (H : HaloService) (op : Operator) (hier : PatchHierarchy)
    (w : World) :
    (stageFill b H op hier w).log = w.log ++
      [Event.fillData false [densityTransaction op op.d_rho_interp_new_idx] false
        (op.d_solution_time + op.d_dt)] := by
  simp [stageFill, HierarchyGhostCellInterpolation.fillData, oneShotPlan]

theorem firstSweep_trace {b : Build} {K : Kernels} {op : Operator} {hier : PatchHierarchy}
    {N_idx : Int} {lns : List Int} {w w1 : World}
    (h : sweepLevels (firstSweepPatch b K op N_idx) hier lns w = Except.ok w1) :
    w1.log = w.log ++ levelLoopEvents (firstSweepEvents b op N_idx) hier lns ∧
    w1.allocated = w.allocated ∧
    ∀ idx, idx ≠ op.d_rho_interp_new_idx →
      (op.d_vc_density_time_stepping_type ≠ VCDensityTimeSteppingType.VC_FORWARD_EULER ∨
        idx ≠ N_idx) → w1.data idx = w.data idx := by
  obtain ⟨hlog, halloc, hdata⟩ := sweepLevels_trace (firstSweepEvents b op N_idx)
    (fun idx => ¬ (idx ≠ op.d_rho_interp_new_idx ∧
      (op.d_vc_density_time_stepping_type ≠ VCDensityTimeSteppingType.VC_FORWARD_EULER ∨
        idx ≠ N_idx)))
    (fun ln p patch pd r hr => ⟨firstSweepPatch_events hr, fun idx hidx =>
      firstSweepPatch_frame hr idx (not_not.mp hidx).1 (not_not.mp hidx).2⟩) hier lns w w1 h
  exact ⟨hlog, halloc, fun idx h1 h2 => hdata idx (not_not.mpr ⟨h1, h2⟩)⟩

theorem secondSweep_trace {b : Build} {K : Kernels} {op : Operator} {hier : PatchHierarchy}
    {N_idx : Int} {lns : List Int} {w w2 : World}
    (h : sweepLevels (secondSweepPatch b K op N_idx) hier lns w = Except.ok w2) :
    w2.log = w.log ++ levelLoopEvents (secondSweepEvents b op N_idx) hier lns ∧
    w2.allocated = w.allocated ∧
    ∀ idx, idx ≠ op.d_rho_interp_new_idx → idx ≠ N_idx → w2.data idx = w.data idx := by
  obtain ⟨hlog, halloc, hdata⟩ := sweepLevels_trace (secondSweepEvents b op N_idx)
    (fun idx => ¬ (idx ≠ op.d_rho_interp_new_idx ∧ idx ≠ N_idx))
    (fun ln p patch pd r hr => ⟨secondSweepPatch_events hr, fun idx hidx =>
      secondSweepPatch_frame hr idx (not_not.mp hidx).1 (not_not.mp hidx).2⟩) hier lns w w2 h
  exact ⟨hlog, halloc, fun idx h1 h2 => hdata idx (not_not.mpr ⟨h1, h2⟩)⟩

/-- The calls of a completed `applyConvectiveOperator`. -/
theorem applyConvectiveOperator_log {b : Build} {K : Kernels} {H : HaloService}
    {op op' : Operator} {w w' : World} {U_idx N_idx : Int} {hier : PatchHierarchy}
    (h : applyConvectiveOperator b K H op w U_idx N_idx = Except.ok (op', w'))
    (hhier : op.d_hierarchy = some hier) :
    w'.log = w.log ++ applyEvents b op hier U_idx N_idx := by
  obtain ⟨plan, hier', m, _, hhier', _, hs, _⟩ := applyConvectiveOperator_ok_steps h
  rw [hhier] at hhier'
  injection hhier' with e
  subst e
  obtain ⟨w1, h1, hcase⟩ := sweeps_ok_steps hs
  obtain ⟨hlog1, _, _⟩ := firstSweep_trace h1
  rcases hcase with ⟨hts, w2, h2, hw'⟩ | ⟨hts, hw'⟩
  · obtain ⟨hlog2, _, _⟩ := secondSweep_trace h2
    rw [hw']
    simp only [World.record, hlog2, stageFill_log, hlog1, afterFills_log, applyEvents, hts,
      if_true, List.append_assoc, List.cons_append, List.nil_append]
  · rw [hw']
    simp only [World.record, hlog1, afterFills_log, applyEvents, hts,
      if_false, List.append_assoc, List.cons_append, List.nil_append, List.append_nil]

/-- With the halo fill as modelled, writing its destination descriptor only,
a completed `applyConvectiveOperator` leaves the allocation alone and writes
the two scratch descriptors, the new density and the output descriptor
only. -/
theorem applyConvectiveOperator_frame {b : Build} {K : Kernels} {H : HaloService}
    {op op' : Operator} {w w' : World} {U_idx N_idx : Int}
    (h : applyConvectiveOperator b K H op w U_idx N_idx = Except.ok (op', w')) :
    w'.allocated = w.allocated ∧
    ∀ idx, idx ≠ op.d_U_scratch_idx → idx ≠ op.d_rho_interp_scratch_idx →
      idx ≠ op.d_rho_interp_new_idx → idx ≠ N_idx → w'.data idx = w.data idx := by
  obtain ⟨plan, hier, m, _, _, _, hs, _⟩ := applyConvectiveOperator_ok_steps h
  obtain ⟨w1, h1, hcase⟩ := sweeps_ok_steps hs
  obtain ⟨_, halloc1, hdata1⟩ := firstSweep_trace h1
  rcases hcase with ⟨hts, w2, h2, hw'⟩ | ⟨hts, hw'⟩
  · obtain ⟨_, halloc2, hdata2⟩ := secondSweep_trace h2
    subst hw'
    refine ⟨?_, fun idx hU hs hn hN => ?_⟩
    · show w2.allocated = w.allocated
      rw [halloc2]
      show w1.allocated = w.allocated
      rw [halloc1]
      rfl
    · show w2.data idx = w.data idx
      rw [hdata2 idx hn hN, stageFill_other b H op hier w1 idx hs, hdata1 idx hn (Or.inr hN),
        World.record_data, afterFills_other b H op plan hier U_idx w idx hU hs]
  · subst hw'
    refine ⟨?_, fun idx hU hs hn hN => ?_⟩
    · show w1.allocated = w.allocated
      rw [halloc1]
      rfl
    · show w1.data idx = w.data idx
      rw [hdata1 idx hn (Or.inr hN), World.record_data,
        afterFills_other b H op plan hier U_idx w idx hU hs]

/-! ## The checks of `initializeOperatorState` -/

theorem deallocateOperatorState_error {op : Operator} {w : World} {e : Failure}
    (h : deallocateOperatorState op w = Except.error e) :
    e = Failure.nullPointer "d_hierarchy" := by
  unfold deallocateOperatorState at h
  simp only at h
  split at h
  · cases h
  · split at h
    · injection h with h
      exact h.symm
    · cases h

theorem setupOperatorState_error {b : Build} {op : Operator} {w : World}
    {input output : SAMRAIVectorReal} {e : Failure}
    (h : setupOperatorState b op w input output = Except.error e) :
    b.NDEBUG = false ∧
    ((e = Failure.assertionFailed "d_hierarchy == out.getPatchHierarchy()" ∧
        input.getPatchHierarchy.id ≠ output.getPatchHierarchy.id) ∨
     (e = Failure.assertionFailed "d_coarsest_ln == out.getCoarsestLevelNumber()" ∧
        input.getCoarsestLevelNumber ≠ output.getCoarsestLevelNumber) ∨
     (e = Failure.assertionFailed "d_finest_ln == out.getFinestLevelNumber()" ∧
        input.getFinestLevelNumber ≠ output.getFinestLevelNumber) ∨
     (e = Failure.assertionFailed "d_hier_math_ops" ∧ op.d_hier_math_ops_external = true ∧
        op.d_hier_math_ops = none)) := by
  cases hb : b.NDEBUG with
  | true =>
    have hc : initializeChecks b op input output := fun hf => by rw [hb] at hf; cases hf
    rw [setupOperatorState_of_checks b op w input output hc] at h
    cases h
  | false =>
    refine ⟨rfl, ?_⟩
    unfold setupOperatorState at h
    simp only [hb, Bool.not_false, Bool.true_and] at h
    split at h
    · rename_i h1
      injection h with h
      exact Or.inl ⟨h.symm, by simpa using h1⟩
    · split at h
      · rename_i h2
        injection h with h
        exact Or.inr (Or.inl ⟨h.symm, by simpa using h2⟩)
      · split at h
        · rename_i h3
          injection h with h
          exact Or.inr (Or.inr (Or.inl ⟨h.symm, by simpa using h3⟩))
        · split at h
          · cases h
          · rename_i hx
            split at h
            · rename_i hm
              injection h with h
              refine Or.inr (Or.inr (Or.inr ⟨h.symm, by simpa using hx, ?_⟩))
              simpa using hm
            · cases h

/-- C21 (counterexample): in the build with `NDEBUG` the output vector is not
examined: with an output vector on another hierarchy and another level range
`initializeOperatorState` returns. -/
theorem initialize_accepts_mismatch_when_NDEBUG :
    Examples.vector0.getPatchHierarchy.id ≠ Examples.vector1.getPatchHierarchy.id ∧
    Examples.vector0.getFinestLevelNumber ≠ Examples.vector1.getFinestLevelNumber ∧
    ∃ op' w', initializeOperatorState Examples.release1d Examples.cuiUpwindOperator
      Examples.blankWorld Examples.vector0 Examples.vector1 = Except.ok (op', w') :=
  ⟨by decide, by decide, _, _, rfl⟩

/-- C21 (amended): in a build that compiles the assertions (`NDEBUG`
undefined) `initializeOperatorState(in, out)` aborts whenever the hierarchy,
the coarsest level number or the finest level number of `out` differs from
that of `in`; when the three agree it does not abort on any of the three
assertions. -/
theorem initializeOperatorState_checks_output (b : Build) (op : Operator) (w : World)
    (input output : SAMRAIVectorReal) (hb : b.NDEBUG = false) :
    ((input.getPatchHierarchy.id ≠ output.getPatchHierarchy.id ∨
      input.getCoarsestLevelNumber ≠ output.getCoarsestLevelNumber ∨
      input.getFinestLevelNumber ≠ output.getFinestLevelNumber) →
      ∃ e, initializeOperatorState b op w input output = Except.error e) ∧
    (input.getPatchHierarchy.id = output.getPatchHierarchy.id →
      input.getCoarsestLevelNumber = output.getCoarsestLevelNumber →
      input.getFinestLevelNumber = output.getFinestLevelNumber →
      ∀ e, initializeOperatorState b op w input output = Except.error e →
        e ≠ Failure.assertionFailed "d_hierarchy == out.getPatchHierarchy()" ∧
        e ≠ Failure.assertionFailed "d_coarsest_ln == out.getCoarsestLevelNumber()" ∧
        e ≠ Failure.assertionFailed "d_finest_ln == out.getFinestLevelNumber()") := by
  have hsetup : ∀ op0 w0, (input.getPatchHierarchy.id ≠ output.getPatchHierarchy.id ∨
      input.getCoarsestLevelNumber ≠ output.getCoarsestLevelNumber ∨
      input.getFinestLevelNumber ≠ output.getFinestLevelNumber) →
      ∃ e, setupOperatorState b op0 w0 input output = Except.error e := by
    intro op0 w0 hne
    cases hr : setupOperatorState b op0 w0 input output with
    | error e => exact ⟨e, rfl⟩
    | ok r =>
      obtain ⟨h1, h2, h3, _⟩ := setupOperatorState_checks hr hb
      rcases hne with hne | hne | hne
      · exact absurd h1 hne
      · exact absurd h2 hne
      · exact absurd h3 hne
  constructor
  · intro hne
    unfold initializeOperatorState
    split
    · cases hd : deallocateOperatorState op w with
      | error e => exact ⟨e, rfl⟩
      | ok r => exact hsetup r.1 r.2 hne
    · exact hsetup op w hne
  · intro h1 h2 h3 e he
    have hsetup2 : ∀ op0 w0, setupOperatorState b op0 w0 input output = Except.error e →
        e = Failure.assertionFailed "d_hier_math_ops" := by
      intro op0 w0 hs
      rcases (setupOperatorState_error hs).2 with ⟨_, hc⟩ | ⟨_, hc⟩ | ⟨_, hc⟩ | ⟨hc, _⟩
      · exact absurd h1 hc
      · exact absurd h2 hc
      · exact absurd h3 hc
      · exact hc
    have hcases : e = Failure.nullPointer "d_hierarchy" ∨
        e = Failure.assertionFailed "d_hier_math_ops" := by
      unfold initializeOperatorState at he
      split at he
      · split at he
        · rename_i e1 hd
          injection he with he
          subst he
          exact Or.inl (deallocateOperatorState_error hd)
        · exact Or.inr (hsetup2 _ _ he)
      · exact Or.inr (hsetup2 _ _ he)
    rcases hcases with hc | hc <;> subst hc <;> decide

theorem initializeOperatorState_checks_output_witness :
    Examples.debug2d.NDEBUG = false ∧
    Examples.vector0.getFinestLevelNumber ≠ Examples.vector1.getFinestLevelNumber ∧
    ∃ e, initializeOperatorState Examples.debug2d Examples.cuiUpwindOperator
      Examples.blankWorld Examples.vector0 Examples.vector1 = Except.error e :=
  ⟨rfl, by decide,
    (initializeOperatorState_checks_output Examples.debug2d Examples.cuiUpwindOperator
      Examples.blankWorld Examples.vector0 Examples.vector1 rfl).1 (Or.inr (Or.inr (by decide)))⟩

/-! ## Construction in a variable database that holds the operator's variables -/

theorem registerVariableAndContext_index_nonneg (db : VariableDatabase) (name ctx : String)
    (g : Int) : 0 ≤ (db.registerVariableAndContext name ctx g).1 := by
  unfold VariableDatabase.registerVariableAndContext
  simp only
  split <;> exact Int.ofNat_nonneg _

/-- A pair has a descriptor index exactly when it is registered. -/
theorem mapVariableAndContextToIndex_nonneg_iff (db : VariableDatabase) (name ctx : String) :
    0 ≤ db.mapVariableAndContextToIndex name ctx ↔
      ∃ r ∈ db.registrations, (fun r : Registration => r.var == name && r.ctx == ctx) r = true := by
  unfold VariableDatabase.mapVariableAndContextToIndex
  simp only
  split
  · rename_i h
    exact ⟨fun _ => List.findIdx_lt_length.mp h, fun _ => Int.ofNat_nonneg _⟩
  · rename_i h
    exact ⟨fun h0 => absurd h0 (by decide), fun h1 => absurd (List.findIdx_lt_length.mpr h1) h⟩

/-- Registrations that are appended take no descriptor index away. -/
theorem mapVariableAndContextToIndex_nonneg_append {db db' : VariableDatabase}
    {extra : List Registration} (hreg : db'.registrations = db.registrations ++ extra)
    {name ctx : String} (h : 0 ≤ db.mapVariableAndContextToIndex name ctx) :
    0 ≤ db'.mapVariableAndContextToIndex name ctx := by
  rw [mapVariableAndContextToIndex_nonneg_iff] at h ⊢
  obtain ⟨r, hr, hp⟩ := h
  exact ⟨r, by rw [hreg]; exact List.mem_append_left _ hr, hp⟩

/-- After `registerVariableAndContext` the pair has a descriptor index. -/
theorem registerVariableAndContext_registered (db : VariableDatabase) (name ctx : String)
    (g : Int) :
    0 ≤ (db.registerVariableAndContext name ctx g).2.mapVariableAndContextToIndex name ctx := by
  rw [mapVariableAndContextToIndex_nonneg_iff]
  unfold VariableDatabase.registerVariableAndContext
  simp only
  split
  · rename_i h
    exact List.findIdx_lt_length.mp h
  · exact ⟨{ var := name, ctx := ctx, gcw := g }, by simp, by simp⟩

theorem lookupVelocityVariable_registrations (op : Operator) (db : VariableDatabase) :
    ∃ extra, (lookupVelocityVariable op db).2.registrations = db.registrations ++ extra := by
  unfold lookupVelocityVariable
  split
  · exact ⟨[], by simp⟩
  · exact registerVariableAndContext_registrations db _ _ _

/-- The velocity step registers no density variable. -/
theorem lookupVelocityVariable_getVariable (op : Operator) (db : VariableDatabase)
    (h : (lookupVelocityVariable op db).2.getVariable rho_interp_name = true) :
    db.getVariable rho_interp_name = true := by
  by_contra hR
  have hR' : db.getVariable rho_interp_name = false := by simpa using hR
  unfold lookupVelocityVariable at h
  split at h
  · exact hR h
  · rw [getVariable_register_other db _ _ _ _ (by decide) hR'] at h
    cases h

theorem setupVelocityVariable_ok (b : Build) (op : Operator) (db : VariableDatabase)
    (h : b.NDEBUG = true ∨ (db.getVariable U_var_name = true →
      0 ≤ db.mapVariableAndContextToIndex U_var_name context_name)) :
    setupVelocityVariable b op db = Except.ok (lookupVelocityVariable op db) := by
  unfold setupVelocityVariable
  simp only
  rw [if_neg]
  rcases h with h | h
  · simp [h]
  · have : 0 ≤ (lookupVelocityVariable op db).1.d_U_scratch_idx := by
      unfold lookupVelocityVariable
      split
      · rename_i hU
        exact h hU
      · exact registerVariableAndContext_index_nonneg _ _ _ _
    simp [not_lt.mpr this]

theorem setupDensityVariable_ok (b : Build) (op : Operator) (db : VariableDatabase)
    (h : b.NDEBUG = true ∨ (db.getVariable rho_interp_name = true →
      0 ≤ db.mapVariableAndContextToIndex rho_interp_name (rho_interp_name ++ "::SCRATCH") ∧
      0 ≤ db.mapVariableAndContextToIndex rho_interp_name (rho_interp_name ++ "::NEW"))) :
    setupDensityVariable b op db = Except.ok (lookupDensityVariable op db) := by
  unfold setupDensityVariable
  simp only
  rcases h with h | h
  · simp [h]
  · have h1 : 0 ≤ (lookupDensityVariable op db).1.d_rho_interp_scratch_idx := by
      unfold lookupDensityVariable
      split
      · rename_i hR
        exact (h hR).1
      · exact registerVariableAndContext_index_nonneg _ _ _ _
    have h2 : 0 ≤ (lookupDensityVariable op db).1.d_rho_interp_new_idx := by
      unfold lookupDensityVariable
      split
      · rename_i hR
        exact (h hR).2
      · exact registerVariableAndContext_index_nonneg _ _ _ _
    simp [not_lt.mpr h1, not_lt.mpr h2]

/-- The velocity step keeps the descriptor indices of the density variable. -/
theorem lookupVelocityVariable_density_contexts (op : Operator) (db : VariableDatabase)
    (hdb : db.registeredByOperator)
    (h : (lookupVelocityVariable op db).2.getVariable rho_interp_name = true) :
    0 ≤ (lookupVelocityVariable op db).2.mapVariableAndContextToIndex rho_interp_name
        (rho_interp_name ++ "::SCRATCH") ∧
    0 ≤ (lookupVelocityVariable op db).2.mapVariableAndContextToIndex rho_interp_name
        (rho_interp_name ++ "::NEW") := by
  obtain ⟨extra, hreg⟩ := lookupVelocityVariable_registrations op db
  obtain ⟨h1, h2⟩ := hdb.2 (lookupVelocityVariable_getVariable op db h)
  exact ⟨mapVariableAndContextToIndex_nonneg_append hreg h1,
    mapVariableAndContextToIndex_nonneg_append hreg h2⟩

/-- A variable database that holds neither of the operator's variables, the
empty one among them, is in the state `registeredByOperator`. -/
theorem registeredByOperator_of_absent (db : VariableDatabase)
    (hU : db.getVariable U_var_name = false) (hR : db.getVariable rho_interp_name = false) :
    db.registeredByOperator :=
  ⟨fun h => absurd (hU ▸ h) (by decide), fun h => absurd (hR ▸ h) (by decide)⟩

/-- After the velocity step the velocity scratch variable has its descriptor
index. -/
theorem lookupVelocityVariable_registered (op : Operator) (db : VariableDatabase)
    (hdb : db.getVariable U_var_name = true →
      0 ≤ db.mapVariableAndContextToIndex U_var_name context_name) :
    0 ≤ (lookupVelocityVariable op db).2.mapVariableAndContextToIndex U_var_name
      context_name := by
  unfold lookupVelocityVariable
  split
  · rename_i hU
    exact hdb hU
  · exact registerVariableAndContext_registered _ _ _ _

/-- After the density step the density variable has its two descriptor
indices. -/
theorem lookupDensityVariable_registered (op : Operator) (db : VariableDatabase)
    (hdb : db.getVariable rho_interp_name = true →
      0 ≤ db.mapVariableAndContextToIndex rho_interp_name (rho_interp_name ++ "::SCRATCH") ∧
      0 ≤ db.mapVariableAndContextToIndex rho_interp_name (rho_interp_name ++ "::NEW")) :
    0 ≤ (lookupDensityVariable op db).2.mapVariableAndContextToIndex rho_interp_name
        (rho_interp_name ++ "::SCRATCH") ∧
    0 ≤ (lookupDensityVariable op db).2.mapVariableAndContextToIndex rho_interp_name
        (rho_interp_name ++ "::NEW") := by
  unfold lookupDensityVariable
  split
  · rename_i hR
    exact hdb hR
  · simp only
    obtain ⟨extra, hreg⟩ := registerVariableAndContext_registrations
      (db.registerVariableAndContext rho_interp_name (rho_interp_name ++ "::SCRATCH")
        op.d_density_limiter_gcw).2 rho_interp_name (rho_interp_name ++ "::NEW") NOGHOSTS
    exact ⟨mapVariableAndContextToIndex_nonneg_append hreg
        (registerVariableAndContext_registered _ _ _ _),
      registerVariableAndContext_registered _ _ _ _⟩

/-- Every construction leaves the variable database in the state
`registeredByOperator` when it found it in that state: the state holds of the
empty database and of every database a sequence of constructions makes of
it. -/
theorem construct_keeps_registeredByOperator {b : Build} {E : Enums} {name : String}
    {input_db : Option Database} {form : ConvectiveDifferencingType} {bc : List BcCoefPtr}
    {db db' : VariableDatabase} {op : Operator} (hdb : db.registeredByOperator)
    (h : construct b E name input_db form bc db = Except.ok (op, db')) :
    db'.registeredByOperator := by
  obtain ⟨op0, op1, db1, hvel, hden⟩ := construct_ok_steps h
  have h1 := setupVelocityVariable_eq hvel
  have h2 := setupDensityVariable_eq hden
  have hdb1 : db1 = (lookupVelocityVariable op0 db).2 := congrArg Prod.snd h1
  have hdb' : db' = (lookupDensityVariable op1 db1).2 := congrArg Prod.snd h2
  obtain ⟨extra, hreg⟩ := lookupDensityVariable_registrations op1 db1
  refine ⟨fun _ => ?_, fun _ => ?_⟩
  · rw [hdb']
    refine mapVariableAndContextToIndex_nonneg_append hreg ?_
    rw [hdb1]
    exact lookupVelocityVariable_registered op0 db hdb.1
  · rw [hdb']
    refine lookupDensityVariable_registered op1 db1 ?_
    rw [hdb1]
    exact lookupVelocityVariable_density_contexts op0 db hdb

/-- A construction that passes the four configuration checks completes when
the assertions are not compiled or the variable database is in the state
`registeredByOperator`. -/
theorem construct_ok_of_checks (b : Build) (E : Enums) (name : String)
    (input_db : Option Database) (bc : List BcCoefPtr) (db : VariableDatabase)
    (hv : limiterGcw (readInput E input_db (memberInit b name
      ConvectiveDifferencingType.CONSERVATIVE bc)).d_vc_velocity_convective_limiter ≠ none)
    (hd : limiterGcw (readInput E input_db (memberInit b name
      ConvectiveDifferencingType.CONSERVATIVE bc)).d_vc_density_convective_limiter ≠ none)
    (hts : (readInput E input_db (memberInit b name ConvectiveDifferencingType.CONSERVATIVE
      bc)).d_vc_density_time_stepping_type ≠
        VCDensityTimeSteppingType.UNKNOWN_VC_DENSITY_TIME_STEPPING_TYPE)
    (hdb : b.NDEBUG = true ∨ db.registeredByOperator) :
    ∃ op db', construct b E name input_db ConvectiveDifferencingType.CONSERVATIVE bc db =
      Except.ok (op, db') := by
  cases hr : construct b E name input_db ConvectiveDifferencingType.CONSERVATIVE bc db with
  | ok r => exact ⟨r.1, r.2, rfl⟩
  | error e =>
    exfalso
    unfold construct at hr
    simp only at hr
    repeat' split at hr
    all_goals first
      | contradiction
      | (rename_i hvel
         rw [setupVelocityVariable_ok b _ db (hdb.imp id And.left)] at hvel
         cases hvel)
      | (rename_i hvel
         rw [setupVelocityVariable_ok b _ db (hdb.imp id And.left)] at hvel
         injection hvel with hvel
         have h1 := congrArg Prod.fst hvel
         have h2 := congrArg Prod.snd hvel
         simp only at h1 h2
         subst h1
         subst h2
         rw [setupDensityVariable_ok b _ _ (hdb.imp id
           (fun h => lookupVelocityVariable_density_contexts _ db h))] at hr
         cases hr)

theorem readInput_time_stepping (E : Enums) (db : Database) (op : Operator) :
    (readInput E (some db) op).d_vc_density_time_stepping_type =
      if db.keyExists "vc_density_time_stepping_type"
        then E.timeSteppingOfString (db.getString "vc_density_time_stepping_type")
      else op.d_vc_density_time_stepping_type := by
  unfold readInput
  simp only
  split_ifs <;> rfl

theorem readInput_bdry_extrap_type (E : Enums) (db : Database) (op : Operator) :
    (readInput E (some db) op).d_bdry_extrap_type =
      if db.keyExists "bdry_extrap_type" then db.getString "bdry_extrap_type"
      else op.d_bdry_extrap_type := by
  unfold readInput
  simp only
  split_ifs <;> rfl

/-- Without the limiter and time-stepping keys the options keep the values of
the member initialiser list. -/
theorem readInput_defaults (E : Enums) (input_db : Option Database) (op : Operator)
    (hkeys : ∀ cfg, input_db = some cfg →
      cfg.keyExists "vc_convective_limiter" = false ∧
      cfg.keyExists "vc_velocity_convective_limiter" = false ∧
      cfg.keyExists "vc_density_convective_limiter" = false ∧
      cfg.keyExists "vc_density_time_stepping_type" = false) :
    (readInput E input_db op).d_vc_velocity_convective_limiter =
      op.d_vc_velocity_convective_limiter ∧
    (readInput E input_db op).d_vc_density_convective_limiter =
      op.d_vc_density_convective_limiter ∧
    (readInput E input_db op).d_vc_density_time_stepping_type =
      op.d_vc_density_time_stepping_type := by
  cases input_db with
  | none => exact ⟨rfl, rfl, rfl⟩
  | some cfg =>
    obtain ⟨h1, h2, h3, h4⟩ := hkeys cfg rfl
    rw [readInput_velocity_limiter, readInput_density_limiter, readInput_time_stepping]
    simp [h1, h2, h3, h4]

/-- C15: with the CONSERVATIVE form and a supported time-stepping type, in a
variable database in the state `registeredByOperator` (or with the assertions
not compiled), the constructor aborts if and only if the velocity limiter or
the density limiter it read is not one of UPWIND, CUI, FBICS, MGAMMA, and the
abort is then the unsupported-limiter fatal error of the velocity or of the
density. In a constructed operator `interpolateSideQuantity` returns a result
for the velocity limiter and for the density limiter, whatever its other
arguments: its unsupported-limiter branch is not reached. -/
theorem construct_checks_limiters (b : Build) (E : Enums) (name : String)
    (input_db : Option Database) (bc : List BcCoefPtr) (db : VariableDatabase)
    (hts : (readInput E input_db (memberInit b name ConvectiveDifferencingType.CONSERVATIVE
      bc)).d_vc_density_time_stepping_type ≠
        VCDensityTimeSteppingType.UNKNOWN_VC_DENSITY_TIME_STEPPING_TYPE)
    (hdb : b.NDEBUG = true ∨ db.registeredByOperator) :
    ((∃ e, construct b E name input_db ConvectiveDifferencingType.CONSERVATIVE bc db =
        Except.error e) ↔
      (¬ ((readInput E input_db (memberInit b name ConvectiveDifferencingType.CONSERVATIVE
            bc)).d_vc_velocity_convective_limiter ∈
          [VCConvectiveLimiter.VC_UPWIND, VCConvectiveLimiter.VC_CUI,
           VCConvectiveLimiter.VC_FBICS, VCConvectiveLimiter.VC_MGAMMA]) ∨
       ¬ ((readInput E input_db (memberInit b name ConvectiveDifferencingType.CONSERVATIVE
            bc)).d_vc_density_convective_limiter ∈
          [VCConvectiveLimiter.VC_UPWIND, VCConvectiveLimiter.VC_CUI,
           VCConvectiveLimiter.VC_FBICS, VCConvectiveLimiter.VC_MGAMMA]))) ∧
    (∀ e, construct b E name input_db ConvectiveDifferencingType.CONSERVATIVE bc db =
        Except.error e →
      e = Failure.unsupportedVelocityLimiter ∨ e = Failure.unsupportedDensityLimiter) ∧
    (∀ op db', construct b E name input_db ConvectiveDifferencingType.CONSERVATIVE bc db =
        Except.ok (op, db') →
      ∀ (K : Kernels) (U_adv : Nat → FaceData) (Q : SideData) (box : Box) (sides : Nat → Box),
        (∃ r, interpolateSideQuantity K U_adv Q box sides
          op.d_vc_velocity_convective_limiter = Except.ok r) ∧
        (∃ r, interpolateSideQuantity K U_adv Q box sides
          op.d_vc_density_convective_limiter = Except.ok r)) := by
  have hV := limiterGcw_eq_none_iff (readInput E input_db (memberInit b name
    ConvectiveDifferencingType.CONSERVATIVE bc)).d_vc_velocity_convective_limiter
  have hD := limiterGcw_eq_none_iff (readInput E input_db (memberInit b name
    ConvectiveDifferencingType.CONSERVATIVE bc)).d_vc_density_convective_limiter
  simp only [List.mem_cons, List.mem_singleton, List.not_mem_nil, or_false] at hV hD ⊢
  obtain ⟨_, hA⟩ := construct_aborts b E name input_db ConvectiveDifferencingType.CONSERVATIVE bc db
  obtain ⟨hA1, hA2, _⟩ := hA rfl
  have hcases : ∀ e,
      construct b E name input_db ConvectiveDifferencingType.CONSERVATIVE bc db =
        Except.error e →
      (e = Failure.unsupportedVelocityLimiter ∧
        limiterGcw (readInput E input_db (memberInit b name
          ConvectiveDifferencingType.CONSERVATIVE bc)).d_vc_velocity_convective_limiter =
            none) ∨
      (e = Failure.unsupportedDensityLimiter ∧
        limiterGcw (readInput E input_db (memberInit b name
          ConvectiveDifferencingType.CONSERVATIVE bc)).d_vc_density_convective_limiter =
            none) := by
    intro e he
    by_cases hv : limiterGcw (readInput E input_db (memberInit b name
        ConvectiveDifferencingType.CONSERVATIVE bc)).d_vc_velocity_convective_limiter = none
    · rw [hA1 hv] at he
      injection he with he
      exact Or.inl ⟨he.symm, hv⟩
    · by_cases hd : limiterGcw (readInput E input_db (memberInit b name
          ConvectiveDifferencingType.CONSERVATIVE bc)).d_vc_density_convective_limiter = none
      · rw [hA2 hv hd] at he
        injection he with he
        exact Or.inr ⟨he.symm, hd⟩
      · obtain ⟨op, db', hok⟩ := construct_ok_of_checks b E name input_db bc db hv hd hts hdb
        rw [hok] at he
        cases he
  refine ⟨⟨fun h => ?_, fun h => ?_⟩, fun e he => ?_, fun op db' hok K U_adv Q box sides => ?_⟩
  · obtain ⟨e, he⟩ := h
    rcases hcases e he with ⟨_, h1⟩ | ⟨_, h1⟩
    · exact Or.inl (hV.mp h1)
    · exact Or.inr (hD.mp h1)
  · by_cases hv : limiterGcw (readInput E input_db (memberInit b name
        ConvectiveDifferencingType.CONSERVATIVE bc)).d_vc_velocity_convective_limiter = none
    · exact ⟨_, hA1 hv⟩
    · rcases h with h | h
      · exact absurd (hV.mpr h) hv
      · exact ⟨_, hA2 hv (hD.mpr h)⟩
  · rcases hcases e he with ⟨h1, _⟩ | ⟨h1, _⟩
    · exact Or.inl h1
    · exact Or.inr h1
  · obtain ⟨hv, hd⟩ := construct_ok_limiters hok
    constructor
    · cases hl : op.d_vc_velocity_convective_limiter
      all_goals first
        | exact ⟨_, rfl⟩
        | (rw [hl] at hv; cases hv)
    · cases hl : op.d_vc_density_convective_limiter
      all_goals first
        | exact ⟨_, rfl⟩
        | (rw [hl] at hd; cases hd)

theorem construct_checks_limiters_witness :
    (readInput Examples.enums (some Examples.cuiInput) (memberInit Examples.debug2d "op"
      ConvectiveDifferencingType.CONSERVATIVE [])).d_vc_density_time_stepping_type ≠
        VCDensityTimeSteppingType.UNKNOWN_VC_DENSITY_TIME_STEPPING_TYPE ∧
    (Examples.debug2d.NDEBUG = true ∨ Examples.afterFirstOperator.registeredByOperator) ∧
    ∃ op db, construct Examples.debug2d Examples.enums "op" (some Examples.cuiInput)
        ConvectiveDifferencingType.CONSERVATIVE [] Examples.afterFirstOperator =
          Except.ok (op, db) ∧
      ∀ (K : Kernels) (U_adv : Nat → FaceData) (Q : SideData) (box : Box) (sides : Nat → Box),
        (∃ r, interpolateSideQuantity K U_adv Q box sides
          op.d_vc_velocity_convective_limiter = Except.ok r) ∧
        (∃ r, interpolateSideQuantity K U_adv Q box sides
          op.d_vc_density_convective_limiter = Except.ok r) :=
  ⟨by decide, Or.inr (by decide), _, _, rfl,
    (construct_checks_limiters Examples.debug2d Examples.enums "op" (some Examples.cuiInput) []
      Examples.afterFirstOperator (by decide) (Or.inr (by decide))).2.2 _ _ rfl⟩

/-- C28: with a null input database, or one without the limiter and
time-stepping keys, and the CONSERVATIVE form, in a variable database in the
state `registeredByOperator` (or with the assertions not compiled), the
construction completes, and the constructed operator has velocity limiter
UPWIND, density limiter UPWIND, both ghost width members 2 and time stepping
FORWARD_EULER. -/
theorem construct_defaults (b : Build) (E : Enums) (name : String)
    (input_db : Option Database) (bc : List BcCoefPtr) (db : VariableDatabase)
    (hkeys : ∀ cfg, input_db = some cfg →
      cfg.keyExists "vc_convective_limiter" = false ∧
      cfg.keyExists "vc_velocity_convective_limiter" = false ∧
      cfg.keyExists "vc_density_convective_limiter" = false ∧
      cfg.keyExists "vc_density_time_stepping_type" = false)
    (hdb : b.NDEBUG = true ∨ db.registeredByOperator) :
    ∃ op db', construct b E name input_db ConvectiveDifferencingType.CONSERVATIVE bc db =
        Except.ok (op, db') ∧
      op.d_vc_velocity_convective_limiter = VCConvectiveLimiter.VC_UPWIND ∧
      op.d_vc_density_convective_limiter = VCConvectiveLimiter.VC_UPWIND ∧
      op.d_velocity_limiter_gcw = 2 ∧ op.d_density_limiter_gcw = 2 ∧
      op.d_vc_density_time_stepping_type = VCDensityTimeSteppingType.VC_FORWARD_EULER := by
  obtain ⟨hv, hd, hts⟩ := readInput_defaults E input_db
    (memberInit b name ConvectiveDifferencingType.CONSERVATIVE bc) hkeys
  have hv' : (readInput E input_db (memberInit b name ConvectiveDifferencingType.CONSERVATIVE
      bc)).d_vc_velocity_convective_limiter = VCConvectiveLimiter.VC_UPWIND := hv
  have hd' : (readInput E input_db (memberInit b name ConvectiveDifferencingType.CONSERVATIVE
      bc)).d_vc_density_convective_limiter = VCConvectiveLimiter.VC_UPWIND := hd
  have hts' : (readInput E input_db (memberInit b name ConvectiveDifferencingType.CONSERVATIVE
      bc)).d_vc_density_time_stepping_type = VCDensityTimeSteppingType.VC_FORWARD_EULER := hts
  obtain ⟨op, db', hok⟩ := construct_ok_of_checks b E name input_db bc db (by rw [hv']; decide)
    (by rw [hd']; decide) (by rw [hts']; decide) hdb
  obtain ⟨_, h1, h2, h3, _⟩ := construct_ok_options hok
  obtain ⟨g1, g2⟩ := construct_ok_limiters hok
  rw [h1, hv'] at g1
  rw [h2, hd'] at g2
  refine ⟨op, db', hok, h1.trans hv', h2.trans hd', ?_, ?_, h3.trans hts'⟩
  · injection g1 with g1
    exact g1.symm
  · injection g2 with g2
    exact g2.symm

theorem construct_defaults_witness :
    (Examples.linearInput.keyExists "vc_convective_limiter" = false ∧
      Examples.linearInput.keyExists "vc_velocity_convective_limiter" = false ∧
      Examples.linearInput.keyExists "vc_density_convective_limiter" = false ∧
      Examples.linearInput.keyExists "vc_density_time_stepping_type" = false) ∧
    (Examples.debug2d.NDEBUG = true ∨ Examples.afterFirstOperator.registeredByOperator) ∧
    ∃ op db, construct Examples.debug2d Examples.enums "op" (some Examples.linearInput)
        ConvectiveDifferencingType.CONSERVATIVE [] Examples.afterFirstOperator =
          Except.ok (op, db) ∧
      op.d_vc_velocity_convective_limiter = VCConvectiveLimiter.VC_UPWIND ∧
      op.d_vc_density_convective_limiter = VCConvectiveLimiter.VC_UPWIND ∧
      op.d_velocity_limiter_gcw = 2 ∧ op.d_density_limiter_gcw = 2 ∧
      op.d_vc_density_time_stepping_type = VCDensityTimeSteppingType.VC_FORWARD_EULER :=
  ⟨⟨rfl, rfl, rfl, rfl⟩, Or.inr (by decide),
    construct_defaults Examples.debug2d Examples.enums "op" (some Examples.linearInput) []
      Examples.afterFirstOperator
      (fun cfg h => by
        injection h with h
        subst h
        exact ⟨rfl, rfl, rfl, rfl⟩)
      (Or.inr (by decide))⟩

/-! ## The setters -/

theorem setTimeStepSize_ok (b : Build) (op : Operator) (dt : ℚ) (h : 0 ≤ dt) :
    setTimeStepSize b op dt = Except.ok { op with d_dt_is_set := true, d_dt := dt } := by
  unfold setTimeStepSize
  simp [not_lt.mpr h]

theorem setInterpolatedDensityPatchDataIndex_ok (b : Build) (op : Operator) (idx : Int)
    (h : 0 ≤ idx) :
    setInterpolatedDensityPatchDataIndex b op idx =
      Except.ok { op with d_rho_is_set := true, d_rho_interp_current_idx := idx } := by
  unfold setInterpolatedDensityPatchDataIndex
  simp [not_lt.mpr h]

theorem setTimeStepSize_repeated (b : Build) (dts : List ℚ) (hdts : ∀ x ∈ dts, 0 ≤ x)
    (dt : ℚ) (hdt : 0 ≤ dt) (op : Operator) :
    (dts ++ [dt]).foldlM (setTimeStepSize b) op =
      Except.ok { op with d_dt_is_set := true, d_dt := dt } := by
  induction dts generalizing op with
  | nil =>
    simp only [List.nil_append, List.foldlM_cons, List.foldlM_nil, setTimeStepSize_ok b op dt hdt]
    rfl
  | cons x xs ih =>
    rw [List.cons_append, List.foldlM_cons,
      setTimeStepSize_ok b op x (hdts x (List.mem_cons_self _ _))]
    exact ih (fun y hy => hdts y (List.mem_cons_of_mem _ hy)) _

theorem setInterpolatedDensityPatchDataIndex_repeated (b : Build) (idxs : List Int)
    (hidxs : ∀ x ∈ idxs, 0 ≤ x) (idx : Int) (hidx : 0 ≤ idx) (op : Operator) :
    (idxs ++ [idx]).foldlM (setInterpolatedDensityPatchDataIndex b) op =
      Except.ok { op with d_rho_is_set := true, d_rho_interp_current_idx := idx } := by
  induction idxs generalizing op with
  | nil =>
    simp only [List.nil_append, List.foldlM_cons, List.foldlM_nil,
      setInterpolatedDensityPatchDataIndex_ok b op idx hidx]
    rfl
  | cons x xs ih =>
    rw [List.cons_append, List.foldlM_cons,
      setInterpolatedDensityPatchDataIndex_ok b op x (hidxs x (List.mem_cons_self _ _))]
    exact ih (fun y hy => hidxs y (List.mem_cons_of_mem _ hy)) _

/-- C29: on every operator, initialized or not, in either build,
`setTimeStepSize(dt)` with `dt ≥ 0` returns the operator with the timestep
flag set and `d_dt = dt` and every other member unchanged, and
`setInterpolatedDensityPatchDataIndex(idx)` with `idx ≥ 0` returns it with
the density flag set and the density index `idx` and every other member
unchanged; any number of such calls in a row is the last call alone. -/
theorem setters_overwrite (b : Build) (op : Operator) :
    (∀ dt : ℚ, 0 ≤ dt →
      setTimeStepSize b op dt = Except.ok { op with d_dt_is_set := true, d_dt := dt }) ∧
    (∀ idx : Int, 0 ≤ idx →
      setInterpolatedDensityPatchDataIndex b op idx =
        Except.ok { op with d_rho_is_set := true, d_rho_interp_current_idx := idx }) ∧
    (∀ (dts : List ℚ) (dt : ℚ), (∀ x ∈ dts, 0 ≤ x) → 0 ≤ dt →
      (dts ++ [dt]).foldlM (setTimeStepSize b) op =
        Except.ok { op with d_dt_is_set := true, d_dt := dt }) ∧
    (∀ (idxs : List Int) (idx : Int), (∀ x ∈ idxs, 0 ≤ x) → 0 ≤ idx →
      (idxs ++ [idx]).foldlM (setInterpolatedDensityPatchDataIndex b) op =
        Except.ok { op with d_rho_is_set := true, d_rho_interp_current_idx := idx }) ∧
    (∀ (dt : ℚ) (idx : Int) (op1 op2 : Operator), setTimeStepSize b op dt = Except.ok op1 →
      setInterpolatedDensityPatchDataIndex b op1 idx = Except.ok op2 →
      op2 = { op with d_dt_is_set := true, d_dt := dt, d_rho_is_set := true,
                      d_rho_interp_current_idx := idx }) :=
  ⟨setTimeStepSize_ok b op, setInterpolatedDensityPatchDataIndex_ok b op,
    fun dts dt h1 h2 => setTimeStepSize_repeated b dts h1 dt h2 op,
    fun idxs idx h1 h2 => setInterpolatedDensityPatchDataIndex_repeated b idxs h1 idx h2 op,
    by
      intro dt idx op1 op2 h1 h2
      unfold setTimeStepSize at h1
      split at h1
      · cases h1
      · injection h1 with h1
        subst h1
        unfold setInterpolatedDensityPatchDataIndex at h2
        split at h2
        · cases h2
        · injection h2 with h2
          exact h2.symm⟩

/-! ## Membership and counting in the list of calls -/

theorem mem_patchLoopEvents (ev : Nat → List Event) (e : Event) :
    ∀ (n p0 : Nat), e ∈ patchLoopEvents ev p0 n ↔ ∃ p, p0 ≤ p ∧ p < p0 + n ∧ e ∈ ev p := by
  intro n
  induction n with
  | zero =>
    intro p0
    simp only [patchLoopEvents, List.not_mem_nil, false_iff]
    rintro ⟨p, h1, h2, _⟩
    omega
  | succ n ih =>
    intro p0
    simp only [patchLoopEvents, List.mem_append, ih]
    constructor
    · rintro (h | ⟨p, h1, h2, h3⟩)
      · exact ⟨p0, le_refl _, by omega, h⟩
      · exact ⟨p, by omega, by omega, h3⟩
    · rintro ⟨p, h1, h2, h3⟩
      by_cases hp : p = p0
      · subst hp
        exact Or.inl h3
      · exact Or.inr ⟨p, by omega, by omega, h3⟩

theorem mem_levelLoopEvents (ev : Int → Nat → List Event) (hier : PatchHierarchy) (e : Event) :
    ∀ lns : List Int, e ∈ levelLoopEvents ev hier lns ↔
      ∃ ln, ln ∈ lns ∧ ∃ p, p < (hier.getPatchLevel ln).length ∧ e ∈ ev ln p := by
  intro lns
  induction lns with
  | nil => simp [levelLoopEvents]
  | cons l lns ih =>
    simp only [levelLoopEvents, List.mem_append, ih, mem_patchLoopEvents, List.mem_cons]
    constructor
    · rintro (⟨p, _, h2, h3⟩ | ⟨ln, h1, p, h2, h3⟩)
      · exact ⟨l, Or.inl rfl, p, by omega, h3⟩
      · exact ⟨ln, Or.inr h1, p, h2, h3⟩
    · rintro ⟨ln, h1 | h1, p, h2, h3⟩
      · subst h1
        exact Or.inl ⟨p, Nat.zero_le _, by omega, h3⟩
      · exact Or.inr ⟨ln, h1, p, h2, h3⟩

theorem count_patchLoopEvents (ev : Nat → List Event) (e : Event) (p c : Nat)
    (hp : List.count e (ev p) = c) (hq : ∀ q, q ≠ p → List.count e (ev q) = 0) :
    ∀ (n p0 : Nat), List.count e (patchLoopEvents ev p0 n) =
      if p0 ≤ p ∧ p < p0 + n then c else 0 := by
  intro n
  induction n with
  | zero =>
    intro p0
    simp only [patchLoopEvents, List.count_nil]
    rw [if_neg]
    omega
  | succ n ih =>
    intro p0
    simp only [patchLoopEvents, List.count_append, ih]
    by_cases h : p0 = p
    · subst h
      rw [hp, if_neg (by omega), if_pos (by omega)]
      rfl
    · rw [hq p0 h]
      by_cases h1 : p0 + 1 ≤ p ∧ p < p0 + 1 + n
      · rw [if_pos h1, if_pos (by omega)]
        simp
      · rw [if_neg h1, if_neg (by omega)]

theorem count_levelLoopEvents (ev : Int → Nat → List Event) (hier : PatchHierarchy) (e : Event)
    (ln : Int) (p c : Nat) (hp : List.count e (ev ln p) = c)
    (hq : ∀ l q, (l ≠ ln ∨ q ≠ p) → List.count e (ev l q) = 0) :
    ∀ lns : List Int, lns.Nodup → List.count e (levelLoopEvents ev hier lns) =
      if ln ∈ lns ∧ p < (hier.getPatchLevel ln).length then c else 0 := by
  intro lns
  induction lns with
  | nil => intro _; simp [levelLoopEvents]
  | cons l lns ih =>
    intro hnd
    rw [List.nodup_cons] at hnd
    simp only [levelLoopEvents, List.count_append, ih hnd.2]
    by_cases h : l = ln
    · subst h
      rw [count_patchLoopEvents (ev l) e p c hp (fun q hq' => hq l q (Or.inr hq'))]
      by_cases hlen : p < (hier.getPatchLevel l).length
      · rw [if_pos ⟨Nat.zero_le _, by omega⟩, if_neg (fun hc => hnd.1 hc.1),
          if_pos ⟨List.mem_cons_self _ _, hlen⟩]
        rfl
      · rw [if_neg (by omega), if_neg (fun hc => hlen hc.2), if_neg (fun hc => hlen hc.2)]
    · have h0 : List.count e (patchLoopEvents (ev l) 0 (hier.getPatchLevel l).length) = 0 := by
        rw [List.count_eq_zero, mem_patchLoopEvents]
        rintro ⟨q, _, _, hmem⟩
        have := hq l q (Or.inl h)
        rw [List.count_eq_zero] at this
        exact this hmem
      rw [h0, Nat.zero_add]
      by_cases hc : ln ∈ lns ∧ p < (hier.getPatchLevel ln).length
      · rw [if_pos hc, if_pos ⟨List.mem_cons_of_mem _ hc.1, hc.2⟩]
      · rw [if_neg hc, if_neg]
        rintro ⟨h1, h2⟩
        rcases List.mem_cons.mp h1 with h1 | h1
        · exact h h1.symm
        · exact hc ⟨h1, h2⟩

/-- The halo fills among the calls of a completed `applyConvectiveOperator`:
the velocity fill, the density fill and, under SSPRK2, the stage fill. -/
theorem fillData_mem_applyEvents {b : Build} {op : Operator} {hier : PatchHierarchy}
    {U_idx N_idx : Int} {cached : Bool} {comps : List InterpolationTransactionComponent}
    {hom : Bool} {t : ℚ}
    (h : Event.fillData cached comps hom t ∈ applyEvents b op hier U_idx N_idx) :
    (cached = true ∧ comps = [velocityTransaction op U_idx] ∧ hom = false ∧
      t = op.d_solution_time) ∨
    (cached = false ∧ comps = [densityTransaction op op.d_rho_interp_current_idx] ∧
      hom = false ∧ t = op.d_solution_time) ∨
    (op.d_vc_density_time_stepping_type = VCDensityTimeSteppingType.VC_SSPRK2 ∧
      cached = false ∧ comps = [densityTransaction op op.d_rho_interp_new_idx] ∧
      hom = false ∧ t = op.d_solution_time + op.d_dt) := by
  have hfirst : ∀ lns, Event.fillData cached comps hom t ∉
      levelLoopEvents (firstSweepEvents b op N_idx) hier lns := by
    intro lns hc
    obtain ⟨ln, _, p, _, hmem⟩ := (mem_levelLoopEvents _ _ _ _).mp hc
    unfold firstSweepEvents at hmem
    split_ifs at hmem <;> simp at hmem
  have hsecond : ∀ lns, Event.fillData cached comps hom t ∉
      levelLoopEvents (secondSweepEvents b op N_idx) hier lns := by
    intro lns hc
    obtain ⟨ln, _, p, _, hmem⟩ := (mem_levelLoopEvents _ _ _ _).mp hc
    simp [secondSweepEvents] at hmem
  unfold applyEvents at h
  simp only [List.mem_append, List.mem_cons, List.mem_singleton, List.not_mem_nil,
    or_false] at h
  rcases h with ((h | h) | h) | h
  · rcases h with h | h | h | h | h | h
    · cases h
    · cases h
    · injection h with h1 h2 h3 h4
      exact Or.inl ⟨h1, h2, h3, h4⟩
    · cases h
    · injection h with h1 h2 h3 h4
      exact Or.inr (Or.inl ⟨h1, h2, h3, h4⟩)
    · cases h
  · exact absurd h (hfirst _)
  · split_ifs at h with hts
    · simp only [List.mem_append, List.mem_singleton] at h
      rcases h with h | h
      · injection h with h1 h2 h3 h4
        exact Or.inr (Or.inr ⟨hts, h1, h2, h3, h4⟩)
      · exact absurd h (hsecond _)
    · simp at h
  · cases h

/-! ## The boundary-extrapolation type -/

theorem construct_ok_bdry_extrap_type {b : Build} {E : Enums} {name : String}
    {input_db : Option Database} {form : ConvectiveDifferencingType} {bc : List BcCoefPtr}
    {db db' : VariableDatabase} {op : Operator}
    (h : construct b E name input_db form bc db = Except.ok (op, db')) :
    op.d_bdry_extrap_type =
      (readInput E input_db (memberInit b name form bc)).d_bdry_extrap_type := by
  unfold construct at h
  simp only at h
  split at h
  · exact absurd h (by simp)
  · split at h
    · exact absurd h (by simp)
    · split at h
      · exact absurd h (by simp)
      · split at h
        · exact absurd h (by simp)
        · split at h
          · exact absurd h (by simp)
          · rename_i op1 db1 h1
            obtain ⟨i, hop1⟩ := setupVelocityVariable_fields h1
            obtain ⟨j, k, hop⟩ := setupDensityVariable_fields h
            subst hop1
            subst hop
            rfl

theorem initializeOperatorState_bdry_extrap_type {b : Build} {op : Operator} {w : World}
    {input output : SAMRAIVectorReal} {op' : Operator} {w' : World}
    (h : initializeOperatorState b op w input output = Except.ok (op', w')) :
    op'.d_bdry_extrap_type = op.d_bdry_extrap_type := by
  obtain ⟨op0, w0, h0, hcase⟩ := initializeOperatorState_setup h
  obtain ⟨_, hr⟩ := (setupOperatorState_ok_iff b op0 w0 input output _).mp h0
  injection hr with hop _
  subst hop
  rcases hcase with ⟨_, rfl, _⟩ | ⟨_, rfl, _⟩ <;> rfl

/-- C22: the boundary-extrapolation type of a constructed operator is
"CONSTANT" when there is no input database or the database has no
`bdry_extrap_type` key, and the string under that key otherwise. No setter
and no call of `initializeOperatorState` or `applyConvectiveOperator` changes
it, and in a completed `applyConvectiveOperator` every halo fill (the
velocity fill, the density fill and under SSPRK2 the stage fill) is made with
a transaction component that carries it. -/
theorem bdry_extrap_type_reaches_every_fill (b : Build) (E : Enums) (name : String)
    (input_db : Option Database) (form : ConvectiveDifferencingType) (bc : List BcCoefPtr)
    (db db' : VariableDatabase) (op0 : Operator)
    (hc : construct b E name input_db form bc db = Except.ok (op0, db')) :
    op0.d_bdry_extrap_type =
      (match input_db with
       | none => "CONSTANT"
       | some cfg =>
         if cfg.keyExists "bdry_extrap_type" then cfg.getString "bdry_extrap_type"
         else "CONSTANT") ∧
    (∀ (op op1 : Operator) (w w1 : World) (input output : SAMRAIVectorReal),
      initializeOperatorState b op w input output = Except.ok (op1, w1) →
      op1.d_bdry_extrap_type = op.d_bdry_extrap_type) ∧
    (∀ (op op1 : Operator) (dt : ℚ), setTimeStepSize b op dt = Except.ok op1 →
      op1.d_bdry_extrap_type = op.d_bdry_extrap_type) ∧
    (∀ (op op1 : Operator) (idx : Int),
      setInterpolatedDensityPatchDataIndex b op idx = Except.ok op1 →
      op1.d_bdry_extrap_type = op.d_bdry_extrap_type) ∧
    (∀ (op op1 : Operator) (coefs : List BcCoefPtr),
      setInterpolatedDensityBoundaryConditions b op coefs = Except.ok op1 →
      op1.d_bdry_extrap_type = op.d_bdry_extrap_type) ∧
    ∀ (K : Kernels) (H : HaloService) (op op' : Operator) (w w' : World) (U_idx N_idx : Int)
      (hier : PatchHierarchy),
      op.d_bdry_extrap_type = op0.d_bdry_extrap_type → op.d_hierarchy = some hier →
      applyConvectiveOperator b K H op w U_idx N_idx = Except.ok (op', w') →
      w'.log = w.log ++ applyEvents b op hier U_idx N_idx ∧
      (∀ cached comps hom t,
        Event.fillData cached comps hom t ∈ applyEvents b op hier U_idx N_idx →
        ∀ c ∈ comps, c.phys_bdry_extrap_type = op0.d_bdry_extrap_type) ∧
      op'.d_bdry_extrap_type = op0.d_bdry_extrap_type := by
  refine ⟨?_, ?_, ?_, ?_, ?_, ?_⟩
  · rw [construct_ok_bdry_extrap_type hc]
    cases input_db with
    | none => rfl
    | some cfg =>
      rw [readInput_bdry_extrap_type]
      rfl
  · intro op op1 w w1 input output h
    exact initializeOperatorState_bdry_extrap_type h
  · intro op op1 dt h
    unfold setTimeStepSize at h
    split at h
    · cases h
    · injection h with h
      rw [← h]
  · intro op op1 idx h
    unfold setInterpolatedDensityPatchDataIndex at h
    split at h
    · cases h
    · injection h with h
      rw [← h]
  · intro op op1 coefs h
    unfold setInterpolatedDensityBoundaryConditions at h
    split at h
    · cases h
    · injection h with h
      rw [← h]
  · intro K H op op' w w' U_idx N_idx hier hb hhier h
    refine ⟨applyConvectiveOperator_log h hhier, ?_, ?_⟩
    · intro cached comps hom t hmem c hcm
      rcases fillData_mem_applyEvents hmem with ⟨_, hcomps, _⟩ | ⟨_, hcomps, _⟩ |
        ⟨_, _, hcomps, _⟩
      all_goals
        rw [hcomps, List.mem_singleton] at hcm
        rw [hcm]
        exact hb
    · obtain ⟨plan, hop'⟩ := applyConvectiveOperator_ok_operator h
      rw [hop']
      exact hb

theorem bdry_extrap_type_reaches_every_fill_witness :
    ∃ op db, construct Examples.debug2d Examples.enums "op" (some Examples.linearInput)
        ConvectiveDifferencingType.CONSERVATIVE [] { registrations := [] } = Except.ok (op, db) ∧
      op.d_bdry_extrap_type = "LINEAR" :=
  ⟨_, _, rfl,
    (bdry_extrap_type_reaches_every_fill Examples.debug2d Examples.enums "op"
      (some Examples.linearInput) ConvectiveDifferencingType.CONSERVATIVE []
      { registrations := [] } _ _ rfl).1⟩

/-! ## What a completed `applyConvectiveOperator` writes and which fills it makes -/

theorem initializeOperatorState_plan {b : Build} {op : Operator} {w : World}
    {input output : SAMRAIVectorReal} {op' : Operator} {w' : World}
    (h : initializeOperatorState b op w input output = Except.ok (op', w')) :
    op'.d_hier_bdry_fill = some (oneShotPlan
      (velocityTransaction op (input.getComponentDescriptorIndex 0)) input.getPatchHierarchy) ∧
    op'.d_transaction_comps = [velocityTransaction op (input.getComponentDescriptorIndex 0)] := by
  obtain ⟨op0, w0, h0, hcase⟩ := initializeOperatorState_setup h
  obtain ⟨_, hr⟩ := (setupOperatorState_ok_iff b op0 w0 input output _).mp h0
  injection hr with hop _
  subst hop
  rcases hcase with ⟨_, rfl, _⟩ | ⟨_, rfl, _⟩ <;> exact ⟨rfl, rfl⟩

/-- C25: `initializeOperatorState` caches a plan made of the velocity
transaction it records in `d_transaction_comps`, with the homogeneous flag
off. A completed `applyConvectiveOperator` on an operator that holds this
plan and these components makes its velocity fill through the cached plan,
with the transaction of `U_idx` and the homogeneous flag off, and returns an
operator that holds the same plan (same components, same flag, same
hierarchy) and the same recorded components. -/
theorem velocity_fill_restores_cached_plan (b : Build) (K : Kernels) (H : HaloService)
    (op0 op1 : Operator) (w0 w1 : World) (input output : SAMRAIVectorReal)
    (op op' : Operator) (w w' : World) (U_idx N_idx : Int)
    (hinit : initializeOperatorState b op0 w0 input output = Except.ok (op1, w1))
    (hplan : op.d_hier_bdry_fill = op1.d_hier_bdry_fill)
    (hcomps : op.d_transaction_comps = op1.d_transaction_comps)
    (h : applyConvectiveOperator b K H op w U_idx N_idx = Except.ok (op', w')) :
    op1.d_hier_bdry_fill = some (oneShotPlan
      (velocityTransaction op0 (input.getComponentDescriptorIndex 0)) input.getPatchHierarchy) ∧
    op1.d_transaction_comps =
      [velocityTransaction op0 (input.getComponentDescriptorIndex 0)] ∧
    (∃ rest, w'.log = w.log ++
      [Event.getOperationsDouble,
       Event.setupBcCoefObjects op.d_bc_coefs op.d_U_scratch_idx (-1) false,
       Event.fillData true [velocityTransaction op U_idx] false op.d_solution_time,
       Event.resetBcCoefObjects op.d_bc_coefs] ++ rest) ∧
    op'.d_hier_bdry_fill = op1.d_hier_bdry_fill ∧
    op'.d_transaction_comps = op1.d_transaction_comps := by
  obtain ⟨hp1, hc1⟩ := initializeOperatorState_plan hinit
  obtain ⟨plan, hier, m, hplan', hhier, _, _, hop'⟩ := applyConvectiveOperator_ok_steps h
  refine ⟨hp1, hc1, ?_, ?_, ?_⟩
  · refine ⟨(applyEvents b op hier U_idx N_idx).drop 4, ?_⟩
    rw [applyConvectiveOperator_log h hhier, List.append_assoc]
    rfl
  · rw [hplan', hp1] at hplan
    injection hplan with hplan
    subst hplan
    rw [hop', hp1]
    simp only [resetSelectOptions, velocityFill, oneShotPlan, hcomps, hc1]
  · rw [hop', ← hcomps]
    rfl

theorem velocity_fill_restores_cached_plan_witness :
    ∃ op' w',
      initializeOperatorState Examples.release1d Examples.cuiUpwindOperator Examples.blankWorld
        Examples.vector0 Examples.vector0 =
          Except.ok (initializedOperator Examples.cuiUpwindOperator Examples.vector0,
            (levelNumbers 0 0).foldl (allocateLevel Examples.cuiUpwindOperator)
              Examples.blankWorld) ∧
      applyConvectiveOperator Examples.release1d Examples.kernels Examples.halo
        (initializedOperator Examples.cuiUpwindOperator Examples.vector0)
        ((levelNumbers 0 0).foldl (allocateLevel Examples.cuiUpwindOperator)
          Examples.blankWorld) 3 4 = Except.ok (op', w') ∧
      op'.d_hier_bdry_fill =
        (initializedOperator Examples.cuiUpwindOperator Examples.vector0).d_hier_bdry_fill ∧
      op'.d_transaction_comps =
        (initializedOperator Examples.cuiUpwindOperator Examples.vector0).d_transaction_comps := by
  refine ⟨_, _, rfl, rfl, ?_⟩
  exact (velocity_fill_restores_cached_plan Examples.release1d Examples.kernels Examples.halo
    Examples.cuiUpwindOperator (initializedOperator Examples.cuiUpwindOperator Examples.vector0)
    Examples.blankWorld
    ((levelNumbers 0 0).foldl (allocateLevel Examples.cuiUpwindOperator) Examples.blankWorld)
    Examples.vector0 Examples.vector0
    (initializedOperator Examples.cuiUpwindOperator Examples.vector0) _
    ((levelNumbers 0 0).foldl (allocateLevel Examples.cuiUpwindOperator) Examples.blankWorld) _
    3 4 rfl rfl rfl rfl).2.2.2

/-- C26: in a completed `applyConvectiveOperator` the call after the velocity
fill is a fill through a plan built inside the call (not the cached one),
with the single transaction whose source is the current density index, whose
destination is the density scratch index and whose boundary coefficients are
`d_rho_interp_bc_coefs`, the member `setInterpolatedDensityBoundaryConditions`
assigns, at the solution time; the patch data after the two fills is the
halo-fill service's result for that transaction on the operator's hierarchy.
The cached plan the call returns is a function of the old plan and of the
recorded velocity components only. -/
theorem density_fill_uses_one_shot_plan (b : Build) (K : Kernels) (H : HaloService)
    (op op' : Operator) (w w' : World) (U_idx N_idx : Int)
    (plan : HierarchyGhostCellInterpolation) (hier : PatchHierarchy)
    (h : applyConvectiveOperator b K H op w U_idx N_idx = Except.ok (op', w'))
    (hplan : op.d_hier_bdry_fill = some plan) (hhier : op.d_hierarchy = some hier) :
    (∃ rest, w'.log = w.log ++
      [Event.getOperationsDouble,
       Event.setupBcCoefObjects op.d_bc_coefs op.d_U_scratch_idx (-1) false,
       Event.fillData true [velocityTransaction op U_idx] false op.d_solution_time,
       Event.resetBcCoefObjects op.d_bc_coefs,
       Event.fillData false [densityTransaction op op.d_rho_interp_current_idx] false
         op.d_solution_time] ++ rest) ∧
    (densityTransaction op op.d_rho_interp_current_idx).src_data_idx =
      op.d_rho_interp_current_idx ∧
    (densityTransaction op op.d_rho_interp_current_idx).dst_data_idx =
      op.d_rho_interp_scratch_idx ∧
    (densityTransaction op op.d_rho_interp_current_idx).robin_bc_coefs =
      op.d_rho_interp_bc_coefs ∧
    (afterFills b H op plan hier U_idx w).data =
      fillComponent b.NDIM H hier false op.d_solution_time
        (velocityFill b H op plan U_idx (w.record [Event.getOperationsDouble])).2.data
        (densityTransaction op op.d_rho_interp_current_idx) ∧
    op'.d_hier_bdry_fill =
      some { plan with transaction_comps := op.d_transaction_comps, homogeneous_bc := false } ∧
    op'.d_rho_interp_bc_coefs = op.d_rho_interp_bc_coefs ∧
    (∀ (coefs : List BcCoefPtr) (op1 : Operator),
      setInterpolatedDensityBoundaryConditions b op coefs = Except.ok op1 →
      op1.d_rho_interp_bc_coefs = coefs ∧
      ∀ src, (densityTransaction op1 src).robin_bc_coefs = coefs) := by
  obtain ⟨plan', hier', m, hplan', hhier', _, _, hop'⟩ := applyConvectiveOperator_ok_steps h
  rw [hplan] at hplan'
  injection hplan' with hplan'
  subst hplan'
  refine ⟨⟨(applyEvents b op hier U_idx N_idx).drop 5, ?_⟩, rfl, rfl, rfl, rfl, ?_, ?_, ?_⟩
  · rw [applyConvectiveOperator_log h hhier, List.append_assoc]
    rfl
  · rw [hop']
    rfl
  · rw [hop']
    rfl
  · intro coefs op1 hs
    unfold setInterpolatedDensityBoundaryConditions at hs
    split at hs
    · cases hs
    · injection hs with hs
      subst hs
      exact ⟨rfl, fun _ => rfl⟩

theorem density_fill_uses_one_shot_plan_witness :
    ∃ op' w' rest, applyConvectiveOperator Examples.release1d Examples.kernels Examples.halo
        (Examples.readyOperator VCDensityTimeSteppingType.VC_FORWARD_EULER 1) Examples.world 3 4 =
          Except.ok (op', w') ∧
      w'.log = Examples.world.log ++
        [Event.getOperationsDouble,
         Event.setupBcCoefObjects [] 0 (-1) false,
         Event.fillData true [velocityTransaction
           (Examples.readyOperator VCDensityTimeSteppingType.VC_FORWARD_EULER 1) 3] false 0,
         Event.resetBcCoefObjects [],
         Event.fillData false [densityTransaction
           (Examples.readyOperator VCDensityTimeSteppingType.VC_FORWARD_EULER 1) 5] false 0] ++
        rest := by
  obtain ⟨rest, hrest⟩ := (density_fill_uses_one_shot_plan Examples.release1d Examples.kernels
    Examples.halo (Examples.readyOperator VCDensityTimeSteppingType.VC_FORWARD_EULER 1) _
    Examples.world _ 3 4 Examples.plan0 Examples.hierarchy rfl rfl rfl).1
  exact ⟨_, _, rest, rfl, hrest⟩

/-- C27: under SSPRK2 a call with its preconditions met completes and logs,
after the calls of the first sweep, one fill of the density scratch from the
new density at `d_solution_time + d_dt`, with the boundary coefficients and
the extrapolation type of the first density fill, and then the calls of the
second sweep; on the faces the refilled scratch is the stage-1 density `w1`
and the second sweep reconstructs the face density from the refilled scratch.
Under FORWARD_EULER the call logs the calls of the first sweep and the second
mass integral, with no further fill and no second sweep. -/
theorem stage_fill_between_sweeps (b : Build) (K : Kernels) (H : HaloService)
    (op : Operator) (w : World) (U_idx N_idx : Int) (plan : HierarchyGhostCellInterpolation)
    (hier : PatchHierarchy) (m : Nat)
    (hpre : b.NDEBUG = true ∨ preconditions op U_idx)
    (hplan : op.d_hier_bdry_fill = some plan) (hhier : op.d_hierarchy = some hier)
    (hmath : op.d_hier_math_ops = some m)
    (hform : op.d_difference_form = ConvectiveDifferencingType.CONSERVATIVE)
    (hvl : op.d_vc_velocity_convective_limiter ≠ VCConvectiveLimiter.UNKNOWN_VC_CONVECTIVE_LIMITER)
    (hdl : op.d_vc_density_convective_limiter ≠ VCConvectiveLimiter.UNKNOWN_VC_CONVECTIVE_LIMITER)
    (hNs : N_idx ≠ op.d_rho_interp_scratch_idx)
    (hNnew : N_idx ≠ op.d_rho_interp_new_idx) (hNcur : N_idx ≠ op.d_rho_interp_current_idx)
    (hcn : op.d_rho_interp_current_idx ≠ op.d_rho_interp_new_idx)
    (hcs : op.d_rho_interp_current_idx ≠ op.d_rho_interp_scratch_idx) :
    (op.d_vc_density_time_stepping_type = VCDensityTimeSteppingType.VC_SSPRK2 →
      ∃ w1 op' w',
        sweepLevels (firstSweepPatch b K op N_idx) hier
          (levelNumbers op.d_coarsest_ln op.d_finest_ln)
          ((afterFills b H op plan hier U_idx w).record
            [Event.integral op.d_rho_interp_current_idx]) = Except.ok w1 ∧
        applyConvectiveOperator b K H op w U_idx N_idx = Except.ok (op', w') ∧
        w'.log = w.log ++
          [Event.getOperationsDouble,
           Event.setupBcCoefObjects op.d_bc_coefs op.d_U_scratch_idx (-1) false,
           Event.fillData true [velocityTransaction op U_idx] false op.d_solution_time,
           Event.resetBcCoefObjects op.d_bc_coefs,
           Event.fillData false [densityTransaction op op.d_rho_interp_current_idx] false
             op.d_solution_time,
           Event.integral op.d_rho_interp_current_idx] ++
          levelLoopEvents (firstSweepEvents b op N_idx) hier
            (levelNumbers op.d_coarsest_ln op.d_finest_ln) ++
          [Event.fillData false [densityTransaction op op.d_rho_interp_new_idx] false
            (op.d_solution_time + op.d_dt)] ++
          levelLoopEvents (secondSweepEvents b op N_idx) hier
            (levelNumbers op.d_coarsest_ln op.d_finest_ln) ++
          [Event.integral op.d_rho_interp_new_idx] ∧
        densityTransaction op op.d_rho_interp_new_idx =
          { densityTransaction op op.d_rho_interp_current_idx with
            src_data_idx := op.d_rho_interp_new_idx } ∧
        (densityTransaction op op.d_rho_interp_new_idx).dst_data_idx =
          op.d_rho_interp_scratch_idx ∧
        ∀ ln, ln ∈ levelNumbers op.d_coarsest_ln op.d_finest_ln → ∀ p patch,
          (hier.getPatchLevel ln).get? p = some patch →
          ∃ rho_half2,
            faceDensity K op patch ((stageFill b H op hier w1).patchData ln p) =
              Except.ok rho_half2 ∧
            ∀ axis, axis < b.NDIM → ∀ i, (toSideBox patch.box axis).contains b.NDIM i →
              (stageFill b H op hier w1).data op.d_rho_interp_scratch_idx ln p axis i =
                w1.data op.d_rho_interp_new_idx ln p axis i ∧
              w'.data op.d_rho_interp_new_idx ln p axis i =
                (1 / 2) * (afterFills b H op plan hier U_idx w).data
                  op.d_rho_interp_current_idx ln p axis i +
                (1 / 2) * (w1.data op.d_rho_interp_new_idx ln p axis i -
                  op.d_dt * fluxDivergence b.NDIM patch.dx
                    (advectionVelocity K op patch
                      ((stageFill b H op hier w1).patchData ln p) axis)
                    (rho_half2 axis) i)) ∧
    (op.d_vc_density_time_stepping_type = VCDensityTimeSteppingType.VC_FORWARD_EULER →
      ∃ op' w', applyConvectiveOperator b K H op w U_idx N_idx = Except.ok (op', w') ∧
        w'.log = w.log ++
          [Event.getOperationsDouble,
           Event.setupBcCoefObjects op.d_bc_coefs op.d_U_scratch_idx (-1) false,
           Event.fillData true [velocityTransaction op U_idx] false op.d_solution_time,
           Event.resetBcCoefObjects op.d_bc_coefs,
           Event.fillData false [densityTransaction op op.d_rho_interp_current_idx] false
             op.d_solution_time,
           Event.integral op.d_rho_interp_current_idx] ++
          levelLoopEvents (firstSweepEvents b op N_idx) hier
            (levelNumbers op.d_coarsest_ln op.d_finest_ln) ++
          [Event.integral op.d_rho_interp_new_idx]) := by
  constructor
  · intro hts
    obtain ⟨w1, op', w', hw1, happly, hpatch⟩ := applyConvectiveOperator_ssprk2 b K H op w
      U_idx N_idx plan hier m hpre hplan hhier hmath hform hvl hdl hts hNnew hNcur hcn hcs
    refine ⟨w1, op', w', hw1, happly, ?_, rfl, rfl, ?_⟩
    · rw [applyConvectiveOperator_log happly hhier]
      simp only [applyEvents, hts, if_true, List.append_assoc]
    · intro ln hln p patch hp
      obtain ⟨r1, r2, _, hR2, hval⟩ := hpatch ln hln p patch hp
      exact ⟨r2, hR2, fun axis ha i hi => ⟨(hval axis ha i hi).2.1, (hval axis ha i hi).2.2⟩⟩
  · intro hts
    obtain ⟨op', w', happly, _⟩ := applyConvectiveOperator_forward_euler b K H op w U_idx
      N_idx plan hier m hpre hplan hhier hmath hform hvl hdl hts hNs
    refine ⟨op', w', happly, ?_⟩
    rw [applyConvectiveOperator_log happly hhier]
    have hne : op.d_vc_density_time_stepping_type ≠ VCDensityTimeSteppingType.VC_SSPRK2 := by
      rw [hts]; decide
    simp only [applyEvents, hne, if_false, List.append_assoc, List.append_nil, List.nil_append]

theorem stage_fill_between_sweeps_witness :
    ∃ op' w', applyConvectiveOperator Examples.release1d Examples.kernels Examples.halo
        (Examples.readyOperator VCDensityTimeSteppingType.VC_SSPRK2 1) Examples.world 3 4 =
          Except.ok (op', w') ∧
      Event.fillData false
        [densityTransaction (Examples.readyOperator VCDensityTimeSteppingType.VC_SSPRK2 1) 2]
        false
        ((Examples.readyOperator VCDensityTimeSteppingType.VC_SSPRK2 1).d_solution_time +
          (Examples.readyOperator VCDensityTimeSteppingType.VC_SSPRK2 1).d_dt) ∈ w'.log := by
  obtain ⟨w1, op', w', _, happly, hlog, _⟩ := (stage_fill_between_sweeps Examples.release1d
    Examples.kernels Examples.halo
    (Examples.readyOperator VCDensityTimeSteppingType.VC_SSPRK2 1) Examples.world 3 4
    Examples.plan0 Examples.hierarchy 0 (Or.inl rfl) rfl rfl rfl rfl (by decide) (by decide)
    (show (4 : Int) ≠ 1 by decide) (show (4 : Int) ≠ 2 by decide)
    (show (4 : Int) ≠ 5 by decide) (show (5 : Int) ≠ 2 by decide)
    (show (5 : Int) ≠ 1 by decide)).1 rfl
  refine ⟨op', w', happly, ?_⟩
  rw [hlog]
  simp only [List.mem_append, List.mem_singleton]
  exact Or.inl (Or.inl (Or.inr rfl))

/-! ## The velocity scratch between the two sweeps -/

theorem fillData_not_mem_firstSweep (b : Build) (op : Operator) (N_idx : Int)
    (hier : PatchHierarchy) (lns : List Int) (cached : Bool)
    (comps : List InterpolationTransactionComponent) (hom : Bool) (t : ℚ) :
    Event.fillData cached comps hom t ∉
      levelLoopEvents (firstSweepEvents b op N_idx) hier lns := by
  intro hc
  obtain ⟨ln, _, p, _, hmem⟩ := (mem_levelLoopEvents _ _ _ _).mp hc
  unfold firstSweepEvents at hmem
  split_ifs at hmem <;> simp at hmem

theorem fillData_not_mem_secondSweep (b : Build) (op : Operator) (N_idx : Int)
    (hier : PatchHierarchy) (lns : List Int) (cached : Bool)
    (comps : List InterpolationTransactionComponent) (hom : Bool) (t : ℚ) :
    Event.fillData cached comps hom t ∉
      levelLoopEvents (secondSweepEvents b op N_idx) hier lns := by
  intro hc
  obtain ⟨ln, _, p, _, hmem⟩ := (mem_levelLoopEvents _ _ _ _).mp hc
  simp [secondSweepEvents] at hmem

/-- The fill through the cached plan occurs once among the calls of a
completed `applyConvectiveOperator`. -/
theorem count_velocity_fill (b : Build) (op : Operator) (hier : PatchHierarchy)
    (U_idx N_idx : Int) :
    List.count (Event.fillData true [velocityTransaction op U_idx] false op.d_solution_time)
      (applyEvents b op hier U_idx N_idx) = 1 := by
  unfold applyEvents
  split_ifs
  · simp only [List.count_append]
    rw [List.count_eq_zero.mpr (fillData_not_mem_firstSweep b op N_idx hier _ _ _ _ _),
      List.count_eq_zero.mpr (fillData_not_mem_secondSweep b op N_idx hier _ _ _ _ _)]
    simp [List.count_cons]
  · simp only [List.count_append]
    rw [List.count_eq_zero.mpr (fillData_not_mem_firstSweep b op N_idx hier _ _ _ _ _)]
    simp [List.count_cons]

/-- A call under SSPRK2 on a supported configuration completes, through the
two sweeps. -/
theorem applyConvectiveOperator_ssprk2_ok (b : Build) (K : Kernels) (H : HaloService)
    (op : Operator) (w : World) (U_idx N_idx : Int) (plan : HierarchyGhostCellInterpolation)
    (hier : PatchHierarchy) (m : Nat)
    (hpre : b.NDEBUG = true ∨ preconditions op U_idx)
    (hplan : op.d_hier_bdry_fill = some plan) (hhier : op.d_hierarchy = some hier)
    (hmath : op.d_hier_math_ops = some m)
    (hform : op.d_difference_form = ConvectiveDifferencingType.CONSERVATIVE)
    (hvl : op.d_vc_velocity_convective_limiter ≠ VCConvectiveLimiter.UNKNOWN_VC_CONVECTIVE_LIMITER)
    (hdl : op.d_vc_density_convective_limiter ≠ VCConvectiveLimiter.UNKNOWN_VC_CONVECTIVE_LIMITER)
    (hts : op.d_vc_density_time_stepping_type = VCDensityTimeSteppingType.VC_SSPRK2) :
    ∃ w1 w2 op',
      sweepLevels (firstSweepPatch b K op N_idx) hier
        (levelNumbers op.d_coarsest_ln op.d_finest_ln)
        ((afterFills b H op plan hier U_idx w).record
          [Event.integral op.d_rho_interp_current_idx]) = Except.ok w1 ∧
      sweepLevels (secondSweepPatch b K op N_idx) hier
        (levelNumbers op.d_coarsest_ln op.d_finest_ln) (stageFill b H op hier w1) =
          Except.ok w2 ∧
      applyConvectiveOperator b K H op w U_idx N_idx =
        Except.ok (op', w2.record [Event.integral op.d_rho_interp_new_idx]) := by
  obtain ⟨w1, hw1, _, _⟩ := sweepLevels_spec (firstSweepPatch b K op N_idx) hier
    (firstSweepPatch_ok b K op N_idx hform hvl hdl) _
    (levelNumbers_nodup op.d_coarsest_ln op.d_finest_ln)
    ((afterFills b H op plan hier U_idx w).record [Event.integral op.d_rho_interp_current_idx])
  obtain ⟨w2, hw2, _, _⟩ := sweepLevels_spec (secondSweepPatch b K op N_idx) hier
    (secondSweepPatch_ok b K op N_idx hform hvl hdl) _
    (levelNumbers_nodup op.d_coarsest_ln op.d_finest_ln) (stageFill b H op hier w1)
  refine ⟨w1, w2, resetSelectOptions
    { op with
      d_hier_bdry_fill :=
        some (velocityFill b H op plan U_idx (w.record [Event.getOperationsDouble])).1 },
    hw1, hw2, ?_⟩
  rw [applyConvectiveOperator_eq b K H op w U_idx N_idx plan hier m hpre hplan hhier hmath]
  simp only [sweeps, hw1, hts, if_true, hw2]

/-- C30: under SSPRK2, on a supported configuration whose velocity scratch
descriptor is neither the density scratch nor the new density, a call with
its preconditions met completes; among its calls there is one fill of the
velocity scratch, the fill through the cached plan; the velocity scratch data
is the same after the first sweep and after the stage fill as after that
fill (and at the end of the call, when the output descriptor is another one),
so on every patch the advective velocity the second sweep computes is the one
the first sweep computed. -/
theorem velocity_scratch_fixed_between_sweeps (b : Build) (K : Kernels) (H : HaloService)
    (op : Operator) (w : World) (U_idx N_idx : Int) (plan : HierarchyGhostCellInterpolation)
    (hier : PatchHierarchy) (m : Nat)
    (hpre : b.NDEBUG = true ∨ preconditions op U_idx)
    (hplan : op.d_hier_bdry_fill = some plan) (hhier : op.d_hierarchy = some hier)
    (hmath : op.d_hier_math_ops = some m)
    (hform : op.d_difference_form = ConvectiveDifferencingType.CONSERVATIVE)
    (hvl : op.d_vc_velocity_convective_limiter ≠ VCConvectiveLimiter.UNKNOWN_VC_CONVECTIVE_LIMITER)
    (hdl : op.d_vc_density_convective_limiter ≠ VCConvectiveLimiter.UNKNOWN_VC_CONVECTIVE_LIMITER)
    (hts : op.d_vc_density_time_stepping_type = VCDensityTimeSteppingType.VC_SSPRK2)
    (hUs : op.d_U_scratch_idx ≠ op.d_rho_interp_scratch_idx)
    (hUn : op.d_U_scratch_idx ≠ op.d_rho_interp_new_idx) :
    ∃ w1 op' w',
      sweepLevels (firstSweepPatch b K op N_idx) hier
        (levelNumbers op.d_coarsest_ln op.d_finest_ln)
        ((afterFills b H op plan hier U_idx w).record
          [Event.integral op.d_rho_interp_current_idx]) = Except.ok w1 ∧
      applyConvectiveOperator b K H op w U_idx N_idx = Except.ok (op', w') ∧
      w'.log = w.log ++ applyEvents b op hier U_idx N_idx ∧
      List.count (Event.fillData true [velocityTransaction op U_idx] false op.d_solution_time)
        (applyEvents b op hier U_idx N_idx) = 1 ∧
      (∀ cached comps hom t,
        Event.fillData cached comps hom t ∈ applyEvents b op hier U_idx N_idx →
        (∃ c ∈ comps, c.dst_data_idx = op.d_U_scratch_idx) →
        cached = true ∧ comps = [velocityTransaction op U_idx] ∧ hom = false ∧
          t = op.d_solution_time) ∧
      w1.data op.d_U_scratch_idx =
        (afterFills b H op plan hier U_idx w).data op.d_U_scratch_idx ∧
      (stageFill b H op hier w1).data op.d_U_scratch_idx =
        (afterFills b H op plan hier U_idx w).data op.d_U_scratch_idx ∧
      (N_idx ≠ op.d_U_scratch_idx →
        w'.data op.d_U_scratch_idx =
          (afterFills b H op plan hier U_idx w).data op.d_U_scratch_idx) ∧
      ∀ ln p patch,
        advectionVelocity K op patch ((stageFill b H op hier w1).patchData ln p) =
          advectionVelocity K op patch
            ((afterFills b H op plan hier U_idx w).patchData ln p) := by
  obtain ⟨w1, w2, op', hw1, hw2, happly⟩ := applyConvectiveOperator_ssprk2_ok b K H op w U_idx
    N_idx plan hier m hpre hplan hhier hmath hform hvl hdl hts
  obtain ⟨_, _, hdata1⟩ := firstSweep_trace hw1
  obtain ⟨_, _, hdata2⟩ := secondSweep_trace hw2
  have hne : op.d_vc_density_time_stepping_type ≠ VCDensityTimeSteppingType.VC_FORWARD_EULER := by
    rw [hts]; decide
  have h1 : w1.data op.d_U_scratch_idx =
      (afterFills b H op plan hier U_idx w).data op.d_U_scratch_idx :=
    hdata1 _ hUn (Or.inl hne)
  have h2 : (stageFill b H op hier w1).data op.d_U_scratch_idx =
      (afterFills b H op plan hier U_idx w).data op.d_U_scratch_idx := by
    rw [stageFill_other b H op hier w1 _ hUs, h1]
  refine ⟨w1, op', _, hw1, happly, applyConvectiveOperator_log happly hhier,
    count_velocity_fill b op hier U_idx N_idx, ?_, h1, h2, ?_, ?_⟩
  · intro cached comps hom t hmem hdst
    rcases fillData_mem_applyEvents hmem with hc | ⟨_, hcomps, _⟩ | ⟨_, _, hcomps, _⟩
    · exact hc
    · obtain ⟨c, hcm, hcd⟩ := hdst
      rw [hcomps, List.mem_singleton] at hcm
      rw [hcm] at hcd
      exact absurd hcd.symm hUs
    · obtain ⟨c, hcm, hcd⟩ := hdst
      rw [hcomps, List.mem_singleton] at hcm
      rw [hcm] at hcd
      exact absurd hcd.symm hUs
  · intro hN
    show w2.data op.d_U_scratch_idx = _
    rw [hdata2 _ hUn (Ne.symm hN), h2]
  · intro ln p patch
    unfold advectionVelocity
    have : (stageFill b H op hier w1).patchData ln p op.d_U_scratch_idx =
        (afterFills b H op plan hier U_idx w).patchData ln p op.d_U_scratch_idx := by
      show (stageFill b H op hier w1).data op.d_U_scratch_idx ln p = _
      rw [h2]
      rfl
    rw [this]

theorem velocity_scratch_fixed_between_sweeps_witness :
    ∃ w1 op' w',
      sweepLevels (firstSweepPatch Examples.release1d Examples.kernels
          (Examples.readyOperator VCDensityTimeSteppingType.VC_SSPRK2 1) 4) Examples.hierarchy
        (levelNumbers 0 0)
        ((afterFills Examples.release1d Examples.halo
          (Examples.readyOperator VCDensityTimeSteppingType.VC_SSPRK2 1) Examples.plan0
          Examples.hierarchy 3 Examples.world).record [Event.integral 5]) = Except.ok w1 ∧
      applyConvectiveOperator Examples.release1d Examples.kernels Examples.halo
        (Examples.readyOperator VCDensityTimeSteppingType.VC_SSPRK2 1) Examples.world 3 4 =
          Except.ok (op', w') ∧
      (stageFill Examples.release1d Examples.halo
        (Examples.readyOperator VCDensityTimeSteppingType.VC_SSPRK2 1) Examples.hierarchy
        w1).data 0 =
        (afterFills Examples.release1d Examples.halo
          (Examples.readyOperator VCDensityTimeSteppingType.VC_SSPRK2 1) Examples.plan0
          Examples.hierarchy 3 Examples.world).data 0 ∧
      w'.data 0 =
        (afterFills Examples.release1d Examples.halo
          (Examples.readyOperator VCDensityTimeSteppingType.VC_SSPRK2 1) Examples.plan0
          Examples.hierarchy 3 Examples.world).data 0 := by
  obtain ⟨w1, op', w', hw1, happly, _, _, _, _, h2, h3, _⟩ :=
    velocity_scratch_fixed_between_sweeps Examples.release1d Examples.kernels Examples.halo
      (Examples.readyOperator VCDensityTimeSteppingType.VC_SSPRK2 1) Examples.world 3 4
      Examples.plan0 Examples.hierarchy 0 (Or.inl rfl) rfl rfl rfl rfl (by decide) (by decide)
      rfl (show (0 : Int) ≠ 1 by decide) (show (0 : Int) ≠ 2 by decide)
  exact ⟨w1, op', w', hw1, happly, h2, h3 (show (4 : Int) ≠ 0 by decide)⟩

/-! ## The convective derivative -/

theorem foldlM_ok_eq {σ α : Type} (f : σ → α → Except Failure σ) (g : σ → α → σ)
    (h : ∀ s a, f s a = Except.ok (g s a)) :
    ∀ (l : List α) (s : σ), l.foldlM f s = Except.ok (l.foldl g s) := by
  intro l
  induction l with
  | nil => intro s; rfl
  | cons a l ih =>
    intro s
    rw [List.foldlM_cons, h s a, List.foldl_cons]
    exact ih (g s a)

theorem setAxisLoop_apply (G : Nat → (Index → ℚ) → Index → ℚ) (N0 : SideData) (n a : Nat) :
    (List.range n).foldl (fun (N : SideData) axis => SideData.setAxis N axis (G axis (N axis)))
      N0 a = if a < n then G a (N0 a) else N0 a := by
  induction n generalizing a with
  | zero => simp
  | succ n ih =>
    rw [List.range_succ, List.foldl_append, List.foldl_cons, List.foldl_nil]
    generalize List.foldl _ N0 (List.range n) = P at ih ⊢
    unfold SideData.setAxis
    by_cases h2 : a = n
    · subst h2
      simp [ih]
    · by_cases h3 : a < n
      · have : a < n + 1 := by omega
        simp [ih, h2, h3, this]
      · have : ¬ a < n + 1 := by omega
        simp [ih, h2, h3, this]

/-- With the CONSERVATIVE form `computeConvectiveDerivative` writes every
component `axis < NDIM` of the output once: the kernel's result on the
component found before the call. -/
theorem computeConvectiveDerivative_apply {b : Build} {K : Kernels} {op : Operator}
    {N0 N : SideData} {U_adv R_half U_half : Nat → FaceData} {sides : Nat → Box} {dx : Nat → ℚ}
    (hform : op.d_difference_form = ConvectiveDifferencingType.CONSERVATIVE)
    (h : computeConvectiveDerivative b K op N0 U_adv R_half U_half sides dx = Except.ok N)
    (a : Nat) :
    N a = if a < b.NDIM then
        K.convect_derivative dx (sides a) (U_adv a)
          (K.vc_navier_stokes_compute_momentum sides R_half U_half a) (N0 a)
      else N0 a := by
  unfold computeConvectiveDerivative at h
  simp only [hform] at h
  rw [foldlM_ok_eq _ (fun (N : SideData) axis => SideData.setAxis N axis
    (K.convect_derivative dx (sides axis) (U_adv axis)
      (K.vc_navier_stokes_compute_momentum sides R_half U_half axis) (N axis)))
    (fun _ _ => rfl)] at h
  injection h with h
  rw [← h]
  exact setAxisLoop_apply (fun axis Na => K.convect_derivative dx (sides axis) (U_adv axis)
    (K.vc_navier_stokes_compute_momentum sides R_half U_half axis) Na) N0 b.NDIM a

/-- Under forward Euler the body of the first sweep leaves in the output
descriptor the convective derivative computed from the face density and the
face velocity of the patch data it started from. -/
theorem firstSweepPatch_output {b : Build} {K : Kernels} {op : Operator} {N_idx : Int}
    {ln : Int} {p : Nat} {patch : Patch} {pd : PatchData} {r : PatchData × List Event}
    (h : firstSweepPatch b K op N_idx ln p patch pd = Except.ok r)
    (hts : op.d_vc_density_time_stepping_type = VCDensityTimeSteppingType.VC_FORWARD_EULER)
    (hN : N_idx ≠ op.d_rho_interp_new_idx) :
    ∃ R_half U_half N, faceDensity K op patch pd = Except.ok R_half ∧
      faceVelocity K op patch pd = Except.ok U_half ∧
      computeConvectiveDerivative b K op (pd N_idx) (advectionVelocity K op patch pd)
        R_half U_half (sideBoxes patch) patch.dx = Except.ok N ∧
      r.1 N_idx = N := by
  unfold firstSweepPatch at h
  simp only [hts, if_true] at h
  split at h
  · cases h
  · rename_i R_half hR
    split at h
    · cases h
    · rename_i U_half hU
      split at h
      · cases h
      · rename_i N hN'
        injection h with h
        refine ⟨R_half, U_half, N, hR, hU, hN', ?_⟩
        rw [← h]
        funext a
        simp only
        rw [updateDensityLoop_apply, if_neg (fun hc => hN hc.1)]
        simp [PatchData.set]

/-- The same for the body of the second sweep. -/
theorem secondSweepPatch_output {b : Build} {K : Kernels} {op : Operator} {N_idx : Int}
    {ln : Int} {p : Nat} {patch : Patch} {pd : PatchData} {r : PatchData × List Event}
    (h : secondSweepPatch b K op N_idx ln p patch pd = Except.ok r)
    (hN : N_idx ≠ op.d_rho_interp_new_idx) :
    ∃ R_half U_half N, faceDensity K op patch pd = Except.ok R_half ∧
      faceVelocity K op patch pd = Except.ok U_half ∧
      computeConvectiveDerivative b K op (pd N_idx) (advectionVelocity K op patch pd)
        R_half U_half (sideBoxes patch) patch.dx = Except.ok N ∧
      r.1 N_idx = N := by
  unfold secondSweepPatch at h
  simp only at h
  split at h
  · cases h
  · rename_i R_half hR
    split at h
    · cases h
    · rename_i U_half hU
      split at h
      · cases h
      · rename_i N hN'
        injection h with h
        refine ⟨R_half, U_half, N, hR, hU, hN', ?_⟩
        rw [← h]
        funext a
        simp only
        rw [sspRk2UpdateDensityLoop_apply, if_neg (fun hc => hN hc.1)]
        simp [PatchData.set]

theorem count_derivative_firstSweepEvents (b : Build) (op : Operator) (N_idx : Int)
    (ln l : Int) (p q : Nat) :
    List.count (Event.computeConvectiveDerivative ln p N_idx)
      (firstSweepEvents b op N_idx l q) =
      if op.d_vc_density_time_stepping_type = VCDensityTimeSteppingType.VC_FORWARD_EULER ∧
        l = ln ∧ q = p then 1 else 0 := by
  have hmap : List.count (Event.computeConvectiveDerivative ln p N_idx)
      ((List.range b.NDIM).map (fun axis =>
        Event.updateDensity l q axis op.d_rho_interp_scratch_idx op.d_rho_interp_new_idx)) = 0 := by
    rw [List.count_eq_zero]
    simp
  unfold firstSweepEvents
  simp only [List.count_append, hmap]
  by_cases hts : op.d_vc_density_time_stepping_type = VCDensityTimeSteppingType.VC_FORWARD_EULER
  · by_cases hl : l = ln
    · by_cases hq : q = p
      · simp [List.count_cons, hts, hl, hq]
      · simp [List.count_cons, hts, hl, hq]
    · simp [List.count_cons, hts, hl]
  · simp [List.count_cons, hts]

theorem count_derivative_secondSweepEvents (b : Build) (op : Operator) (N_idx : Int)
    (ln l : Int) (p q : Nat) :
    List.count (Event.computeConvectiveDerivative ln p N_idx)
      (secondSweepEvents b op N_idx l q) = if l = ln ∧ q = p then 1 else 0 := by
  have hmap : List.count (Event.computeConvectiveDerivative ln p N_idx)
      ((List.range b.NDIM).map (fun axis =>
        Event.sspRk2UpdateDensity l q axis op.d_rho_interp_current_idx
          op.d_rho_interp_new_idx)) = 0 := by
    rw [List.count_eq_zero]
    simp
  unfold secondSweepEvents
  simp only [List.count_append, hmap]
  by_cases hl : l = ln
  · by_cases hq : q = p
    · simp [List.count_cons, hl, hq]
    · simp [List.count_cons, hl, hq]
  · simp [List.count_cons, hl]

/-- On every patch of the level range the convective derivative is computed
once in a completed call under one of the two schemes. -/
theorem count_derivative_applyEvents (b : Build) (op : Operator) (hier : PatchHierarchy)
    (U_idx N_idx : Int) (ln : Int) (p : Nat)
    (hln : ln ∈ levelNumbers op.d_coarsest_ln op.d_finest_ln)
    (hp : p < (hier.getPatchLevel ln).length)
    (hts : op.d_vc_density_time_stepping_type = VCDensityTimeSteppingType.VC_FORWARD_EULER ∨
      op.d_vc_density_time_stepping_type = VCDensityTimeSteppingType.VC_SSPRK2) :
    List.count (Event.computeConvectiveDerivative ln p N_idx)
      (applyEvents b op hier U_idx N_idx) = 1 := by
  have hnd := levelNumbers_nodup op.d_coarsest_ln op.d_finest_ln
  have hsecond : List.count (Event.computeConvectiveDerivative ln p N_idx)
      (levelLoopEvents (secondSweepEvents b op N_idx) hier
        (levelNumbers op.d_coarsest_ln op.d_finest_ln)) = 1 := by
    rw [count_levelLoopEvents (secondSweepEvents b op N_idx) hier _ ln p 1
      (by rw [count_derivative_secondSweepEvents, if_pos ⟨rfl, rfl⟩])
      (fun l q hlq => by
        rw [count_derivative_secondSweepEvents, if_neg]
        rintro ⟨h1, h2⟩
        rcases hlq with h | h
        · exact h h1
        · exact h h2) _ hnd, if_pos ⟨hln, hp⟩]
  unfold applyEvents
  rcases hts with hts | hts
  · have hne : op.d_vc_density_time_stepping_type ≠ VCDensityTimeSteppingType.VC_SSPRK2 := by
      rw [hts]; decide
    simp only [hne, if_false, List.count_append, List.append_nil]
    rw [count_levelLoopEvents (firstSweepEvents b op N_idx) hier _ ln p 1
      (by rw [count_derivative_firstSweepEvents, if_pos ⟨hts, rfl, rfl⟩])
      (fun l q hlq => by
        rw [count_derivative_firstSweepEvents, if_neg]
        rintro ⟨_, h1, h2⟩
        rcases hlq with h | h
        · exact h h1
        · exact h h2) _ hnd, if_pos ⟨hln, hp⟩]
    simp [List.count_cons]
  · have hne : op.d_vc_density_time_stepping_type ≠
        VCDensityTimeSteppingType.VC_FORWARD_EULER := by
      rw [hts]; decide
    simp only [hts, if_true, List.count_append]
    rw [hsecond, count_levelLoopEvents (firstSweepEvents b op N_idx) hier _ ln p 0
      (by rw [count_derivative_firstSweepEvents, if_neg (fun hc => hne hc.1)])
      (fun l q _ => by
        rw [count_derivative_firstSweepEvents, if_neg (fun hc => hne hc.1)]) _ hnd]
    simp [List.count_cons]

/-- C23: on a supported configuration whose output descriptor is not the new
density, a call with its preconditions met completes under either scheme and
computes the convective derivative once on every patch of the level range,
writing every axis component of the output descriptor once (the kernel's
result on the component found before). Under FORWARD_EULER this happens in
the first sweep, from the face density and face velocity reconstructed from
the patch data after the two fills. Under SSPRK2 the first sweep makes no
velocity reconstruction and leaves the output descriptor as it was, and the
derivative is computed in the second sweep from the reconstructions of the
patch data after the stage fill, whose density scratch is the stage-1 density
on the faces. -/
theorem convective_derivative_written_once (b : Build) (K : Kernels) (H : HaloService)
    (op : Operator) (w : World) (U_idx N_idx : Int) (plan : HierarchyGhostCellInterpolation)
    (hier : PatchHierarchy) (m : Nat)
    (hpre : b.NDEBUG = true ∨ preconditions op U_idx)
    (hplan : op.d_hier_bdry_fill = some plan) (hhier : op.d_hierarchy = some hier)
    (hmath : op.d_hier_math_ops = some m)
    (hform : op.d_difference_form = ConvectiveDifferencingType.CONSERVATIVE)
    (hvl : op.d_vc_velocity_convective_limiter ≠ VCConvectiveLimiter.UNKNOWN_VC_CONVECTIVE_LIMITER)
    (hdl : op.d_vc_density_convective_limiter ≠ VCConvectiveLimiter.UNKNOWN_VC_CONVECTIVE_LIMITER)
    (hNnew : N_idx ≠ op.d_rho_interp_new_idx) :
    (op.d_vc_density_time_stepping_type = VCDensityTimeSteppingType.VC_FORWARD_EULER →
      ∃ op' w', applyConvectiveOperator b K H op w U_idx N_idx = Except.ok (op', w') ∧
        w'.log = w.log ++ applyEvents b op hier U_idx N_idx ∧
        ∀ ln, ln ∈ levelNumbers op.d_coarsest_ln op.d_finest_ln → ∀ p patch,
          (hier.getPatchLevel ln).get? p = some patch →
          List.count (Event.computeConvectiveDerivative ln p N_idx)
            (applyEvents b op hier U_idx N_idx) = 1 ∧
          ∃ rho_half u_half N,
            faceDensity K op patch ((afterFills b H op plan hier U_idx w).patchData ln p) =
              Except.ok rho_half ∧
            faceVelocity K op patch ((afterFills b H op plan hier U_idx w).patchData ln p) =
              Except.ok u_half ∧
            computeConvectiveDerivative b K op
              ((afterFills b H op plan hier U_idx w).patchData ln p N_idx)
              (advectionVelocity K op patch
                ((afterFills b H op plan hier U_idx w).patchData ln p))
              rho_half u_half (sideBoxes patch) patch.dx = Except.ok N ∧
            w'.data N_idx ln p = N ∧
            ∀ axis, axis < b.NDIM →
              w'.data N_idx ln p axis =
                K.convect_derivative patch.dx (sideBoxes patch axis)
                  (advectionVelocity K op patch
                    ((afterFills b H op plan hier U_idx w).patchData ln p) axis)
                  (K.vc_navier_stokes_compute_momentum (sideBoxes patch) rho_half u_half axis)
                  ((afterFills b H op plan hier U_idx w).patchData ln p N_idx axis)) ∧
    (op.d_vc_density_time_stepping_type = VCDensityTimeSteppingType.VC_SSPRK2 →
      ∃ w1 op' w',
        sweepLevels (firstSweepPatch b K op N_idx) hier
          (levelNumbers op.d_coarsest_ln op.d_finest_ln)
          ((afterFills b H op plan hier U_idx w).record
            [Event.integral op.d_rho_interp_current_idx]) = Except.ok w1 ∧
        applyConvectiveOperator b K H op w U_idx N_idx = Except.ok (op', w') ∧
        w'.log = w.log ++ applyEvents b op hier U_idx N_idx ∧
        w1.data N_idx = (afterFills b H op plan hier U_idx w).data N_idx ∧
        (∀ ln p, firstSweepEvents b op N_idx ln p =
          [Event.computeAdvectionVelocity ln p op.d_U_scratch_idx,
           Event.interpolateSideQuantity ln p op.d_rho_interp_scratch_idx
             op.d_vc_density_convective_limiter] ++
          (List.range b.NDIM).map (fun axis =>
            Event.updateDensity ln p axis op.d_rho_interp_scratch_idx
              op.d_rho_interp_new_idx)) ∧
        ∀ ln, ln ∈ levelNumbers op.d_coarsest_ln op.d_finest_ln → ∀ p patch,
          (hier.getPatchLevel ln).get? p = some patch →
          List.count (Event.computeConvectiveDerivative ln p N_idx)
            (applyEvents b op hier U_idx N_idx) = 1 ∧
          (∀ axis, axis < b.NDIM → ∀ i, (toSideBox patch.box axis).contains b.NDIM i →
            (stageFill b H op hier w1).data op.d_rho_interp_scratch_idx ln p axis i =
              w1.data op.d_rho_interp_new_idx ln p axis i) ∧
          ∃ rho_half2 u_half2 N,
            faceDensity K op patch ((stageFill b H op hier w1).patchData ln p) =
              Except.ok rho_half2 ∧
            faceVelocity K op patch ((stageFill b H op hier w1).patchData ln p) =
              Except.ok u_half2 ∧
            computeConvectiveDerivative b K op
              ((stageFill b H op hier w1).patchData ln p N_idx)
              (advectionVelocity K op patch ((stageFill b H op hier w1).patchData ln p))
              rho_half2 u_half2 (sideBoxes patch) patch.dx = Except.ok N ∧
            w'.data N_idx ln p = N ∧
            ∀ axis, axis < b.NDIM →
              w'.data N_idx ln p axis =
                K.convect_derivative patch.dx (sideBoxes patch axis)
                  (advectionVelocity K op patch
                    ((stageFill b H op hier w1).patchData ln p) axis)
                  (K.vc_navier_stokes_compute_momentum (sideBoxes patch) rho_half2 u_half2
                    axis)
                  ((stageFill b H op hier w1).patchData ln p N_idx axis)) := by
  have hlen : ∀ ln p patch, (hier.getPatchLevel ln).get? p = some patch →
      p < (hier.getPatchLevel ln).length := by
    intro ln p patch hp
    rcases List.get?_eq_some.mp hp with ⟨hlt, _⟩
    exact hlt
  constructor
  · intro hts
    have hne : op.d_vc_density_time_stepping_type ≠ VCDensityTimeSteppingType.VC_SSPRK2 := by
      rw [hts]; decide
    obtain ⟨w1, hw1, _, hpatch⟩ := sweepLevels_spec (firstSweepPatch b K op N_idx) hier
      (firstSweepPatch_ok b K op N_idx hform hvl hdl) _
      (levelNumbers_nodup op.d_coarsest_ln op.d_finest_ln)
      ((afterFills b H op plan hier U_idx w).record
        [Event.integral op.d_rho_interp_current_idx])
    have happly : applyConvectiveOperator b K H op w U_idx N_idx =
        Except.ok (resetSelectOptions
          { op with
            d_hier_bdry_fill :=
              some (velocityFill b H op plan U_idx (w.record [Event.getOperationsDouble])).1 },
          w1.record [Event.integral op.d_rho_interp_new_idx]) := by
      rw [applyConvectiveOperator_eq b K H op w U_idx N_idx plan hier m hpre hplan hhier hmath]
      simp only [sweeps, hw1, if_neg hne]
    refine ⟨_, _, happly, applyConvectiveOperator_log happly hhier, ?_⟩
    intro ln hln p patch hp
    refine ⟨count_derivative_applyEvents b op hier U_idx N_idx ln p hln (hlen ln p patch hp)
      (Or.inl hts), ?_⟩
    obtain ⟨r, hr⟩ := firstSweepPatch_ok b K op N_idx hform hvl hdl ln p patch
      (((afterFills b H op plan hier U_idx w).record
        [Event.integral op.d_rho_interp_current_idx]).patchData ln p)
    obtain ⟨R, U, N, hR, hU, hN, hres⟩ := firstSweepPatch_output hr hts hNnew
    have hdata : (w1.record [Event.integral op.d_rho_interp_new_idx]).data N_idx ln p = N := by
      rw [World.record_data, hpatch ln p patch r hln hp hr, hres]
    refine ⟨R, U, N, hR, hU, hN, hdata, ?_⟩
    intro axis ha
    rw [hdata, computeConvectiveDerivative_apply hform hN axis, if_pos ha]
    rfl
  · intro hts
    have hne : op.d_vc_density_time_stepping_type ≠
        VCDensityTimeSteppingType.VC_FORWARD_EULER := by
      rw [hts]; decide
    obtain ⟨w1, w2, op', hw1, hw2, happly⟩ := applyConvectiveOperator_ssprk2_ok b K H op w
      U_idx N_idx plan hier m hpre hplan hhier hmath hform hvl hdl hts
    obtain ⟨_, _, hdata1⟩ := firstSweep_trace hw1
    obtain ⟨w2', hw2', _, hpatch⟩ := sweepLevels_spec (secondSweepPatch b K op N_idx) hier
      (secondSweepPatch_ok b K op N_idx hform hvl hdl) _
      (levelNumbers_nodup op.d_coarsest_ln op.d_finest_ln) (stageFill b H op hier w1)
    rw [hw2] at hw2'
    injection hw2' with hw2'
    subst hw2'
    refine ⟨w1, op', _, hw1, happly, applyConvectiveOperator_log happly hhier,
      hdata1 N_idx hNnew (Or.inl hne), ?_, ?_⟩
    · intro ln p
      simp [firstSweepEvents, hne]
    · intro ln hln p patch hp
      refine ⟨count_derivative_applyEvents b op hier U_idx N_idx ln p hln (hlen ln p patch hp)
        (Or.inr hts), ?_, ?_⟩
      · intro axis ha i hi
        rw [stageFill_interior b H op hier w1 ln p patch hp axis i hi, if_pos rfl]
      · obtain ⟨r, hr⟩ := secondSweepPatch_ok b K op N_idx hform hvl hdl ln p patch
          ((stageFill b H op hier w1).patchData ln p)
        obtain ⟨R, U, N, hR, hU, hN, hres⟩ := secondSweepPatch_output hr hNnew
        have hdata : (w2.record [Event.integral op.d_rho_interp_new_idx]).data N_idx ln p =
            N := by
          rw [World.record_data, hpatch ln p patch r hln hp hr, hres]
        refine ⟨R, U, N, hR, hU, hN, hdata, ?_⟩
        intro axis ha
        rw [hdata, computeConvectiveDerivative_apply hform hN axis, if_pos ha]

theorem convective_derivative_written_once_witness :
    ∃ op' w', applyConvectiveOperator Examples.release1d Examples.kernels Examples.halo
        (Examples.readyOperator VCDensityTimeSteppingType.VC_FORWARD_EULER 1) Examples.world 3 4 =
          Except.ok (op', w') ∧
      w'.log = Examples.world.log ++ applyEvents Examples.release1d
        (Examples.readyOperator VCDensityTimeSteppingType.VC_FORWARD_EULER 1)
        Examples.hierarchy 3 4 ∧
      List.count (Event.computeConvectiveDerivative 0 0 4)
        (applyEvents Examples.release1d
          (Examples.readyOperator VCDensityTimeSteppingType.VC_FORWARD_EULER 1)
          Examples.hierarchy 3 4) = 1 := by
  obtain ⟨op', w', happly, hlog, hpatch⟩ := (convective_derivative_written_once
    Examples.release1d Examples.kernels Examples.halo
    (Examples.readyOperator VCDensityTimeSteppingType.VC_FORWARD_EULER 1) Examples.world 3 4
    Examples.plan0 Examples.hierarchy 0 (Or.inl rfl) rfl rfl rfl rfl (by decide) (by decide)
    (show (4 : Int) ≠ 2 by decide)).1 rfl
  exact ⟨op', w', happly, hlog, (hpatch 0 (by decide) 0 Examples.patch0 rfl).1⟩

end IBAMR
